import Mathlib

/-!
# CharityApp (MyBudget): authorization and data-ownership contract

A shallow embedding of the Express route handlers of `src/routes/auth.js`,
`src/routes/user.js` and `src/routes/admin.js`, of the gates of
`src/middleware/auth.js` and of the statement splitting of `src/db/init.js`,
with the JavaScript coercions the handlers rely on (`!x`, `x <= 0`,
`parseInt`, `||`, `length`, `===`).

Stateful code is written as explicit state passing: a handler takes the store
and returns the response together with the store after the request.  The
store is a list of rows per table.  Its reads and writes do not fail, except
for a write that breaks a uniqueness constraint (on budgets and on
user_notifications) and a statement the store refuses (a column that is not
there, a NULL limit); the `catch` blocks of the handlers, which answer 500,
are reached that way and when a call throws on a value that is not a string
(`bcrypt.hash`, `bcrypt.compare`, `trim`), and in no other way.
-/

set_option autoImplicit false

namespace CharityApp

/-! ## JavaScript values -/

/-- Result of the JavaScript `ToNumber`.  Finite values are kept as exact
rationals (every double is one); rounding and overflow of doubles are outside
the model. -/
inductive JNum where
  | nan
  | fin (q : ℚ)
  | pinf
  | ninf
  deriving DecidableEq

/-- A value found in a parsed request body (JSON or url-encoded), or
`undefined` for a field that is not there.  Numbers are the finite ones a
body can carry.  Arrays and objects are kept through what the handlers
observe of them: the string `ToPrimitive` gives (`[5]` gives `"5"`, a plain
object gives `"[object Object]"`) and the number `ToNumber` gives for their
property `length` (`NaN` when there is none). -/
inductive JVal where
  | undefined
  | null
  | bool (b : Bool)
  | num (q : ℚ)
  | str (s : String)
  | obj (prim : String) (length : JNum)
  deriving DecidableEq

/-- White space and line terminators that `ToNumber` and `parseInt` strip. -/
def isJsSpace (c : Char) : Bool :=
  let n := c.toNat
  n = 9 || n = 10 || n = 11 || n = 12 || n = 13 || n = 32 || n = 160 ||
  n = 0x1680 || (0x2000 ≤ n && n ≤ 0x200A) || n = 0x2028 || n = 0x2029 ||
  n = 0x202F || n = 0x205F || n = 0x3000 || n = 0xFEFF

/-- Value of a character as a digit of the given radix (at most 36). -/
def digitOf (radix : Nat) (c : Char) : Option Nat :=
  let n := c.toNat
  let v : Option Nat :=
    if 48 ≤ n && n ≤ 57 then some (n - 48)
    else if 97 ≤ n && n ≤ 122 then some (n - 87)
    else if 65 ≤ n && n ≤ 90 then some (n - 55)
    else none
  match v with
  | some d => if d < radix then some d else none
  | none => none

/-- Longest prefix of digits of the radix, with the rest of the input. -/
def takeDigits (radix : Nat) : List Char → List Nat × List Char
  | [] => ([], [])
  | c :: cs =>
    match digitOf radix c with
    | some d => let r := takeDigits radix cs; (d :: r.1, r.2)
    | none => ([], c :: cs)

/-- Number written by a list of digits, most significant first. -/
def digitsValue (radix : Nat) (ds : List Nat) : Nat :=
  ds.foldl (fun a d => radix * a + d) 0

/-- Drop leading characters satisfying `p`. -/
def dropSpaces (p : Char → Bool) : List Char → List Char
  | [] => []
  | c :: cs => if p c then dropSpaces p cs else c :: cs

/-- Strip characters satisfying `p` at both ends. -/
def trimChars (p : Char → Bool) (cs : List Char) : List Char :=
  (dropSpaces p (dropSpaces p cs).reverse).reverse

/-- An optional exponent part `e[+-]ddd`; `none` when an `e` is there without
digits after it, or when anything else follows. -/
def exponentPart : List Char → Option ℤ
  | [] => some 0
  | c :: cs =>
    if c = 'e' || c = 'E' then
      let body (neg : Bool) (r : List Char) : Option ℤ :=
        match takeDigits 10 r with
        | (_ :: _, []) =>
          let v : ℤ := ((digitsValue 10 (takeDigits 10 r).1 : Nat) : ℤ)
          some (if neg then -v else v)
        | _ => none
      match cs with
      | '+' :: r => body false r
      | '-' :: r => body true r
      | r => body false r
    else none

/-- An unsigned decimal literal `ddd[.ddd][e±dd]`, `.ddd[e±dd]` or `ddd.`,
taking up the whole input. -/
def unsignedDecimal (cs : List Char) : Option ℚ :=
  let ip := takeDigits 10 cs
  let fp : List Nat × List Char :=
    match ip.2 with
    | '.' :: t => takeDigits 10 t
    | r => ([], r)
  if ip.1.isEmpty && fp.1.isEmpty then none
  else
    match exponentPart fp.2 with
    | none => none
    | some e =>
      some (((digitsValue 10 (ip.1 ++ fp.1) : Nat) : ℚ) * (10 : ℚ) ^ (e - (fp.1.length : ℤ)))

/-- A whole input of digits of the radix, at least one. -/
def radixLiteral (radix : Nat) (cs : List Char) : JNum :=
  match takeDigits radix cs with
  | (d :: ds, []) => .fin ((digitsValue radix (d :: ds) : Nat) : ℚ)
  | _ => .nan

/-- JavaScript `StringToNumber`: what `ToNumber` gives for a string. -/
def stringToNumber (s : String) : JNum :=
  let cs := trimChars isJsSpace s.toList
  let dec (neg : Bool) (r : List Char) : JNum :=
    if r = "Infinity".toList then (if neg then .ninf else .pinf)
    else
      match unsignedDecimal r with
      | some q => .fin (if neg then -q else q)
      | none => .nan
  match cs with
  | [] => .fin 0
  | '+' :: r => dec false r
  | '-' :: r => dec true r
  | '0' :: x :: r =>
    if x = 'x' || x = 'X' then radixLiteral 16 r
    else if x = 'o' || x = 'O' then radixLiteral 8 r
    else if x = 'b' || x = 'B' then radixLiteral 2 r
    else dec false cs
  | _ => dec false cs

/-- JavaScript `ToNumber`. -/
def toNumber : JVal → JNum
  | .undefined => .nan
  | .null => .fin 0
  | .bool b => .fin (if b then 1 else 0)
  | .num q => .fin q
  | .str s => stringToNumber s
  | .obj p _ => stringToNumber p

/-- JavaScript `ToBoolean`. -/
def truthy : JVal → Bool
  | .undefined => false
  | .null => false
  | .bool b => b
  | .num q => decide (q ≠ 0)
  | .str s => decide (s ≠ "")
  | .obj _ _ => true

/-- The JavaScript `!x`. -/
def jsNot (v : JVal) : Bool := !truthy v

/-- The JavaScript `a || b`. -/
def jsOr (a b : JVal) : JVal := if truthy a then a else b

/-- Abstract relational comparison `a < b` of two numbers; `none` is the
`undefined` result of a comparison with `NaN`. -/
def numLt : JNum → JNum → Option Bool
  | .nan, _ => none
  | _, .nan => none
  | .fin a, .fin b => some (decide (a < b))
  | .pinf, _ => some false
  | _, .pinf => some true
  | _, .ninf => some false
  | .ninf, _ => some true

/-- The JavaScript `v < c` for a number literal `c`. -/
def jsLt (v : JVal) (c : ℚ) : Bool := (numLt (toNumber v) (.fin c)).getD false

/-- The JavaScript `v > c` for a number literal `c`. -/
def jsGt (v : JVal) (c : ℚ) : Bool := (numLt (.fin c) (toNumber v)).getD false

/-- The JavaScript `v <= c` for a number literal `c`: true when `c < v` is
false, and false when that comparison is undefined. -/
def jsLe (v : JVal) (c : ℚ) : Bool :=
  match numLt (.fin c) (toNumber v) with
  | some b => !b
  | none => false

/-- Integer part of a rational, towards zero. -/
def truncQ (q : ℚ) : ℤ := if 0 ≤ q then ⌊q⌋ else -⌊-q⌋

/-- Leading decimal digit of a positive rational. -/
def leadingDigit (q : ℚ) : ℤ :=
  if 1 ≤ q then
    let n := ⌊q⌋.toNat
    ((n / 10 ^ Nat.log 10 n : Nat) : ℤ)
  else
    let k := Nat.clog 10 ((q.den + q.num.toNat - 1) / q.num.toNat)
    ⌊q * (10 : ℚ) ^ k⌋

/-- JavaScript `parseInt(s)` for a string, radix left out; `none` is `NaN`. -/
def parseIntString (s : String) : Option ℤ :=
  let cs := dropSpaces isJsSpace s.toList
  let body (neg : Bool) (r : List Char) : Option ℤ :=
    let hex : Bool :=
      match r with
      | '0' :: x :: _ => x = 'x' || x = 'X'
      | _ => false
    let radix : Nat := if hex then 16 else 10
    let ds : List Nat := (takeDigits radix (if hex then r.drop 2 else r)).1
    if ds.isEmpty then none
    else some (if neg then -((digitsValue radix ds : Nat) : ℤ) else ((digitsValue radix ds : Nat) : ℤ))
  match cs with
  | '+' :: r => body false r
  | '-' :: r => body true r
  | r => body false r

/-- JavaScript `parseInt(v)`; `none` is `NaN`.  The value is turned into a
string first.  A number is written in plain decimal when its magnitude is in
`[1e-6, 1e21)`, so its integer part is read; otherwise it is written in
exponent form and only its leading digit is read. -/
def parseInt : JVal → Option ℤ
  | .undefined => none
  | .null => none
  | .bool _ => none
  | .num q =>
    if q = 0 then some 0
    else if (1 / 1000000 : ℚ) ≤ |q| ∧ |q| < (10 : ℚ) ^ 21 then some (truncQ q)
    else some (if 0 ≤ q then leadingDigit q else -leadingDigit (-q))
  | .str s => parseIntString s
  | .obj p _ => parseIntString p

/-- Length of a string in UTF-16 code units, the JavaScript `length`. -/
def utf16Length (s : String) : Nat :=
  (s.toList.map (fun c => if c.toNat < 0x10000 then 1 else 2)).sum

/-- The JavaScript `s.padStart(2, '0')`. -/
def padStart2 (s : String) : String :=
  if utf16Length s = 0 then "00" else if utf16Length s = 1 then "0" ++ s else s

/-- A query-string parameter: absent or a string (repeated and nested
parameters, which arrive as arrays and objects, are left out). -/
abbrev QParam := Option String

/-- Truthiness of a query-string parameter. -/
def qTruthy : QParam → Bool
  | none => false
  | some s => decide (s ≠ "")

/-! ## The store

`src/db/connection.js` and `src/db/init.sql` are not among the sources.  The
store is a list of rows per table; `getRow` is `List.find?`, `getAll` is
`List.filter`, and `runQuery` is an update of the list. -/

/-- Modelled from the spec: a value held in a column or bound to a statement
parameter (the data access layer is missing): NULL, a number or a text. -/
inductive SqlVal where
  | null
  | num (q : ℚ)
  | text (s : String)
  deriving DecidableEq

/-- Binding of a JavaScript value as a statement parameter by the `sqlite3`
driver: a string as that text, a number as that number, a boolean as 1 or 0,
`null` and `undefined` as NULL, and every array and every plain object as the
text `[object Object]`. -/
def bind : JVal → SqlVal
  | .undefined => .null
  | .null => .null
  | .bool b => .num (if b then 1 else 0)
  | .num q => .num q
  | .str s => .text s
  | .obj _ _ => .text "[object Object]"

/-- Binding of a `parseInt` result; `NaN` is stored as NULL. -/
def bindInt : Option ℤ → SqlVal
  | none => .null
  | some z => .num z

/-- White space skipped by the store around a numeric text. -/
def isSqlSpace (c : Char) : Bool :=
  let n := c.toNat
  n = 9 || n = 10 || n = 11 || n = 12 || n = 13 || n = 32

/-- A text that is a well-formed integer or real literal, as a number. -/
def numericLiteral (s : String) : Option ℚ :=
  match trimChars isSqlSpace s.toList with
  | '+' :: r => unsignedDecimal r
  | '-' :: r => (unsignedDecimal r).map (fun q => -q)
  | r => unsignedDecimal r

/-- Column affinity NUMERIC (the decimal and integer columns): a text that
looks like a number is stored as that number. -/
def numericAffinity : SqlVal → SqlVal
  | .text s =>
    match numericLiteral s with
    | some q => .num q
    | none => .text s
  | v => v

/-- Exponent read by the store at the end of a numeric prefix, 0 when it is
not well formed. -/
def leadingExponent : List Char → ℤ
  | [] => 0
  | c :: cs =>
    if c = 'e' || c = 'E' then
      let body (neg : Bool) (r : List Char) : ℤ :=
        let v : ℤ := ((digitsValue 10 (takeDigits 10 r).1 : Nat) : ℤ)
        if neg then -v else v
      match cs with
      | '+' :: r => body false r
      | '-' :: r => body true r
      | r => body false r
    else 0

/-- Number the store reads at the start of a text; 0 when there is none. -/
def leadingNumber (s : String) : ℚ :=
  let body (r : List Char) : ℚ :=
    let ip := takeDigits 10 r
    let fp : List Nat × List Char :=
      match ip.2 with
      | '.' :: t => takeDigits 10 t
      | t => ([], t)
    if ip.1.isEmpty && fp.1.isEmpty then 0
    else ((digitsValue 10 (ip.1 ++ fp.1) : Nat) : ℚ) *
      (10 : ℚ) ^ (leadingExponent fp.2 - (fp.1.length : ℤ))
  match dropSpaces isSqlSpace s.toList with
  | '+' :: r => body r
  | '-' :: r => -body r
  | r => body r

/-- Numeric value of a column in arithmetic and in `SUM`; `none` is NULL. -/
def sqlReal : SqlVal → Option ℚ
  | .null => none
  | .num q => some q
  | .text s => some (leadingNumber s)

/-- The SQL comparison `a = b` taken as a condition: a comparison with NULL
does not hold. -/
def sqlEq : SqlVal → SqlVal → Bool
  | .num a, .num b => decide (a = b)
  | .text a, .text b => decide (a = b)
  | _, _ => false

/-- Order of two texts by code point. -/
def textLe : List Char → List Char → Bool
  | [], _ => true
  | _ :: _, [] => false
  | a :: as, b :: bs => a.toNat < b.toNat || (a.toNat = b.toNat && textLe as bs)

/-- Sort order of the store: NULL first, then numbers, then texts. -/
def sqlLe : SqlVal → SqlVal → Bool
  | .null, _ => true
  | .num _, .null => false
  | .num a, .num b => decide (a ≤ b)
  | .num _, .text _ => true
  | .text a, .text b => textLe a.toList b.toList
  | .text _, _ => false

/-- Insert a row into a list sorted in descending order of the key, after the
rows of equal key. -/
def insertDesc {α : Type} (key : α → SqlVal) (x : α) : List α → List α
  | [] => [x]
  | y :: ys => if sqlLe (key x) (key y) then y :: insertDesc key x ys else x :: y :: ys

/-- `ORDER BY key DESC`; rows of equal key keep their table order. -/
def orderByDesc {α : Type} (key : α → SqlVal) (rows : List α) : List α :=
  rows.foldl (fun acc x => insertDesc key x acc) []

/-- A path parameter `:id`.  It is a string, and the handlers use it in
three ways only: bound to `WHERE id = ?` against an integer key column, where
the store compares it as the number `sqlKey` (`none`: it equals no key);
through `parseInt(id)`, which gives `parsed` (`none`: `NaN`); and bound to a
value inserted into an integer column, which keeps it as `stored`. -/
structure IdParam where
  sqlKey : Option Nat
  parsed : Option ℤ
  stored : SqlVal
  deriving DecidableEq

/-- The path parameter that is the decimal writing of the id `n`. -/
def IdParam.ofId (n : Nat) : IdParam := ⟨some n, some (n : ℤ), .num n⟩

/-- The condition `id = ?` for the path parameter on a row with key `k`. -/
def IdParam.selects (p : IdParam) (k : Nat) : Bool := p.sqlKey == some k

/-- The path parameter with the text `s`.  Compared with an integer key, a
text that writes a number is taken as that number (`10e-1` as 1) and any
other text equals no key; `parseInt` reads the digits the text starts with
(`10e-1` as 10); an integer column stores the number the text writes. -/
def IdParam.ofPath (s : String) : IdParam :=
  { sqlKey :=
      match numericLiteral s with
      | some q => if q.den = 1 ∧ 0 ≤ q.num then some q.num.toNat else none
      | none => none,
    parsed := parseIntString s,
    stored := numericAffinity (.text s) }

/-- Modelled from the spec: row of `users` (User: id, name, email, password
hash, role, status); the timestamps are left out. -/
structure User where
  id : Nat
  name : SqlVal
  email : SqlVal
  password_hash : SqlVal
  role : SqlVal
  status : SqlVal
  deriving DecidableEq

/-- Modelled from the spec: row of `expenses` (Expense: id, owning user id,
category, amount, description, date); `created_at` is left out. -/
structure Expense where
  id : Nat
  user_id : Nat
  category : SqlVal
  amount : SqlVal
  description : SqlVal
  date : SqlVal
  deriving DecidableEq

/-- Modelled from the spec: row of `income` (same shape as Expense with
`source` in place of `category`). -/
structure Income where
  id : Nat
  user_id : Nat
  source : SqlVal
  amount : SqlVal
  description : SqlVal
  date : SqlVal
  deriving DecidableEq

/-- Modelled from the spec: row of `budgets` (Budget: id, owning user id,
category, limit_amount, month, year). -/
structure Budget where
  id : Nat
  user_id : Nat
  category : SqlVal
  limit_amount : SqlVal
  month : SqlVal
  year : SqlVal
  deriving DecidableEq

/-- Modelled from the spec: row of `education`. -/
structure Education where
  id : Nat
  title : SqlVal
  content : SqlVal
  created_by : SqlVal
  deriving DecidableEq

/-- Modelled from the spec: row of `notifications`. -/
structure Notification where
  id : Nat
  message : SqlVal
  type : SqlVal
  expires_at : SqlVal
  user_id : SqlVal
  deriving DecidableEq

/-- Modelled from the spec: row of `user_notifications`, the per-user read
state with composite key (user_id, notification_id). -/
structure UserNotification where
  user_id : SqlVal
  notification_id : SqlVal
  read_status : SqlVal
  deriving DecidableEq

/-- The persistent store: the seven tables, rows in insertion order. -/
structure Db where
  users : List User
  expenses : List Expense
  income : List Income
  budgets : List Budget
  education : List Education
  notifications : List Notification
  user_notifications : List UserNotification
  deriving DecidableEq

/-- Modelled from the spec: the key given to an inserted row, one more than
the largest key of the table (keys are positive and never shared). -/
def nextId (ids : List Nat) : Nat := ids.foldr max 0 + 1

/-- The tables whose rows carry a creation time. -/
inductive Table where
  | users
  | expenses
  | income
  | education
  | notifications
  deriving DecidableEq

/-- What the store, the clock and the password library give beyond the
tables: the date functions of the store, the current month and year of the
server, the creation time of the rows (the timestamps are not kept in the
rows) and the `bcryptjs` functions. -/
structure Env where
  /-- The SQL `strftime("%m", d)`. -/
  strftimeM : SqlVal → SqlVal
  /-- The SQL `strftime("%Y", d)`. -/
  strftimeY : SqlVal → SqlVal
  /-- The SQL `strftime("%Y-%m", d)`. -/
  strftimeYM : SqlVal → SqlVal
  /-- The SQL condition `d >= date('now', '-6 months')`. -/
  sinceSixMonths : SqlVal → Bool
  /-- The JavaScript `new Date().getMonth() + 1`. -/
  month : Nat
  /-- The JavaScript `new Date().getFullYear()`. -/
  year : Nat
  /-- The column `created_at` of the row with this key. -/
  createdAt : Table → Nat → SqlVal
  /-- The SQL condition `d >= date('now', '-30 days')`. -/
  sinceThirtyDays : SqlVal → Bool
  /-- The SQL condition `d > datetime('now')`. -/
  afterNow : SqlVal → Bool
  /-- The JavaScript `new Date().toISOString()`. -/
  nowIso : String
  /-- The hash `bcrypt.hash(password, 10)` resolves to. -/
  bcryptHash : String → String
  /-- The boolean `bcrypt.compare(password, hash)` resolves to. -/
  bcryptCompare : String → String → Bool

/-! ## Responses -/

/-- Row of the `expensesByCategory` and `spendingTrend` lists: the group key
and the `SUM(amount)` of the group. -/
structure GroupTotal where
  key : SqlVal
  total : SqlVal
  deriving DecidableEq

/-- The `data` object of the spending summary. -/
structure SpendingSummary where
  expensesByCategory : List GroupTotal
  spendingTrend : List GroupTotal
  totalIncome : ℚ
  totalExpenses : ℚ
  savings : ℚ
  deriving DecidableEq

/-- Row of the budget analysis. -/
structure BudgetAnalysisRow where
  category : SqlVal
  budget_limit : SqlVal
  actual_spent : ℚ
  remaining : SqlVal
  status : String
  deriving DecidableEq

/-- The columns of a `users` row that a response carries; a column the
query or the handler leaves out is `none`. -/
structure UserView where
  id : Nat
  name : SqlVal
  email : SqlVal
  role : Option SqlVal
  status : Option SqlVal
  deriving DecidableEq

/-- Row of the education lists: `e.*` and `u.name as created_by_name`. -/
structure EducationView where
  id : Nat
  title : SqlVal
  content : SqlVal
  created_by : SqlVal
  created_by_name : SqlVal
  deriving DecidableEq

/-- Row of the admin notification list: `n.*` and the `read_count`. -/
structure NotificationView where
  id : Nat
  message : SqlVal
  type : SqlVal
  expires_at : SqlVal
  user_id : SqlVal
  read_count : Nat
  deriving DecidableEq

/-- Row of `topCategories`. -/
structure CategoryCount where
  category : SqlVal
  count : Nat
  deriving DecidableEq

/-- Row of an activity feed; `user_name` is there in the system feed only. -/
structure ActivityRow where
  type : String
  description : SqlVal
  amount : SqlVal
  date : SqlVal
  user_name : Option SqlVal
  created_at : Option SqlVal
  deriving DecidableEq

/-- The `stats` object of `GET /stats`. -/
structure Stats where
  totalUsers : Nat
  activeUsers : Nat
  totalExpenses : Nat
  totalIncome : Nat
  topCategories : List CategoryCount
  recentActivity : List ActivityRow
  deriving DecidableEq

/-- What a response body carries besides `success` and `message`. -/
inductive Payload where
  | none
  | insertedId (id : Nat)
  | expenses (rows : List Expense)
  | income (rows : List Income)
  | budgets (rows : List Budget)
  | summary (data : SpendingSummary)
  | budgetAnalysis (rows : List BudgetAnalysisRow)
  | user (u : UserView)
  | users (rows : List UserView)
  | education (rows : List EducationView)
  | educationItem (row : EducationView)
  | notifications (rows : List Notification)
  | adminNotifications (rows : List NotificationView)
  | notification (row : Notification)
  | stats (data : Stats)
  | activity (user : SqlVal) (rows : List ActivityRow)
  | chat (response : String) (timestamp : String)
  deriving DecidableEq

/-- An HTTP response: the status code and the JSON envelope. -/
structure Response where
  status : Nat
  success : Bool
  message : Option String
  payload : Payload
  deriving DecidableEq

/-- The `res.json` of a success with a payload (status 200). -/
def okWith (p : Payload) : Response := ⟨200, true, none, p⟩

/-- The `res.json` of a success with a message (status 200). -/
def okMsg (m : String) : Response := ⟨200, true, some m, .none⟩

/-- The `res.status(201).json` of a creation. -/
def created (m : String) (id : Nat) : Response := ⟨201, true, some m, .insertedId id⟩

/-- The `res.status(code).json` of a failure. -/
def failure (code : Nat) (m : String) : Response := ⟨code, false, some m, .none⟩

/-! ## The gates of `src/middleware/auth.js` -/

/-- The server-side session: what login stored in it. -/
structure Session where
  userId : Option Nat
  role : SqlVal
  name : SqlVal
  email : SqlVal
  deriving DecidableEq

/-- The JavaScript `!req.session.userId`: no id, or the number 0. -/
def Session.noUserId (s : Session) : Bool :=
  match s.userId with
  | none => true
  | some n => n == 0

/-- Outcome of a middleware: it answers itself, or calls `next`. -/
inductive Gate where
  | next
  | respond (r : Response)
  deriving DecidableEq

/-- The store query `SELECT ... FROM users WHERE id = ?` for a session id. -/
def userById (db : Db) (uid : Option Nat) : Option User :=
  db.users.find? (fun u => some u.id == uid)

/-- The middleware `requireAuth`. -/
def requireAuth (s : Session) : Gate :=
  if s.noUserId then .respond (failure 401 "Authentication required") else .next

/-- The middleware `requireAdmin`. -/
def requireAdmin (s : Session) (db : Db) : Gate :=
  if s.noUserId then .respond (failure 401 "Authentication required")
  else
    match userById db s.userId with
    | none => .respond (failure 401 "User not found")
    | some user =>
      if user.status ≠ .text "active" then .respond (failure 403 "Account is inactive")
      else if user.role ≠ .text "admin" then .respond (failure 403 "Admin access required")
      else .next

/-- The middleware `requireActiveUser`. -/
def requireActiveUser (s : Session) (db : Db) : Gate :=
  if s.noUserId then .respond (failure 401 "Authentication required")
  else
    match userById db s.userId with
    | none => .respond (failure 401 "User not found")
    | some user =>
      if user.status ≠ .text "active" then .respond (failure 403 "Account is inactive")
      else .next

/-- A route of the user router: `router.use(requireActiveUser)` runs first,
then the handler with `req.session.userId`. -/
def userRoute (handler : Nat → Db → Response × Db) (s : Session) (db : Db) : Response × Db :=
  match requireActiveUser s db with
  | .next => handler (s.userId.getD 0) db
  | .respond r => (r, db)

/-- A route of the admin router: `router.use(requireAdmin)` runs first, then
the handler with `req.session.userId`. -/
def adminRoute (handler : Nat → Db → Response × Db) (s : Session) (db : Db) : Response × Db :=
  match requireAdmin s db with
  | .next => handler (s.userId.getD 0) db
  | .respond r => (r, db)

/-! ## Expenses (`src/routes/user.js`) -/

/-- The condition `strftime("%m", date) = ? AND strftime("%Y", date) = ?` for
the parameters made from `month` and `year`. -/
def inPeriod (env : Env) (date : SqlVal) (mm yyyy : String) : Bool :=
  sqlEq (env.strftimeM date) (.text mm) && sqlEq (env.strftimeY date) (.text yyyy)

/-- Handler of `GET /expenses`. -/
def getExpenses (env : Env) (month year category : QParam) (uid : Nat) (db : Db) :
    Response × Db :=
  let rows := db.expenses.filter (fun e => e.user_id == uid)
  let rows :=
    if qTruthy month && qTruthy year then
      rows.filter (fun e => inPeriod env e.date (padStart2 (month.getD "")) (year.getD ""))
    else rows
  let rows :=
    if qTruthy category then rows.filter (fun e => sqlEq e.category (.text (category.getD "")))
    else rows
  (okWith (.expenses (orderByDesc (fun e => e.date) rows)), db)

/-- Body of `POST /expenses` and of `PUT /expenses/:id`. -/
structure ExpenseBody where
  category : JVal
  amount : JVal
  description : JVal
  date : JVal

/-- Handler of `POST /expenses`. -/
def postExpense (b : ExpenseBody) (uid : Nat) (db : Db) : Response × Db :=
  if jsNot b.category || jsNot b.amount || jsNot b.date then
    (failure 400 "Category, amount, and date are required", db)
  else if jsLe b.amount 0 then
    (failure 400 "Amount must be greater than 0", db)
  else
    let id := nextId (db.expenses.map (fun e => e.id))
    (created "Expense added successfully" id,
      { db with expenses := db.expenses ++
          [{ id := id, user_id := uid, category := bind b.category,
             amount := numericAffinity (bind b.amount),
             description := bind (jsOr b.description (.str "")), date := bind b.date }] })

/-- The `SET` clause of `UPDATE expenses`: the four columns are overwritten. -/
def setExpense (b : ExpenseBody) (e : Expense) : Expense :=
  { e with category := bind b.category, amount := numericAffinity (bind b.amount),
           description := bind (jsOr b.description (.str "")), date := bind b.date }

/-- Handler of `PUT /expenses/:id`. -/
def putExpense (id : IdParam) (b : ExpenseBody) (uid : Nat) (db : Db) : Response × Db :=
  match db.expenses.find? (fun e => id.selects e.id && e.user_id == uid) with
  | none => (failure 404 "Expense not found", db)
  | some _ =>
    if jsLe b.amount 0 then (failure 400 "Amount must be greater than 0", db)
    else
      (okMsg "Expense updated successfully",
        { db with expenses := db.expenses.map (fun e =>
            if id.selects e.id then setExpense b e else e) })

/-- Handler of `DELETE /expenses/:id`. -/
def deleteExpense (id : IdParam) (uid : Nat) (db : Db) : Response × Db :=
  match db.expenses.find? (fun e => id.selects e.id && e.user_id == uid) with
  | none => (failure 404 "Expense not found", db)
  | some _ =>
    (okMsg "Expense deleted successfully",
      { db with expenses := db.expenses.filter (fun e => !id.selects e.id) })

/-! ## Income -/

/-- Handler of `GET /income`. -/
def getIncome (env : Env) (month year : QParam) (uid : Nat) (db : Db) : Response × Db :=
  let rows := db.income.filter (fun i => i.user_id == uid)
  let rows :=
    if qTruthy month && qTruthy year then
      rows.filter (fun i => inPeriod env i.date (padStart2 (month.getD "")) (year.getD ""))
    else rows
  (okWith (.income (orderByDesc (fun i => i.date) rows)), db)

/-- Body of `POST /income` and of `PUT /income/:id`. -/
structure IncomeBody where
  source : JVal
  amount : JVal
  description : JVal
  date : JVal

/-- Handler of `POST /income`. -/
def postIncome (b : IncomeBody) (uid : Nat) (db : Db) : Response × Db :=
  if jsNot b.source || jsNot b.amount || jsNot b.date then
    (failure 400 "Source, amount, and date are required", db)
  else if jsLe b.amount 0 then
    (failure 400 "Amount must be greater than 0", db)
  else
    let id := nextId (db.income.map (fun i => i.id))
    (created "Income added successfully" id,
      { db with income := db.income ++
          [{ id := id, user_id := uid, source := bind b.source,
             amount := numericAffinity (bind b.amount),
             description := bind (jsOr b.description (.str "")), date := bind b.date }] })

/-- The `SET` clause of `UPDATE income`: the four columns are overwritten. -/
def setIncome (b : IncomeBody) (i : Income) : Income :=
  { i with source := bind b.source, amount := numericAffinity (bind b.amount),
           description := bind (jsOr b.description (.str "")), date := bind b.date }

/-- Handler of `PUT /income/:id`. -/
def putIncome (id : IdParam) (b : IncomeBody) (uid : Nat) (db : Db) : Response × Db :=
  match db.income.find? (fun i => id.selects i.id && i.user_id == uid) with
  | none => (failure 404 "Income not found", db)
  | some _ =>
    if jsLe b.amount 0 then (failure 400 "Amount must be greater than 0", db)
    else
      (okMsg "Income updated successfully",
        { db with income := db.income.map (fun i =>
            if id.selects i.id then setIncome b i else i) })

/-- Handler of `DELETE /income/:id`. -/
def deleteIncome (id : IdParam) (uid : Nat) (db : Db) : Response × Db :=
  match db.income.find? (fun i => id.selects i.id && i.user_id == uid) with
  | none => (failure 404 "Income not found", db)
  | some _ =>
    (okMsg "Income deleted successfully",
      { db with income := db.income.filter (fun i => !id.selects i.id) })

/-! ## Budgets -/

/-- Handler of `GET /budgets`. -/
def getBudgets (month year : QParam) (uid : Nat) (db : Db) : Response × Db :=
  let rows := db.budgets.filter (fun b => b.user_id == uid)
  let rows :=
    if qTruthy month && qTruthy year then
      rows.filter (fun b =>
        sqlEq b.month (bindInt (parseIntString (month.getD ""))) &&
        sqlEq b.year (bindInt (parseIntString (year.getD ""))))
    else rows
  (okWith (.budgets (orderByDesc (fun b => b.month) (orderByDesc (fun b => b.year) rows))), db)

/-- Modelled from the spec: two budget rows take the same slot (user,
category, month, year); the schema is missing, the spec says the slot is
guarded by a uniqueness constraint.  A NULL never equals anything. -/
def sameSlot (a b : Budget) : Bool :=
  a.user_id == b.user_id && sqlEq a.category b.category &&
  sqlEq a.month b.month && sqlEq a.year b.year

/-- Modelled from the spec: message of the error the store raises when the
uniqueness constraint on budgets is violated. -/
def uniqueFailed : String :=
  "SQLITE_CONSTRAINT: UNIQUE constraint failed: " ++
  "budgets.user_id, budgets.category, budgets.month, budgets.year"

/-- Modelled from the spec: `INSERT INTO budgets`, refused when the slot is
taken. -/
def insertBudget (row : Budget) (db : Db) : Except String Db :=
  if db.budgets.any (fun r => sameSlot row r) then .error uniqueFailed
  else .ok { db with budgets := db.budgets ++ [row] }

/-- Modelled from the spec: `UPDATE budgets SET ... WHERE id = ?`, refused
when a changed row would take the slot of another row. -/
def updateBudget (id : IdParam) (set : Budget → Budget) (db : Db) : Except String Db :=
  if db.budgets.any (fun t => id.selects t.id &&
      db.budgets.any (fun r => r.id != t.id && sameSlot (set t) r)) then .error uniqueFailed
  else .ok { db with budgets := db.budgets.map (fun r => if id.selects r.id then set r else r) }

/-- The JavaScript `s.includes(pat)`. -/
def includes (s pat : String) : Bool :=
  s.toList.tails.any (fun t => pat.toList.isPrefixOf t)

/-- The `catch` block of `POST /budgets`, for an error with this message. -/
def postBudgetCatch (errorMessage : String) : Response :=
  if includes errorMessage "UNIQUE constraint failed" then
    failure 400 "Budget for this category already exists for this month and year"
  else failure 500 "Server error"

/-- Body of `POST /budgets` and of `PUT /budgets/:id`. -/
structure BudgetBody where
  category : JVal
  limit_amount : JVal
  month : JVal
  year : JVal

/-- The row `POST /budgets` asks the store to insert. -/
def budgetRow (id uid : Nat) (b : BudgetBody) : Budget :=
  { id := id, user_id := uid, category := bind b.category,
    limit_amount := numericAffinity (bind b.limit_amount),
    month := bindInt (parseInt b.month), year := bindInt (parseInt b.year) }

/-- The validation of `POST /budgets`: the 400 answer, or `none` when the
body passes. -/
def validateBudget (b : BudgetBody) : Option Response :=
  if jsNot b.category || jsNot b.limit_amount || jsNot b.month || jsNot b.year then
    some (failure 400 "Category, limit amount, month, and year are required")
  else if jsLe b.limit_amount 0 then
    some (failure 400 "Limit amount must be greater than 0")
  else if jsLt b.month 1 || jsGt b.month 12 then
    some (failure 400 "Month must be between 1 and 12")
  else none

/-- Handler of `POST /budgets`. -/
def postBudget (b : BudgetBody) (uid : Nat) (db : Db) : Response × Db :=
  match validateBudget b with
  | some r => (r, db)
  | none =>
    let id := nextId (db.budgets.map (fun r => r.id))
    match insertBudget (budgetRow id uid b) db with
    | .ok db' => (created "Budget added successfully" id, db')
    | .error e => (postBudgetCatch e, db)

/-- The `SET` clause of `UPDATE budgets`: the four columns are overwritten. -/
def setBudget (b : BudgetBody) (r : Budget) : Budget :=
  { r with category := bind b.category, limit_amount := numericAffinity (bind b.limit_amount),
           month := bindInt (parseInt b.month), year := bindInt (parseInt b.year) }

/-- Handler of `PUT /budgets/:id`. -/
def putBudget (id : IdParam) (b : BudgetBody) (uid : Nat) (db : Db) : Response × Db :=
  match db.budgets.find? (fun r => id.selects r.id && r.user_id == uid) with
  | none => (failure 404 "Budget not found", db)
  | some _ =>
    if jsLe b.limit_amount 0 then (failure 400 "Limit amount must be greater than 0", db)
    else if jsLt b.month 1 || jsGt b.month 12 then
      (failure 400 "Month must be between 1 and 12", db)
    else
      match updateBudget id (setBudget b) db with
      | .ok db' => (okMsg "Budget updated successfully", db')
      | .error _ => (failure 500 "Server error", db)

/-- Handler of `DELETE /budgets/:id`. -/
def deleteBudget (id : IdParam) (uid : Nat) (db : Db) : Response × Db :=
  match db.budgets.find? (fun r => id.selects r.id && r.user_id == uid) with
  | none => (failure 404 "Budget not found", db)
  | some _ =>
    (okMsg "Budget deleted successfully",
      { db with budgets := db.budgets.filter (fun r => !id.selects r.id) })

/-! ## Reports -/

/-- The SQL `SUM` of a column over a group: NULL when no value is there. -/
def sqlSum (vals : List SqlVal) : SqlVal :=
  match vals.filterMap sqlReal with
  | [] => .null
  | x :: xs => .num (x :: xs).sum

/-- The SQL `COALESCE(v, 0)` of a sum, as the number the handler reads. -/
def coalesceZero : SqlVal → ℚ
  | .num q => q
  | _ => 0

/-- `SELECT key, SUM(val) ... GROUP BY key`, groups by first appearance. -/
def groupTotals {α : Type} (key val : α → SqlVal) (rows : List α) : List GroupTotal :=
  (rows.map key).eraseDups.map (fun k =>
    { key := k, total := sqlSum ((rows.filter (fun r => key r == k)).map val) })

/-- Insert a row into a list sorted in ascending order of the key, after the
rows of equal key. -/
def insertAsc {α : Type} (key : α → SqlVal) (x : α) : List α → List α
  | [] => [x]
  | y :: ys => if sqlLe (key y) (key x) then y :: insertAsc key x ys else x :: y :: ys

/-- `ORDER BY key`; rows of equal key keep their order. -/
def orderByAsc {α : Type} (key : α → SqlVal) (rows : List α) : List α :=
  rows.foldl (fun acc x => insertAsc key x acc) []

/-- The text of `currentMonth.toString()` (or of the year), where
`currentMonth = month || new Date().getMonth() + 1`. -/
def currentText (q : QParam) (now : Nat) : String :=
  if qTruthy q then q.getD "" else toString now

/-- The number `parseInt(currentMonth)` (or of the year). -/
def currentInt (q : QParam) (now : Nat) : Option ℤ :=
  if qTruthy q then parseIntString (q.getD "") else some (now : ℤ)

/-- Handler of `GET /reports/spending-summary`. -/
def getSpendingSummary (env : Env) (month year : QParam) (uid : Nat) (db : Db) :
    Response × Db :=
  let mm := padStart2 (currentText month env.month)
  let yyyy := currentText year env.year
  let mine := db.expenses.filter (fun e => e.user_id == uid && inPeriod env e.date mm yyyy)
  let expensesByCategory :=
    orderByDesc (fun g => g.total) (groupTotals (fun e => e.category) (fun e => e.amount) mine)
  let spendingTrend :=
    orderByAsc (fun g => g.key)
      (groupTotals (fun e => env.strftimeYM e.date) (fun e => e.amount)
        (db.expenses.filter (fun e => e.user_id == uid && env.sinceSixMonths e.date)))
  let totalIncome := coalesceZero (sqlSum
    ((db.income.filter (fun i => i.user_id == uid && inPeriod env i.date mm yyyy)).map
      (fun i => i.amount)))
  let totalExpenses := coalesceZero (sqlSum (mine.map (fun e => e.amount)))
  (okWith (.summary
    { expensesByCategory := expensesByCategory, spendingTrend := spendingTrend,
      totalIncome := totalIncome, totalExpenses := totalExpenses,
      savings := totalIncome - totalExpenses }), db)

/-- The `CASE` of the budget analysis for two numbers: `over` above the
limit, `warning` above 0.8 times the limit, else `good`. -/
def statusOf (limit actual : ℚ) : String :=
  if actual > limit then "over"
  else if actual > limit * (4 / 5) then "warning"
  else "good"

/-- The `CASE` of the budget analysis on a stored limit.  A comparison with
NULL does not hold; a number is never above a text; in the product a text
counts as the number it starts with. -/
def budgetStatus (limit : SqlVal) (actual : ℚ) : String :=
  match limit with
  | .null => "good"
  | .num l => statusOf l actual
  | .text s => if actual > leadingNumber s * (4 / 5) then "warning" else "good"

/-- The expenses the `LEFT JOIN` of the budget analysis attaches to a budget
row: `b.category = e.category` and the date in the period. -/
def joinedExpenses (env : Env) (mm yyyy : String) (b : Budget) (db : Db) : List Expense :=
  db.expenses.filter (fun e => sqlEq b.category e.category && inPeriod env e.date mm yyyy)

/-- Handler of `GET /reports/budget-analysis`. -/
def getBudgetAnalysis (env : Env) (month year : QParam) (uid : Nat) (db : Db) :
    Response × Db :=
  let mm := padStart2 (currentText month env.month)
  let yyyy := currentText year env.year
  let budgets := db.budgets.filter (fun b =>
    b.user_id == uid && sqlEq b.month (bindInt (currentInt month env.month)) &&
    sqlEq b.year (bindInt (currentInt year env.year)))
  (okWith (.budgetAnalysis (budgets.map (fun b =>
    let actual := coalesceZero (sqlSum ((joinedExpenses env mm yyyy b db).map (fun e => e.amount)))
    { category := b.category, budget_limit := b.limit_amount, actual_spent := actual,
      remaining :=
        match sqlReal b.limit_amount with
        | some l => .num (l - actual)
        | none => .null,
      status := budgetStatus b.limit_amount actual }))), db)

/-! ## User management (`src/routes/admin.js`) -/

/-- Handler of `PUT /users/:id/status`. -/
def putUserStatus (id : IdParam) (status : JVal) (_uid : Nat) (db : Db) : Response × Db :=
  if status ≠ .str "active" ∧ status ≠ .str "inactive" then
    (failure 400 "Invalid status. Must be active or inactive", db)
  else
    match db.users.find? (fun u => id.selects u.id) with
    | none => (failure 404 "User not found", db)
    | some _ =>
      (okMsg "User status updated successfully",
        { db with users := db.users.map (fun u =>
            if id.selects u.id then { u with status := bind status } else u) })

/-- Handler of `DELETE /users/:id`. -/
def deleteUser (id : IdParam) (uid : Nat) (db : Db) : Response × Db :=
  match db.users.find? (fun u => id.selects u.id) with
  | none => (failure 404 "User not found", db)
  | some _ =>
    if id.parsed = some (uid : ℤ) then (failure 400 "Cannot delete your own account", db)
    else
      (okMsg "User deleted successfully",
        { db with users := db.users.filter (fun u => !id.selects u.id) })

/-! ## JavaScript helpers of the remaining handlers -/

/-- The number behind `v.length` for a value that is not `null` or
`undefined`: the length of a string, the `length` of an array or object,
`NaN` (from `undefined`) for a number or a boolean. -/
def jsLength : JVal → JNum
  | .str s => .fin (utf16Length s)
  | .obj _ l => l
  | _ => .nan

/-- The JavaScript `v.length < n` for a number literal `n`. -/
def lengthBelow (v : JVal) (n : ℚ) : Bool := (numLt (jsLength v) (.fin n)).getD false

/-- The JavaScript `a === b` of two body values: two arrays or objects are
never the same object. -/
def strictEq : JVal → JVal → Bool
  | .obj _ _, _ => false
  | _, .obj _ _ => false
  | a, b => decide (a = b)

/-- What `await bcrypt.hash(password, 10)` gives; `none`: it throws, which it
does for a value that is not a string. -/
def hashOf (env : Env) : JVal → Option String
  | .str s => some (env.bcryptHash s)
  | _ => none

/-- What `await bcrypt.compare(password, hash)` gives for a body value and a
stored column; `none`: it throws, which it does unless both are strings. -/
def compareOf (env : Env) : JVal → SqlVal → Option Bool
  | .str s, .text h => some (env.bcryptCompare s h)
  | _, _ => none

/-- A field with a default in the destructuring of the body: the default is
taken when the field is `undefined`. -/
def withDefault (v : JVal) (d : JVal) : JVal := if v = .undefined then d else v

/-! ## User management, continued (`src/routes/admin.js`) -/

/-- The columns `id, name, email, role, status` of a `users` row. -/
def User.view (u : User) : UserView :=
  { id := u.id, name := u.name, email := u.email, role := some u.role, status := some u.status }

/-- Handler of `GET /users`. -/
def getUsers (env : Env) (_uid : Nat) (db : Db) : Response × Db :=
  (okWith (.users ((orderByDesc (fun u => env.createdAt .users u.id) db.users).map User.view)),
    db)

/-- Body of `POST /users` and of `POST /register`. -/
structure NewUserBody where
  name : JVal
  email : JVal
  password : JVal
  role : JVal

/-- The row `POST /users` and `POST /register` insert. -/
def newUserRow (id : Nat) (b : NewUserBody) (hash : String) : User :=
  { id := id, name := bind b.name, email := bind b.email, password_hash := .text hash,
    role := bind (withDefault b.role (.str "user")), status := .text "active" }

/-- Handler of `POST /users`. -/
def postUser (env : Env) (b : NewUserBody) (_uid : Nat) (db : Db) : Response × Db :=
  if jsNot b.name || jsNot b.email || jsNot b.password then
    (failure 400 "Name, email, and password are required", db)
  else if lengthBelow b.password 6 then
    (failure 400 "Password must be at least 6 characters long", db)
  else if withDefault b.role (.str "user") ≠ .str "user" ∧
      withDefault b.role (.str "user") ≠ .str "admin" then
    (failure 400 "Invalid role", db)
  else
    match db.users.find? (fun u => sqlEq u.email (bind b.email)) with
    | some _ => (failure 400 "User with this email already exists", db)
    | none =>
      match hashOf env b.password with
      | none => (failure 500 "Server error during user creation", db)
      | some hash =>
        (created "User created successfully" (nextId (db.users.map (fun u => u.id))),
          { db with users := db.users ++
              [newUserRow (nextId (db.users.map (fun u => u.id))) b hash] })

/-- Handler of `GET /users/:id`. -/
def getUser (id : IdParam) (_uid : Nat) (db : Db) : Response × Db :=
  match db.users.find? (fun u => id.selects u.id) with
  | none => (failure 404 "User not found", db)
  | some u => (okWith (.user u.view), db)

/-- Body of `PUT /users/:id`. -/
structure UserUpdateBody where
  name : JVal
  email : JVal
  role : JVal
  status : JVal

/-- The `SET` clause of `PUT /users/:id`. -/
def setUser (b : UserUpdateBody) (u : User) : User :=
  { u with name := bind b.name, email := bind b.email, role := bind b.role,
           status := bind b.status }

/-- Handler of `PUT /users/:id`. -/
def putUser (id : IdParam) (b : UserUpdateBody) (_uid : Nat) (db : Db) : Response × Db :=
  if jsNot b.name || jsNot b.email || jsNot b.role || jsNot b.status then
    (failure 400 "All fields are required", db)
  else
    match db.users.find? (fun u => sqlEq u.email (bind b.email) && !id.selects u.id) with
    | some _ => (failure 400 "Email is already taken by another user", db)
    | none =>
      (okMsg "User updated successfully",
        { db with users := db.users.map (fun u => if id.selects u.id then setUser b u else u) })

/-- Handler of `POST /users/:id/reset-password`. -/
def postResetPassword (env : Env) (id : IdParam) (newPassword : JVal) (_uid : Nat) (db : Db) :
    Response × Db :=
  if jsNot newPassword || lengthBelow newPassword 6 then
    (failure 400 "New password must be at least 6 characters long", db)
  else
    match db.users.find? (fun u => id.selects u.id) with
    | none => (failure 404 "User not found", db)
    | some _ =>
      match hashOf env newPassword with
      | none => (failure 500 "Server error", db)
      | some hash =>
        (okMsg "Password reset successfully",
          { db with users := db.users.map (fun u =>
              if id.selects u.id then { u with password_hash := .text hash } else u) })

/-! ## Education -/

/-- The rows of `education e JOIN users u ON e.created_by = u.id`, in table
order. -/
def educationJoin (db : Db) : List EducationView :=
  (db.education.map (fun e =>
    (db.users.filter (fun u => sqlEq e.created_by (.num u.id))).map (fun u =>
      { id := e.id, title := e.title, content := e.content, created_by := e.created_by,
        created_by_name := u.name }))).flatten

/-- Handler of `GET /education`, in the user router and in the admin router. -/
def getEducation (env : Env) (_uid : Nat) (db : Db) : Response × Db :=
  (okWith (.education (orderByDesc (fun v => env.createdAt .education v.id) (educationJoin db))),
    db)

/-- Handler of `GET /education/:id`. -/
def getEducationItem (id : IdParam) (_uid : Nat) (db : Db) : Response × Db :=
  match (educationJoin db).find? (fun v => id.selects v.id) with
  | none => (failure 404 "Education content not found", db)
  | some v => (okWith (.educationItem v), db)

/-- Handler of `POST /education`. -/
def postEducation (title content : JVal) (uid : Nat) (db : Db) : Response × Db :=
  if jsNot title || jsNot content then (failure 400 "Title and content are required", db)
  else
    (created "Education content added successfully" (nextId (db.education.map (fun e => e.id))),
      { db with education := db.education ++
          [{ id := nextId (db.education.map (fun e => e.id)), title := bind title,
             content := bind content, created_by := .num uid }] })

/-- Handler of `PUT /education/:id`. -/
def putEducation (id : IdParam) (title content : JVal) (_uid : Nat) (db : Db) :
    Response × Db :=
  if jsNot title || jsNot content then (failure 400 "Title and content are required", db)
  else
    match db.education.find? (fun e => id.selects e.id) with
    | none => (failure 404 "Education content not found", db)
    | some _ =>
      (okMsg "Education content updated successfully",
        { db with education := db.education.map (fun e =>
            if id.selects e.id then { e with title := bind title, content := bind content }
            else e) })

/-- Handler of `DELETE /education/:id`. -/
def deleteEducation (id : IdParam) (_uid : Nat) (db : Db) : Response × Db :=
  match db.education.find? (fun e => id.selects e.id) with
  | none => (failure 404 "Education content not found", db)
  | some _ =>
    (okMsg "Education content deleted successfully",
      { db with education := db.education.filter (fun e => !id.selects e.id) })

/-! ## Notifications (`src/routes/admin.js`) -/

/-- The `read_count` of a notification: the rows of `user_notifications`
joined on `n.id = un.notification_id AND un.read_status = 1` whose `user_id`
is not NULL. -/
def readCount (db : Db) (n : Notification) : Nat :=
  (db.user_notifications.filter (fun un =>
    sqlEq (.num n.id) un.notification_id && sqlEq un.read_status (.num 1) &&
    decide (un.user_id ≠ .null))).length

/-- Handler of `GET /notifications` of the admin router. -/
def getAdminNotifications (env : Env) (_uid : Nat) (db : Db) : Response × Db :=
  (okWith (.adminNotifications
    ((orderByDesc (fun n => env.createdAt .notifications n.id) db.notifications).map (fun n =>
      { id := n.id, message := n.message, type := n.type, expires_at := n.expires_at,
        user_id := n.user_id, read_count := readCount db n }))), db)

/-- Handler of `GET /notifications/:id`. -/
def getAdminNotification (id : IdParam) (_uid : Nat) (db : Db) : Response × Db :=
  match db.notifications.find? (fun n => id.selects n.id) with
  | none => (failure 404 "Notification not found", db)
  | some n => (okWith (.notification n), db)

/-- Modelled from the spec: two rows of `user_notifications` with the same
composite key (user_id, notification_id); the schema is missing, the spec
gives the key.  A NULL never equals anything. -/
def sameKey (a b : UserNotification) : Bool :=
  sqlEq a.user_id b.user_id && sqlEq a.notification_id b.notification_id

/-- Modelled from the spec: the plain `INSERT INTO user_notifications
(user_id, notification_id, created_at)`, refused when the key is taken.  The
id columns turn a numeric text into its number; a new row is not read. -/
def insertUserNotification (userId : SqlVal) (notificationId : Nat) (db : Db) :
    Except String Db :=
  let row : UserNotification :=
    { user_id := numericAffinity userId, notification_id := .num notificationId,
      read_status := .num 0 }
  if db.user_notifications.any (fun r => sameKey r row) then
    .error ("SQLITE_CONSTRAINT: UNIQUE constraint failed: " ++
      "user_notifications.user_id, user_notifications.notification_id")
  else .ok { db with user_notifications := db.user_notifications ++ [row] }

/-- The inserts into `user_notifications` of one request, one after the
other: `true` with the store reached when all went through, `false` with the
store reached before the insert that was refused. -/
def fanOut (notificationId : Nat) : List SqlVal → Db → Bool × Db
  | [], db => (true, db)
  | t :: ts, db =>
    match insertUserNotification t notificationId db with
    | .ok db' => fanOut notificationId ts db'
    | .error _ => (false, db)

/-- Body of `POST /notifications`. -/
structure NotificationBody where
  message : JVal
  type : JVal
  expires_at : JVal
  recipients : JVal
  user_id : JVal

/-- The notification types the handlers accept. -/
def validType (t : JVal) : Bool :=
  decide (t = .str "info" ∨ t = .str "warning" ∨ t = .str "success" ∨ t = .str "error")

/-- The users the handler sends a new notification to, in the order of its
inserts: every user with role `user` when `recipients` is `all` or `both`,
then the given `user_id` when `recipients` is `specific` or `both` and a
`user_id` is there. -/
def fanOutTargets (recipients userId : JVal) (db : Db) : List SqlVal :=
  (if recipients = .str "all" ∨ recipients = .str "both" then
      (db.users.filter (fun u => sqlEq u.role (.text "user"))).map (fun u => SqlVal.num u.id)
    else []) ++
  (if (recipients = .str "specific" ∨ recipients = .str "both") ∧ truthy userId = true then
      [bind userId]
    else [])

/-- The row `POST /notifications` inserts into `notifications`. -/
def notificationRow (id : Nat) (b : NotificationBody) : Notification :=
  { id := id, message := bind b.message, type := bind (withDefault b.type (.str "info")),
    expires_at := bind (jsOr b.expires_at .null),
    user_id :=
      if withDefault b.recipients (.str "all") = .str "specific" then
        numericAffinity (bind (jsOr b.user_id .null))
      else .null }

/-- Handler of `POST /notifications`. -/
def postNotification (b : NotificationBody) (_uid : Nat) (db : Db) : Response × Db :=
  if jsNot b.message then (failure 400 "Message is required", db)
  else if !validType (withDefault b.type (.str "info")) then
    (failure 400 "Invalid notification type", db)
  else if withDefault b.recipients (.str "all") = .str "specific" ∧ jsNot b.user_id = true then
    (failure 400 "User ID required for specific notifications", db)
  else
    let notificationId := nextId (db.notifications.map (fun n => n.id))
    let db1 : Db :=
      { db with notifications := db.notifications ++ [notificationRow notificationId b] }
    match fanOut notificationId
        (fanOutTargets (withDefault b.recipients (.str "all")) b.user_id db1) db1 with
    | (true, db2) => (created "Notification created successfully" notificationId, db2)
    | (false, db2) => (failure 500 "Server error", db2)

/-- Handler of `PUT /notifications/:id`. -/
def putNotification (id : IdParam) (message type expires_at : JVal) (_uid : Nat) (db : Db) :
    Response × Db :=
  if jsNot message then (failure 400 "Message is required", db)
  else if truthy type && !validType type then (failure 400 "Invalid notification type", db)
  else
    match db.notifications.find? (fun n => id.selects n.id) with
    | none => (failure 404 "Notification not found", db)
    | some _ =>
      (okMsg "Notification updated successfully",
        { db with notifications := db.notifications.map (fun n =>
            if id.selects n.id then
              { n with message := bind message, type := bind (jsOr type (.str "info")),
                       expires_at := bind (jsOr expires_at .null) }
            else n) })

/-- Handler of `DELETE /notifications/:id`. -/
def deleteNotification (id : IdParam) (_uid : Nat) (db : Db) : Response × Db :=
  match db.notifications.find? (fun n => id.selects n.id) with
  | none => (failure 404 "Notification not found", db)
  | some _ =>
    (okMsg "Notification deleted successfully",
      { db with notifications := db.notifications.filter (fun n => !id.selects n.id) })

/-! ## Statistics -/

/-- `SELECT category, COUNT(*) ... GROUP BY category`, groups by first
appearance. -/
def categoryCounts (rows : List Expense) : List CategoryCount :=
  (rows.map (fun e => e.category)).eraseDups.map (fun k =>
    { category := k, count := (rows.filter (fun e => e.category == k)).length })

/-- The system feed: expenses and income created in the last 30 days, each
joined with its user, expenses first. -/
def recentRows (env : Env) (db : Db) : List ActivityRow :=
  ((db.expenses.filter (fun e => env.sinceThirtyDays (env.createdAt .expenses e.id))).map
    (fun e => (db.users.filter (fun u => u.id == e.user_id)).map (fun u =>
      { type := "expense", description := e.category, amount := e.amount, date := e.date,
        user_name := some u.name, created_at := none }))).flatten ++
  ((db.income.filter (fun i => env.sinceThirtyDays (env.createdAt .income i.id))).map
    (fun i => (db.users.filter (fun u => u.id == i.user_id)).map (fun u =>
      { type := "income", description := i.source, amount := i.amount, date := i.date,
        user_name := some u.name, created_at := none }))).flatten

/-- Handler of `GET /stats`. -/
def getStats (env : Env) (_uid : Nat) (db : Db) : Response × Db :=
  (okWith (.stats
    { totalUsers := db.users.length,
      activeUsers := (db.users.filter (fun u => sqlEq u.status (.text "active"))).length,
      totalExpenses := db.expenses.length,
      totalIncome := db.income.length,
      topCategories :=
        (orderByDesc (fun c => SqlVal.num c.count) (categoryCounts db.expenses)).take 5,
      recentActivity := (orderByDesc (fun r => r.date) (recentRows env db)).take 20 }), db)

/-- The feed of one user: the expenses and the income whose `user_id` the
path parameter selects, expenses first. -/
def activityRows (env : Env) (id : IdParam) (db : Db) : List ActivityRow :=
  (db.expenses.filter (fun e => id.selects e.user_id)).map (fun e =>
    { type := "expense", description := e.category, amount := e.amount, date := e.date,
      user_name := none, created_at := some (env.createdAt .expenses e.id) }) ++
  (db.income.filter (fun i => id.selects i.user_id)).map (fun i =>
    { type := "income", description := i.source, amount := i.amount, date := i.date,
      user_name := none, created_at := some (env.createdAt .income i.id) })

/-- Handler of `GET /users/:id/activity`.  The `LIMIT ?` is bound to
`parseInt(limit)` with `limit = 50` by default: the store refuses a NULL
(from `NaN`), returns every row for a negative number. -/
def getUserActivity (env : Env) (id : IdParam) (limit : QParam) (_uid : Nat) (db : Db) :
    Response × Db :=
  match db.users.find? (fun u => id.selects u.id) with
  | none => (failure 404 "User not found", db)
  | some u =>
    let sorted := orderByDesc (fun r => r.created_at.getD .null) (activityRows env id db)
    match (match limit with
           | none => some (50 : ℤ)
           | some l => parseIntString l) with
    | none => (failure 500 "Server error", db)
    | some n =>
      (okWith (.activity u.name (if n < 0 then sorted else sorted.take n.toNat)), db)

/-! ## Chatbot, notifications and profile (`src/routes/user.js`) -/

/-- The JavaScript `s.toLowerCase()`, on the letters A to Z.  Other letters
are left as they are; the lower case JavaScript gives them adds no occurrence
of a keyword below (only U+0130 and U+212A turn into text with a letter a to
z: `i` followed by U+0307, and `k`). -/
def toLowerCase (s : String) : String := String.mk (s.toList.map Char.toLower)

/-- The function `generateFinancialResponse`. -/
def generateFinancialResponse (message : String) : String :=
  let lowerMessage := toLowerCase message
  if includes lowerMessage "budget" || includes lowerMessage "budgeting" then
    "Creating a budget is the first step to financial control. Start by tracking all your " ++
    "income and expenses for one month, then categorize them. Aim for the 50/30/20 rule: " ++
    "50% needs, 30% wants, 20% savings."
  else if includes lowerMessage "save" || includes lowerMessage "saving" then
    "For effective saving: 1) Pay yourself first (automate savings), 2) Set specific goals, " ++
    "3) Build an emergency fund (3-6 months of expenses), 4) Consider high-yield savings " ++
    "accounts."
  else if includes lowerMessage "expense" || includes lowerMessage "spending" then
    "To manage expenses: Track everything for 30 days, identify unnecessary subscriptions, " ++
    "cook at home more often, and use the 24-hour rule before non-essential purchases."
  else if includes lowerMessage "invest" || includes lowerMessage "investment" then
    "Before investing: 1) Build emergency fund, 2) Pay off high-interest debt, 3) Start with " ++
    "retirement accounts (401k/IRA), 4) Consider low-cost index funds for diversification."
  else if includes lowerMessage "debt" || includes lowerMessage "loan" then
    "For debt management: 1) List all debts with interest rates, 2) Consider avalanche " ++
    "method (highest interest first) or snowball method (smallest balance first), 3) Avoid " ++
    "taking on new debt."
  else
    "I specialize in financial education! I can help you with budgeting, saving strategies, " ++
    "investment basics, debt management, and general financial planning. Could you ask me " ++
    "something specific about personal finance?"

/-- Handler of `POST /education/chatbot`.  A message that is not a string has
no `trim`, and the `catch` block answers. -/
def postChatbot (env : Env) (message : JVal) (_uid : Nat) (db : Db) : Response × Db :=
  if jsNot message then (failure 400 "Please enter a message", db)
  else
    match message with
    | .str m =>
      if (trimChars isJsSpace m.toList).isEmpty then (failure 400 "Please enter a message", db)
      else if utf16Length m > 500 then
        (failure 400 "Message is too long (max 500 characters)", db)
      else (⟨200, true, none, .chat (generateFinancialResponse m) env.nowIso⟩, db)
    | _ => (failure 500 "Financial assistant is unavailable. Please try again later.", db)

/-- Handler of `GET /notifications` of the user router. -/
def getNotifications (_uid : Nat) (db : Db) : Response × Db :=
  (okWith (.notifications []), db)

/-- First registration of `POST /notifications/:id/read`. -/
def markReadFirst (_id : IdParam) (_uid : Nat) (db : Db) : Response × Db :=
  (okMsg "Notification marked as read", db)

/-- First registration of `POST /notifications/read-all`. -/
def markAllReadFirst (_uid : Nat) (db : Db) : Response × Db :=
  (okMsg "All notifications marked as read", db)

/-- Modelled from the spec: `INSERT OR REPLACE INTO user_notifications
(user_id, notification_id, read_status) VALUES (?, ?, 1)`: the rows with the
key of the new row are removed and the new row is added. -/
def upsertRead (userId notificationId : SqlVal) (db : Db) : Db :=
  let row : UserNotification :=
    { user_id := userId, notification_id := notificationId, read_status := .num 1 }
  { db with user_notifications :=
      db.user_notifications.filter (fun r => !sameKey r row) ++ [row] }

/-- Second registration of `POST /notifications/:id/read`. -/
def markReadSecond (id : IdParam) (uid : Nat) (db : Db) : Response × Db :=
  (okMsg "Notification marked as read", upsertRead (.num uid) id.stored db)

/-- The notifications a user should see: `user_id IS NULL OR user_id = ?`,
and `expires_at IS NULL OR expires_at > datetime('now')`. -/
def visibleTo (env : Env) (uid : Nat) (n : Notification) : Bool :=
  (decide (n.user_id = .null) || sqlEq n.user_id (.num uid)) &&
  (decide (n.expires_at = .null) || env.afterNow n.expires_at)

/-- Second registration of `POST /notifications/read-all`. -/
def markAllReadSecond (env : Env) (uid : Nat) (db : Db) : Response × Db :=
  (okMsg "All notifications marked as read",
    ((db.notifications.filter (visibleTo env uid)).map (fun n => n.id)).foldl
      (fun acc nid => upsertRead (.num uid) (.num nid) acc) db)

/-- The handler Express runs for a path that is registered several times:
the handlers are tried in the order of registration, and a handler that
answers without calling `next` ends the request.  The handlers of the three
routers never call `next`, so the first registration answers. -/
def firstRegistered {α : Type} (first : α) (_later : List α) : α := first

/-- Handler of `GET /profile`. -/
def getProfile (uid : Nat) (db : Db) : Response × Db :=
  match db.users.find? (fun u => u.id == uid) with
  | none => (failure 404 "User not found", db)
  | some u =>
    (okWith (.user { id := u.id, name := u.name, email := u.email, role := none,
                     status := none }), db)

/-- Handler of `PUT /profile`. -/
def putProfile (name email : JVal) (uid : Nat) (db : Db) : Response × Db :=
  if jsNot name || jsNot email then (failure 400 "Name and email are required", db)
  else
    match db.users.find? (fun u => sqlEq u.email (bind email) && u.id != uid) with
    | some _ => (failure 400 "Email already taken", db)
    | none =>
      (okMsg "Profile updated successfully",
        { db with users := db.users.map (fun u =>
            if u.id == uid then { u with name := bind name, email := bind email } else u) })

/-- Handler of `POST /change-password` of the user router.  Modelled from the
spec: `users` holds a password hash and no column `password`, so the store
refuses `SELECT password FROM users` and the `catch` block answers. -/
def postUserChangePassword (currentPassword newPassword confirmPassword : JVal) (_uid : Nat)
    (db : Db) : Response × Db :=
  if jsNot currentPassword || jsNot newPassword || jsNot confirmPassword then
    (failure 400 "All password fields are required", db)
  else if !strictEq newPassword confirmPassword then
    (failure 400 "New passwords do not match", db)
  else if lengthBelow newPassword 6 then
    (failure 400 "New password must be at least 6 characters", db)
  else (failure 500 "Server error", db)

/-! ## The auth router (`src/routes/auth.js`) -/

/-- What a request leaves behind: the response, the store and the session. -/
structure Outcome where
  response : Response
  db : Db
  session : Session

/-- A session without user: before login, and after `req.session.destroy`. -/
def noSession : Session := { userId := none, role := .null, name := .null, email := .null }

/-- A handler that does not touch the session. -/
def keepSession (s : Session) (r : Response × Db) : Outcome :=
  { response := r.1, db := r.2, session := s }

/-- A route behind `requireAuth`. -/
def authRoute (handler : Nat → Db → Response × Db) (s : Session) (db : Db) : Response × Db :=
  match requireAuth s with
  | .next => handler (s.userId.getD 0) db
  | .respond r => (r, db)

/-- Handler of `POST /register`. -/
def postRegister (env : Env) (b : NewUserBody) (db : Db) : Response × Db :=
  if jsNot b.name || jsNot b.email || jsNot b.password then
    (failure 400 "Name, email, and password are required", db)
  else if lengthBelow b.password 6 then
    (failure 400 "Password must be at least 6 characters long", db)
  else if withDefault b.role (.str "user") ≠ .str "user" ∧
      withDefault b.role (.str "user") ≠ .str "admin" then
    (failure 400 "Invalid role", db)
  else
    match db.users.find? (fun u => sqlEq u.email (bind b.email)) with
    | some _ => (failure 400 "User with this email already exists", db)
    | none =>
      match hashOf env b.password with
      | none => (failure 500 "Server error during registration", db)
      | some hash =>
        (created "User registered successfully" (nextId (db.users.map (fun u => u.id))),
          { db with users := db.users ++
              [newUserRow (nextId (db.users.map (fun u => u.id))) b hash] })

/-- Handler of `POST /login`. -/
def postLogin (env : Env) (email password : JVal) (s : Session) (db : Db) : Outcome :=
  if jsNot email || jsNot password then
    keepSession s (failure 400 "Email and password are required", db)
  else
    match db.users.find? (fun u => sqlEq u.email (bind email)) with
    | none => keepSession s (failure 401 "Invalid email or password", db)
    | some user =>
      if user.status ≠ .text "active" then keepSession s (failure 403 "Account is inactive", db)
      else
        match compareOf env password user.password_hash with
        | none => keepSession s (failure 500 "Server error during login", db)
        | some false => keepSession s (failure 401 "Invalid email or password", db)
        | some true =>
          { response :=
              ⟨200, true, some "Login successful",
                .user { id := user.id, name := user.name, email := user.email,
                        role := some user.role, status := none }⟩,
            db := db,
            session := { userId := some user.id, role := user.role, name := user.name,
                         email := user.email } }

/-- Handler of `POST /logout`: the session is destroyed. -/
def postLogout (_s : Session) (db : Db) : Outcome :=
  { response := okMsg "Logout successful", db := db, session := noSession }

/-- First registration of `GET /me`, behind `requireAuth`. -/
def getMeFirst (uid : Nat) (db : Db) : Response × Db :=
  match db.users.find? (fun u => u.id == uid) with
  | none => (failure 404 "User not found", db)
  | some u => (okWith (.user u.view), db)

/-- Second registration of `GET /me`: it answers from the session. -/
def getMeSecond (s : Session) (db : Db) : Response × Db :=
  if s.noUserId then (failure 401 "Not authenticated", db)
  else
    (okWith (.user { id := s.userId.getD 0, name := s.name, email := s.email,
                     role := some s.role, status := none }), db)

/-- Third registration of `GET /me`, behind `requireAuth`: the row, or no
`user` field when there is none. -/
def getMeThird (uid : Nat) (db : Db) : Response × Db :=
  match db.users.find? (fun u => u.id == uid) with
  | none => (okWith .none, db)
  | some u =>
    (okWith (.user { id := u.id, name := u.name, email := u.email, role := some u.role,
                     status := none }), db)

/-- Handler of `PUT /me`, behind `requireAuth`. -/
def putMe (name email : JVal) (uid : Nat) (db : Db) : Response × Db :=
  if jsNot name || jsNot email then (failure 400 "Name and email are required", db)
  else
    match db.users.find? (fun u => sqlEq u.email (bind email) && u.id != uid) with
    | some _ => (failure 400 "Email is already taken by another user", db)
    | none =>
      (okMsg "Profile updated successfully",
        { db with users := db.users.map (fun u =>
            if u.id == uid then { u with name := bind name, email := bind email } else u) })

/-- First registration of `POST /change-password`, behind `requireAuth`. -/
def changePasswordFirst (env : Env) (currentPassword newPassword : JVal) (uid : Nat) (db : Db) :
    Response × Db :=
  if jsNot currentPassword || jsNot newPassword then
    (failure 400 "Current password and new password are required", db)
  else if lengthBelow newPassword 6 then
    (failure 400 "New password must be at least 6 characters long", db)
  else
    match db.users.find? (fun u => u.id == uid) with
    | none => (failure 404 "User not found", db)
    | some user =>
      match compareOf env currentPassword user.password_hash with
      | none => (failure 500 "Server error", db)
      | some false => (failure 400 "Current password is incorrect", db)
      | some true =>
        match hashOf env newPassword with
        | none => (failure 500 "Server error", db)
        | some hash =>
          (okMsg "Password changed successfully",
            { db with users := db.users.map (fun u =>
                if u.id == uid then { u with password_hash := .text hash } else u) })

/-- Second registration of `POST /change-password`, behind `requireAuth`. -/
def changePasswordSecond (_uid : Nat) (db : Db) : Response × Db :=
  (okMsg "Password changed successfully", db)

/-! ## The three routers -/

/-- A request to one of the routes of `/api/auth`, `/api/user` and
`/api/admin`, with what the handler reads of it. -/
inductive Request where
  | register (b : NewUserBody)
  | login (email password : JVal)
  | logout
  | getMe
  | putMe (name email : JVal)
  | changePassword (currentPassword newPassword : JVal)
  | getExpenses (month year category : QParam)
  | postExpense (b : ExpenseBody)
  | putExpense (id : IdParam) (b : ExpenseBody)
  | deleteExpense (id : IdParam)
  | getIncome (month year : QParam)
  | postIncome (b : IncomeBody)
  | putIncome (id : IdParam) (b : IncomeBody)
  | deleteIncome (id : IdParam)
  | getBudgets (month year : QParam)
  | postBudget (b : BudgetBody)
  | putBudget (id : IdParam) (b : BudgetBody)
  | deleteBudget (id : IdParam)
  | spendingSummary (month year : QParam)
  | budgetAnalysis (month year : QParam)
  | getEducation
  | chatbot (message : JVal)
  | getNotifications
  | markRead (id : IdParam)
  | markAllRead
  | getProfile
  | putProfile (name email : JVal)
  | userChangePassword (currentPassword newPassword confirmPassword : JVal)
  | adminGetUsers
  | adminPostUser (b : NewUserBody)
  | adminGetUser (id : IdParam)
  | adminPutUser (id : IdParam) (b : UserUpdateBody)
  | adminPutUserStatus (id : IdParam) (status : JVal)
  | adminResetPassword (id : IdParam) (newPassword : JVal)
  | adminDeleteUser (id : IdParam)
  | adminGetEducation
  | adminGetEducationItem (id : IdParam)
  | adminPostEducation (title content : JVal)
  | adminPutEducation (id : IdParam) (title content : JVal)
  | adminDeleteEducation (id : IdParam)
  | adminGetNotifications
  | adminGetNotification (id : IdParam)
  | adminPostNotification (b : NotificationBody)
  | adminPutNotification (id : IdParam) (message type expires_at : JVal)
  | adminDeleteNotification (id : IdParam)
  | adminStats
  | adminUserActivity (id : IdParam) (limit : QParam)

/-- The store and the response a request leaves, for the handler Express
runs: the gate of the router (or of the route), then the first handler
registered for the path. -/
def serve (env : Env) (req : Request) (s : Session) (db : Db) : Response × Db :=
  match req with
  | .register b => postRegister env b db
  | .login email password =>
    ((postLogin env email password s db).response, (postLogin env email password s db).db)
  | .logout => ((postLogout s db).response, (postLogout s db).db)
  | .getMe =>
    firstRegistered (authRoute getMeFirst s db) [getMeSecond s db, authRoute getMeThird s db]
  | .putMe name email => authRoute (putMe name email) s db
  | .changePassword c n =>
    firstRegistered (authRoute (changePasswordFirst env c n) s db)
      [authRoute changePasswordSecond s db]
  | .getExpenses m y c => userRoute (getExpenses env m y c) s db
  | .postExpense b => userRoute (postExpense b) s db
  | .putExpense id b => userRoute (putExpense id b) s db
  | .deleteExpense id => userRoute (deleteExpense id) s db
  | .getIncome m y => userRoute (getIncome env m y) s db
  | .postIncome b => userRoute (postIncome b) s db
  | .putIncome id b => userRoute (putIncome id b) s db
  | .deleteIncome id => userRoute (deleteIncome id) s db
  | .getBudgets m y => userRoute (getBudgets m y) s db
  | .postBudget b => userRoute (postBudget b) s db
  | .putBudget id b => userRoute (putBudget id b) s db
  | .deleteBudget id => userRoute (deleteBudget id) s db
  | .spendingSummary m y => userRoute (getSpendingSummary env m y) s db
  | .budgetAnalysis m y => userRoute (getBudgetAnalysis env m y) s db
  | .getEducation => userRoute (getEducation env) s db
  | .chatbot message => userRoute (postChatbot env message) s db
  | .getNotifications => userRoute getNotifications s db
  | .markRead id =>
    firstRegistered (userRoute (markReadFirst id) s db) [userRoute (markReadSecond id) s db]
  | .markAllRead =>
    firstRegistered (userRoute markAllReadFirst s db) [userRoute (markAllReadSecond env) s db]
  | .getProfile => userRoute getProfile s db
  | .putProfile name email => userRoute (putProfile name email) s db
  | .userChangePassword c n cf => userRoute (postUserChangePassword c n cf) s db
  | .adminGetUsers => adminRoute (getUsers env) s db
  | .adminPostUser b => adminRoute (postUser env b) s db
  | .adminGetUser id => adminRoute (getUser id) s db
  | .adminPutUser id b => adminRoute (putUser id b) s db
  | .adminPutUserStatus id status => adminRoute (putUserStatus id status) s db
  | .adminResetPassword id newPassword => adminRoute (postResetPassword env id newPassword) s db
  | .adminDeleteUser id => adminRoute (deleteUser id) s db
  | .adminGetEducation => adminRoute (getEducation env) s db
  | .adminGetEducationItem id => adminRoute (getEducationItem id) s db
  | .adminPostEducation title content => adminRoute (postEducation title content) s db
  | .adminPutEducation id title content => adminRoute (putEducation id title content) s db
  | .adminDeleteEducation id => adminRoute (deleteEducation id) s db
  | .adminGetNotifications => adminRoute (getAdminNotifications env) s db
  | .adminGetNotification id => adminRoute (getAdminNotification id) s db
  | .adminPostNotification b => adminRoute (postNotification b) s db
  | .adminPutNotification id message type expires_at =>
    adminRoute (putNotification id message type expires_at) s db
  | .adminDeleteNotification id => adminRoute (deleteNotification id) s db
  | .adminStats => adminRoute (getStats env) s db
  | .adminUserActivity id limit => adminRoute (getUserActivity env id limit) s db

/-- The session a request leaves: `POST /login` and `POST /logout` write it,
no other handler does. -/
def sessionAfter (env : Env) (req : Request) (s : Session) (db : Db) : Session :=
  match req with
  | .login email password => (postLogin env email password s db).session
  | .logout => (postLogout s db).session
  | _ => s

/-! ## Schema initialisation (`src/db/init.js`) -/

/-- The JavaScript `s.split(';')`, on the characters of the text: the pieces
between the semicolons, the empty ones included. -/
def splitSemicolon : List Char → List (List Char)
  | [] => [[]]
  | c :: cs =>
    if c = ';' then [] :: splitSemicolon cs
    else
      match splitSemicolon cs with
      | [] => [[c]]
      | p :: ps => (c :: p) :: ps

/-- The JavaScript `s.startsWith('--')`. -/
def startsWithDashes : List Char → Bool
  | '-' :: '-' :: _ => true
  | _ => false

/-- The array `statements` of `init.js`: the pieces of the schema text whose
trimmed text is not empty and does not start with `--`. -/
def statements (schema : String) : List (List Char) :=
  (splitSemicolon schema.toList).filter (fun stmt =>
    decide ((trimChars isJsSpace stmt).length > 0) &&
      !startsWithDashes (trimChars isJsSpace stmt))

/-- The texts `statements.forEach` passes to `db.run`, in order: the
`statement.trim()` of each piece kept. -/
def executed (schema : String) : List String :=
  (statements schema).map (fun stmt => String.mk (trimChars isJsSpace stmt))

/-! ## Stated properties -/

/-- The primary keys of the store: no two rows of a table share an id. -/
def PrimaryKeys (db : Db) : Prop :=
  (db.users.map (fun u => u.id)).Nodup ∧ (db.expenses.map (fun e => e.id)).Nodup ∧
  (db.income.map (fun i => i.id)).Nodup ∧ (db.budgets.map (fun b => b.id)).Nodup

/-- The table `after` is the table `before` with one row changed in place:
the row the path parameter selects, owned by `owner`, is now `set` of that
row, with the id and the owner it had. -/
def ChangesOne {α : Type} (rowId rowOwner : α → Nat) (set : α → α) (p : IdParam) (owner : Nat)
    (before after : List α) : Prop :=
  ∃ pre old post, before = pre ++ old :: post ∧ after = pre ++ set old :: post ∧
    p.sqlKey = some (rowId old) ∧ rowOwner old = owner ∧
    rowId (set old) = rowId old ∧ rowOwner (set old) = rowOwner old

/-- The table `after` is the table `before` with one row removed: the row the
path parameter selects, owned by `owner`. -/
def RemovesOne {α : Type} (rowId rowOwner : α → Nat) (p : IdParam) (owner : Nat)
    (before after : List α) : Prop :=
  ∃ pre old post, before = pre ++ old :: post ∧ after = pre ++ post ∧
    p.sqlKey = some (rowId old) ∧ rowOwner old = owner

/-- Two stores hold the same rows of user `a`, in the same order, in the
three owned tables, and the same users. -/
def SameOwnRows (a : Nat) (db1 db2 : Db) : Prop :=
  db1.users = db2.users ∧
  db1.expenses.filter (fun e => e.user_id == a) = db2.expenses.filter (fun e => e.user_id == a) ∧
  db1.income.filter (fun i => i.user_id == a) = db2.income.filter (fun i => i.user_id == a) ∧
  db1.budgets.filter (fun b => b.user_id == a) = db2.budgets.filter (fun b => b.user_id == a)

/-! ## Example data -/

/-- Year and month digits of a text date `YYYY-MM-DD`. -/
def isoParts (d : SqlVal) : Option (List Char × List Char) :=
  match d with
  | .text s =>
    match s.toList with
    | [y1, y2, y3, y4, '-', m1, m2, '-', d1, d2] =>
      if [y1, y2, y3, y4, m1, m2, d1, d2].all (fun c => (digitOf 10 c).isSome) then
        some ([y1, y2, y3, y4], [m1, m2])
      else none
    | _ => none
  | _ => none

/-- An environment for the examples: dates are texts `YYYY-MM-DD`, the server
runs on 2024-05-15 at noon, every row was created on 2024-05-01, and the hash
of a password is the password behind a fixed salt. -/
def isoEnv : Env where
  strftimeM d := match isoParts d with | some p => .text (String.mk p.2) | none => .null
  strftimeY d := match isoParts d with | some p => .text (String.mk p.1) | none => .null
  strftimeYM d :=
    match isoParts d with
    | some p => .text (String.mk (p.1 ++ '-' :: p.2))
    | none => .null
  sinceSixMonths d :=
    match d with
    | .text s => textLe "2023-11-15".toList s.toList
    | _ => false
  month := 5
  year := 2024
  createdAt _ _ := .text "2024-05-01 10:00:00"
  sinceThirtyDays d :=
    match d with
    | .text s => textLe "2024-04-15".toList s.toList
    | _ => false
  afterNow d :=
    match d with
    | .text s => !textLe s.toList "2024-05-15 12:00:00".toList
    | _ => false
  nowIso := "2024-05-15T12:00:00.000Z"
  bcryptHash p := "$2a$10$" ++ p
  bcryptCompare p h := decide (h = "$2a$10$" ++ p)

/-- An account row for the examples. -/
def sampleUser (id : Nat) (role status : String) : User :=
  { id := id, name := .text "n", email := .text "e", password_hash := .text "h",
    role := .text role, status := .text status }

/-- A session bound to a user id. -/
def sessionOf (uid : Nat) : Session :=
  { userId := some uid, role := .text "user", name := .text "n", email := .text "e" }

/-- A store with an active admin 1, active users 2 and 3, and one expense,
one income and one budget row, all with id 1 and owned by user 3. -/
def sampleDb : Db :=
  { users := [sampleUser 1 "admin" "active", sampleUser 2 "user" "active",
              sampleUser 3 "user" "active"],
    expenses := [{ id := 1, user_id := 3, category := .text "food", amount := .num 70,
                   description := .text "", date := .text "2024-05-10" }],
    income := [{ id := 1, user_id := 3, source := .text "job", amount := .num 500,
                 description := .text "", date := .text "2024-05-01" }],
    budgets := [{ id := 1, user_id := 3, category := .text "food", limit_amount := .num 100,
                  month := .num 5, year := .num 2024 }],
    education := [], notifications := [], user_notifications := [] }

/-- The store `sampleDb` with a budget row of user 2 for food in May 2024
added: user 2 has a budget and no expense. -/
def leakDb : Db :=
  { sampleDb with
    budgets := sampleDb.budgets ++
      [{ id := 2, user_id := 2, category := .text "food", limit_amount := .num 100,
         month := .num 5, year := .num 2024 }] }

/-- The store `leakDb` without the expense of user 3. -/
def leakDbNoExpense : Db := { leakDb with expenses := [] }

/-- Bodies for the examples. -/
def sampleExpenseBody : ExpenseBody :=
  { category := .str "rent", amount := .num 40, description := .undefined,
    date := .str "2024-05-11" }

/-- An income body for the examples. -/
def sampleIncomeBody : IncomeBody :=
  { source := .str "gift", amount := .num 40, description := .undefined,
    date := .str "2024-05-11" }

/-- A budget body for the examples. -/
def sampleBudgetBody : BudgetBody :=
  { category := .str "rent", limit_amount := .num 300, month := .num 6, year := .num 2024 }

/-- The answers that report a refused request. -/
def Rejected (r : Response) : Prop :=
  r.status = 400 ∨ r.status = 401 ∨ r.status = 403 ∨ r.status = 404

/-- No two rows of `users` share an email. -/
def EmailsUnique (db : Db) : Prop :=
  db.users.Pairwise (fun a b => sqlEq a.email b.email = false)

/-- Every row of `users` has a role among `user` and `admin` and a status
among `active` and `inactive`. -/
def UserDomain (db : Db) : Prop :=
  ∀ u ∈ db.users, (u.role = .text "user" ∨ u.role = .text "admin") ∧
    (u.status = .text "active" ∨ u.status = .text "inactive")

/-- A row with a role among `user` and `admin` and a status among `active`
and `inactive`. -/
def User.inDomain (u : User) : Prop :=
  (u.role = .text "user" ∨ u.role = .text "admin") ∧
  (u.status = .text "active" ∨ u.status = .text "inactive")

/-- The row a fan-out insert adds for a target. -/
def deliveryRow (notificationId : Nat) (target : SqlVal) : UserNotification :=
  { user_id := numericAffinity target, notification_id := .num notificationId,
    read_status := .num 0 }

/-- An account row with its own email, for the examples. -/
def mailUser (id : Nat) (email role : String) : User :=
  { id := id, name := .text "n", email := .text email, password_hash := .text "h",
    role := .text role, status := .text "active" }

/-- A store with an active admin 1 and active users 2 and 3, each with an
email of their own, and three notifications: a broadcast, a notification for
user 3, and a broadcast that expired in 2020. -/
def notifDb : Db :=
  { users := [mailUser 1 "a@x" "admin", mailUser 2 "b@x" "user", mailUser 3 "c@x" "user"],
    expenses := [], income := [], budgets := [], education := [],
    notifications :=
      [{ id := 1, message := .text "hello", type := .text "info", expires_at := .null,
         user_id := .null },
       { id := 2, message := .text "for 3", type := .text "info", expires_at := .null,
         user_id := .num 3 },
       { id := 3, message := .text "old", type := .text "info",
         expires_at := .text "2020-01-01 00:00:00", user_id := .null }],
    user_notifications := [] }

/-- A body of `POST /notifications` with a message and nothing else but the
recipients and the target. -/
def notifyBody (recipients userId : JVal) : NotificationBody :=
  { message := .str "hi", type := .undefined, expires_at := .undefined,
    recipients := recipients, user_id := userId }

/-- The envelope of a response: `success` is false exactly when the status
is not of the form 2xx. -/
def Envelope (r : Response) : Prop :=
  r.success = false ↔ ¬ (200 ≤ r.status ∧ r.status < 300)

/-- A row of `users` with `g` of its stored hash in place of the hash. -/
def User.withHash (g : SqlVal → SqlVal) (u : User) : User :=
  { u with password_hash := g u.password_hash }

/-- The store with `g` of every stored password hash in place of the hash. -/
def rehash (g : SqlVal → SqlVal) (db : Db) : Db :=
  { db with users := db.users.map (User.withHash g) }

/-- The hashes `h` and `g h` verify the same passwords. -/
def SameVerdicts (env : Env) (g : SqlVal → SqlVal) : Prop :=
  ∀ (p : JVal) (h : SqlVal), compareOf env p (g h) = compareOf env p h

/-- The environment `isoEnv` with a verification that skips the seven
characters of the salt and compares the rest with the password. -/
def saltedEnv : Env :=
  { isoEnv with bcryptCompare := fun p h => decide (h.toList.drop 7 = p.toList) }

/-- The same hash behind another salt. -/
def resalt : SqlVal → SqlVal
  | .text h => .text (String.mk ('$' :: '2' :: 'b' :: '$' :: '1' :: '2' :: '$' :: h.toList.drop 7))
  | v => v

/-- An account row with an email and a password of its own, hashed as
`isoEnv` does. -/
def loginUser (id : Nat) (email password role status : String) : User :=
  { id := id, name := .text "n", email := .text email,
    password_hash := .text ("$2a$10$" ++ password), role := .text role, status := .text status }

/-- A store with an active admin 1, an active user 2 and an inactive user 3,
with the passwords `adminpw`, `secret1` and `secret3`. -/
def loginDb : Db :=
  { users := [loginUser 1 "a@x" "adminpw" "admin" "active",
              loginUser 2 "b@x" "secret1" "user" "active",
              loginUser 3 "c@x" "secret3" "user" "inactive"],
    expenses := [], income := [], budgets := [], education := [], notifications := [],
    user_notifications := [] }

/-- The body of a registration that asks for the role `admin`. -/
def adminBody (name email password : String) : NewUserBody :=
  { name := .str name, email := .str email, password := .str password, role := .str "admin" }

/-- A schema text with two statements, the first under a comment line. -/
def commentedSchema : String :=
  "-- users\nCREATE TABLE t (id INTEGER);\nCREATE TABLE u (id INTEGER);\n"

/-! ## Lemmas on the store -/

theorem selects_iff (p : IdParam) (k : Nat) : p.selects k = true ↔ p.sqlKey = some k := by
  simp [IdParam.selects]

theorem selects_of_key {p : IdParam} {k : Nat} (h : p.sqlKey = some k) (j : Nat) :
    p.selects j = decide (j = k) := by
  unfold IdParam.selects
  rw [h]
  by_cases hjk : j = k
  · subst hjk; simp
  · have hkj : k ≠ j := fun e => hjk e.symm
    simp [hjk, hkj]

theorem map_selects_split {α : Type} (rowId : α → Nat) (p : IdParam) (f : α → α)
    (l : List α) (hnd : (l.map rowId).Nodup) (old : α) (hmem : old ∈ l)
    (hsel : p.sqlKey = some (rowId old)) :
    ∃ pre post, l = pre ++ old :: post ∧
      l.map (fun x => if p.selects (rowId x) then f x else x) = pre ++ f old :: post := by
  obtain ⟨pre, post, rfl⟩ := List.append_of_mem hmem
  refine ⟨pre, post, rfl, ?_⟩
  simp only [List.map_append, List.map_cons, List.nodup_append, List.nodup_cons,
    List.mem_map, List.mem_cons] at hnd
  obtain ⟨_, ⟨hpost, _⟩, hdis⟩ := hnd
  have hpre : ∀ x ∈ pre, rowId x ≠ rowId old := by
    intro x hx heq
    exact hdis (List.mem_map_of_mem rowId hx) (by simp [heq])
  have hpost' : ∀ x ∈ post, rowId x ≠ rowId old := by
    intro x hx heq
    exact hpost ⟨x, hx, heq⟩
  have e1 : pre.map (fun x => if p.selects (rowId x) then f x else x) = pre := by
    conv_rhs => rw [← List.map_id pre]
    apply List.map_congr_left
    intro x hx
    simp [selects_of_key hsel, hpre x hx]
  have e2 : post.map (fun x => if p.selects (rowId x) then f x else x) = post := by
    conv_rhs => rw [← List.map_id post]
    apply List.map_congr_left
    intro x hx
    simp [selects_of_key hsel, hpost' x hx]
  simp only [List.map_append, List.map_cons, e1, e2]
  simp [selects_of_key hsel]

theorem filter_selects_split {α : Type} (rowId : α → Nat) (p : IdParam)
    (l : List α) (hnd : (l.map rowId).Nodup) (old : α) (hmem : old ∈ l)
    (hsel : p.sqlKey = some (rowId old)) :
    ∃ pre post, l = pre ++ old :: post ∧
      l.filter (fun x => !p.selects (rowId x)) = pre ++ post := by
  obtain ⟨pre, post, rfl⟩ := List.append_of_mem hmem
  refine ⟨pre, post, rfl, ?_⟩
  simp only [List.map_append, List.map_cons, List.nodup_append, List.nodup_cons,
    List.mem_map, List.mem_cons] at hnd
  obtain ⟨_, ⟨hpost, _⟩, hdis⟩ := hnd
  have hpre : ∀ x ∈ pre, rowId x ≠ rowId old := by
    intro x hx heq
    exact hdis (List.mem_map_of_mem rowId hx) (by simp [heq])
  have hpost' : ∀ x ∈ post, rowId x ≠ rowId old := by
    intro x hx heq
    exact hpost ⟨x, hx, heq⟩
  have e1 : pre.filter (fun x => !p.selects (rowId x)) = pre := by
    apply List.filter_eq_self.mpr
    intro x hx
    simp [selects_of_key hsel, hpre x hx]
  have e2 : post.filter (fun x => !p.selects (rowId x)) = post := by
    apply List.filter_eq_self.mpr
    intro x hx
    simp [selects_of_key hsel, hpost' x hx]
  simp only [List.filter_append, List.filter_cons, e1, e2]
  simp [selects_of_key hsel]

theorem requireActiveUser_respond_fails {s : Session} {db : Db} {r : Response}
    (h : requireActiveUser s db = .respond r) : r.success = false := by
  unfold requireActiveUser at h
  split_ifs at h with h1
  · cases h; rfl
  · split at h
    · cases h; rfl
    · split_ifs at h with h2
      cases h; rfl

theorem requireAdmin_respond_fails {s : Session} {db : Db} {r : Response}
    (h : requireAdmin s db = .respond r) : r.success = false := by
  unfold requireAdmin at h
  split_ifs at h with h1
  · cases h; rfl
  · split at h
    · cases h; rfl
    · split_ifs at h with h2 h3
      · cases h; rfl
      · cases h; rfl

theorem userRoute_success {handler : Nat → Db → Response × Db} {s : Session} {db db' : Db}
    {r : Response} (h : userRoute handler s db = (r, db')) (hs : r.success = true) :
    handler (s.userId.getD 0) db = (r, db') := by
  unfold userRoute at h
  split at h
  · exact h
  · next r' hr =>
    cases h
    rw [requireActiveUser_respond_fails hr] at hs
    cases hs

theorem putExpense_success {id : IdParam} {b : ExpenseBody} {uid : Nat} {db db' : Db}
    {r : Response} (hpk : (db.expenses.map (fun x => x.id)).Nodup)
    (h : putExpense id b uid db = (r, db')) (hs : r.success = true) :
    ChangesOne (fun x : Expense => x.id) (fun x => x.user_id) (setExpense b) id uid db.expenses
        db'.expenses ∧
      db' = { db with expenses := db'.expenses } := by
  unfold putExpense at h
  split at h
  · cases h; simp [failure] at hs
  · next e he =>
    have hmem := List.mem_of_find?_eq_some he
    have hp := List.find?_some he
    simp only [Bool.and_eq_true, selects_iff, beq_iff_eq] at hp
    split_ifs at h with hle
    · cases h; simp [failure] at hs
    · cases h
      obtain ⟨pre, post, h1, h2⟩ :=
        map_selects_split (fun x : Expense => x.id) id
          (setExpense b) db.expenses hpk e hmem hp.1
      exact ⟨⟨pre, e, post, h1, h2, hp.1, hp.2, rfl, rfl⟩, rfl⟩

theorem deleteExpense_success {id : IdParam} {uid : Nat} {db db' : Db}
    {r : Response} (hpk : (db.expenses.map (fun x => x.id)).Nodup)
    (h : deleteExpense id uid db = (r, db')) (hs : r.success = true) :
    RemovesOne (fun x : Expense => x.id) (fun x => x.user_id) id uid db.expenses db'.expenses ∧
      db' = { db with expenses := db'.expenses } := by
  unfold deleteExpense at h
  split at h
  · cases h; simp [failure] at hs
  · next e he =>
    have hmem := List.mem_of_find?_eq_some he
    have hp := List.find?_some he
    simp only [Bool.and_eq_true, selects_iff, beq_iff_eq] at hp
    cases h
    obtain ⟨pre, post, h1, h2⟩ :=
      filter_selects_split (fun x : Expense => x.id) id db.expenses hpk e hmem hp.1
    exact ⟨⟨pre, e, post, h1, h2, hp.1, hp.2⟩, rfl⟩

theorem putIncome_success {id : IdParam} {b : IncomeBody} {uid : Nat} {db db' : Db}
    {r : Response} (hpk : (db.income.map (fun x => x.id)).Nodup)
    (h : putIncome id b uid db = (r, db')) (hs : r.success = true) :
    ChangesOne (fun x : Income => x.id) (fun x => x.user_id) (setIncome b) id uid db.income
        db'.income ∧
      db' = { db with income := db'.income } := by
  unfold putIncome at h
  split at h
  · cases h; simp [failure] at hs
  · next e he =>
    have hmem := List.mem_of_find?_eq_some he
    have hp := List.find?_some he
    simp only [Bool.and_eq_true, selects_iff, beq_iff_eq] at hp
    split_ifs at h with hle
    · cases h; simp [failure] at hs
    · cases h
      obtain ⟨pre, post, h1, h2⟩ :=
        map_selects_split (fun x : Income => x.id) id
          (setIncome b) db.income hpk e hmem hp.1
      exact ⟨⟨pre, e, post, h1, h2, hp.1, hp.2, rfl, rfl⟩, rfl⟩

theorem deleteIncome_success {id : IdParam} {uid : Nat} {db db' : Db}
    {r : Response} (hpk : (db.income.map (fun x => x.id)).Nodup)
    (h : deleteIncome id uid db = (r, db')) (hs : r.success = true) :
    RemovesOne (fun x : Income => x.id) (fun x => x.user_id) id uid db.income db'.income ∧
      db' = { db with income := db'.income } := by
  unfold deleteIncome at h
  split at h
  · cases h; simp [failure] at hs
  · next e he =>
    have hmem := List.mem_of_find?_eq_some he
    have hp := List.find?_some he
    simp only [Bool.and_eq_true, selects_iff, beq_iff_eq] at hp
    cases h
    obtain ⟨pre, post, h1, h2⟩ :=
      filter_selects_split (fun x : Income => x.id) id db.income hpk e hmem hp.1
    exact ⟨⟨pre, e, post, h1, h2, hp.1, hp.2⟩, rfl⟩

theorem deleteBudget_success {id : IdParam} {uid : Nat} {db db' : Db}
    {r : Response} (hpk : (db.budgets.map (fun x => x.id)).Nodup)
    (h : deleteBudget id uid db = (r, db')) (hs : r.success = true) :
    RemovesOne (fun x : Budget => x.id) (fun x => x.user_id) id uid db.budgets db'.budgets ∧
      db' = { db with budgets := db'.budgets } := by
  unfold deleteBudget at h
  split at h
  · cases h; simp [failure] at hs
  · next e he =>
    have hmem := List.mem_of_find?_eq_some he
    have hp := List.find?_some he
    simp only [Bool.and_eq_true, selects_iff, beq_iff_eq] at hp
    cases h
    obtain ⟨pre, post, h1, h2⟩ :=
      filter_selects_split (fun x : Budget => x.id) id db.budgets hpk e hmem hp.1
    exact ⟨⟨pre, e, post, h1, h2, hp.1, hp.2⟩, rfl⟩

theorem putBudget_success {id : IdParam} {b : BudgetBody} {uid : Nat} {db db' : Db}
    {r : Response} (hpk : (db.budgets.map (fun x => x.id)).Nodup)
    (h : putBudget id b uid db = (r, db')) (hs : r.success = true) :
    ChangesOne (fun x : Budget => x.id) (fun x => x.user_id) (setBudget b) id uid db.budgets
        db'.budgets ∧
      db' = { db with budgets := db'.budgets } := by
  unfold putBudget at h
  split at h
  · cases h; simp [failure] at hs
  · next e he =>
    have hmem := List.mem_of_find?_eq_some he
    have hp := List.find?_some he
    simp only [Bool.and_eq_true, selects_iff, beq_iff_eq] at hp
    split_ifs at h with hle hmonth
    · cases h; simp [failure] at hs
    · cases h; simp [failure] at hs
    · split at h
      · next db1 hupd =>
        cases h
        unfold updateBudget at hupd
        split_ifs at hupd with hclash
        cases hupd
        obtain ⟨pre, post, h1, h2⟩ :=
          map_selects_split (fun x : Budget => x.id) id
            (setBudget b) db.budgets hpk e hmem hp.1
        exact ⟨⟨pre, e, post, h1, h2, hp.1, hp.2, rfl, rfl⟩, rfl⟩
      · cases h; simp [failure] at hs

/-! ## Ownership of expenses, income and budgets -/

/-- C1: for every store, every session user A who passes `requireActiveUser`
and every path parameter: when the store holds no row of the table with that
id owned by A (the id is absent, or the row belongs to somebody else), PUT
and DELETE on `/expenses/:id`, `/income/:id` and `/budgets/:id` answer 404
and return the store as it was. -/
theorem unowned_row_is_not_found (s : Session) (db : Db) (id : IdParam)
    (eb : ExpenseBody) (ib : IncomeBody) (bb : BudgetBody)
    (hactive : requireActiveUser s db = .next) :
    ((∀ e ∈ db.expenses, ¬(id.sqlKey = some e.id ∧ e.user_id = s.userId.getD 0)) →
      userRoute (putExpense id eb) s db = (failure 404 "Expense not found", db) ∧
      userRoute (deleteExpense id) s db = (failure 404 "Expense not found", db)) ∧
    ((∀ i ∈ db.income, ¬(id.sqlKey = some i.id ∧ i.user_id = s.userId.getD 0)) →
      userRoute (putIncome id ib) s db = (failure 404 "Income not found", db) ∧
      userRoute (deleteIncome id) s db = (failure 404 "Income not found", db)) ∧
    ((∀ b ∈ db.budgets, ¬(id.sqlKey = some b.id ∧ b.user_id = s.userId.getD 0)) →
      userRoute (putBudget id bb) s db = (failure 404 "Budget not found", db) ∧
      userRoute (deleteBudget id) s db = (failure 404 "Budget not found", db)) := by
  refine ⟨fun h => ?_, fun h => ?_, fun h => ?_⟩
  · have hf : db.expenses.find?
        (fun e => id.selects e.id && e.user_id == s.userId.getD 0) = none := by
      rw [List.find?_eq_none]
      intro e he
      simpa [selects_iff] using h e he
    simp [userRoute, hactive, putExpense, deleteExpense, hf]
  · have hf : db.income.find?
        (fun i => id.selects i.id && i.user_id == s.userId.getD 0) = none := by
      rw [List.find?_eq_none]
      intro i hi
      simpa [selects_iff] using h i hi
    simp [userRoute, hactive, putIncome, deleteIncome, hf]
  · have hf : db.budgets.find?
        (fun b => id.selects b.id && b.user_id == s.userId.getD 0) = none := by
      rw [List.find?_eq_none]
      intro b hb
      simpa [selects_iff] using h b hb
    simp [userRoute, hactive, putBudget, deleteBudget, hf]

/-- Witness of C1: user 2 asks for the rows with id 1, which belong to user
3, in the three tables. -/
theorem unowned_row_is_not_found_witness :
    requireActiveUser (sessionOf 2) sampleDb = .next ∧
    userRoute (putExpense (.ofId 1) sampleExpenseBody) (sessionOf 2) sampleDb =
      (failure 404 "Expense not found", sampleDb) ∧
    userRoute (deleteIncome (.ofId 1)) (sessionOf 2) sampleDb =
      (failure 404 "Income not found", sampleDb) ∧
    userRoute (putBudget (.ofId 1) sampleBudgetBody) (sessionOf 2) sampleDb =
      (failure 404 "Budget not found", sampleDb) :=
  have h := unowned_row_is_not_found (sessionOf 2) sampleDb (.ofId 1) sampleExpenseBody
    sampleIncomeBody sampleBudgetBody (by decide!)
  ⟨by decide!, (h.1 (by decide!)).1, (h.2.1 (by decide!)).2, (h.2.2 (by decide!)).1⟩

/-- C2: for every store with primary keys and every session user A, a PUT or
DELETE on `/expenses/:id`, `/income/:id` or `/budgets/:id` that answers with
success changes in place, or removes, exactly one row of that table: the row
the id selects, which is owned by A; an update puts in its place that row
with the columns of the `SET` clause taken from the request body (category or
source, amount, description and date; for a budget category, limit, month
and year) and with the id and the owner it had; every other row of the table
keeps its place and content, and every other table is as before. -/
theorem success_touches_one_owned_row (s : Session) (db : Db) (id : IdParam)
    (eb : ExpenseBody) (ib : IncomeBody) (bb : BudgetBody) (hpk : PrimaryKeys db) :
    (∀ r db', userRoute (putExpense id eb) s db = (r, db') → r.success = true →
      ChangesOne (fun x : Expense => x.id) (fun x => x.user_id) (setExpense eb) id
        (s.userId.getD 0) db.expenses db'.expenses ∧ db' = { db with expenses := db'.expenses }) ∧
    (∀ r db', userRoute (deleteExpense id) s db = (r, db') → r.success = true →
      RemovesOne (fun x : Expense => x.id) (fun x => x.user_id) id (s.userId.getD 0)
        db.expenses db'.expenses ∧ db' = { db with expenses := db'.expenses }) ∧
    (∀ r db', userRoute (putIncome id ib) s db = (r, db') → r.success = true →
      ChangesOne (fun x : Income => x.id) (fun x => x.user_id) (setIncome ib) id
        (s.userId.getD 0) db.income db'.income ∧ db' = { db with income := db'.income }) ∧
    (∀ r db', userRoute (deleteIncome id) s db = (r, db') → r.success = true →
      RemovesOne (fun x : Income => x.id) (fun x => x.user_id) id (s.userId.getD 0)
        db.income db'.income ∧ db' = { db with income := db'.income }) ∧
    (∀ r db', userRoute (putBudget id bb) s db = (r, db') → r.success = true →
      ChangesOne (fun x : Budget => x.id) (fun x => x.user_id) (setBudget bb) id
        (s.userId.getD 0) db.budgets db'.budgets ∧ db' = { db with budgets := db'.budgets }) ∧
    (∀ r db', userRoute (deleteBudget id) s db = (r, db') → r.success = true →
      RemovesOne (fun x : Budget => x.id) (fun x => x.user_id) id (s.userId.getD 0)
        db.budgets db'.budgets ∧ db' = { db with budgets := db'.budgets }) :=
  ⟨fun _ _ h hs => putExpense_success hpk.2.1 (userRoute_success h hs) hs,
   fun _ _ h hs => deleteExpense_success hpk.2.1 (userRoute_success h hs) hs,
   fun _ _ h hs => putIncome_success hpk.2.2.1 (userRoute_success h hs) hs,
   fun _ _ h hs => deleteIncome_success hpk.2.2.1 (userRoute_success h hs) hs,
   fun _ _ h hs => putBudget_success hpk.2.2.2 (userRoute_success h hs) hs,
   fun _ _ h hs => deleteBudget_success hpk.2.2.2 (userRoute_success h hs) hs⟩

/-- Witness of C2: user 3 updates and deletes the expense 1, which is theirs,
and both requests succeed; after the update the row carries the category,
amount and date of the body, an empty description, and the id 1 and owner 3
it had. -/
theorem success_touches_one_owned_row_witness :
    PrimaryKeys sampleDb ∧
    (userRoute (putExpense (.ofId 1) sampleExpenseBody) (sessionOf 3) sampleDb).1.success = true ∧
    ChangesOne (fun x : Expense => x.id) (fun x => x.user_id) (setExpense sampleExpenseBody)
      (.ofId 1) 3 sampleDb.expenses
      (userRoute (putExpense (.ofId 1) sampleExpenseBody) (sessionOf 3) sampleDb).2.expenses ∧
    (userRoute (putExpense (.ofId 1) sampleExpenseBody) (sessionOf 3) sampleDb).2.expenses =
      [{ id := 1, user_id := 3, category := .text "rent", amount := .num 40,
         description := .text "", date := .text "2024-05-11" }] ∧
    (userRoute (deleteExpense (.ofId 1)) (sessionOf 3) sampleDb).1.success = true ∧
    RemovesOne (fun x : Expense => x.id) (fun x => x.user_id) (.ofId 1) 3 sampleDb.expenses
      (userRoute (deleteExpense (.ofId 1)) (sessionOf 3) sampleDb).2.expenses :=
  have hpk : PrimaryKeys sampleDb := by
    unfold PrimaryKeys
    decide!
  have h := success_touches_one_owned_row (sessionOf 3) sampleDb (.ofId 1) sampleExpenseBody
    sampleIncomeBody sampleBudgetBody hpk
  ⟨hpk, by decide!, (h.1 _ _ rfl (by decide!)).1, by decide!, by decide!,
    (h.2.1 _ _ rfl (by decide!)).1⟩

/-! ## Reads scoped to the caller -/

theorem filter_owner_and {α : Type} (own cond : α → Bool) (l : List α) :
    l.filter (fun x => own x && cond x) = (l.filter own).filter cond := by
  rw [List.filter_filter]
  apply List.filter_congr
  intro x _
  exact Bool.and_comm _ _

/-- The list endpoints and the spending summary read the rows of the caller
only: two stores with the same rows of user `a` give `a` the same answers to
`GET /expenses`, `/income`, `/budgets` and `/reports/spending-summary`. -/
theorem own_rows_decide_lists_and_summary (env : Env) (a : Nat) (db1 db2 : Db)
    (month year category : QParam) (h : SameOwnRows a db1 db2) :
    (getExpenses env month year category a db1).1 =
      (getExpenses env month year category a db2).1 ∧
    (getIncome env month year a db1).1 = (getIncome env month year a db2).1 ∧
    (getBudgets month year a db1).1 = (getBudgets month year a db2).1 ∧
    (getSpendingSummary env month year a db1).1 =
      (getSpendingSummary env month year a db2).1 := by
  obtain ⟨_, he, hi, hb⟩ := h
  refine ⟨?_, ?_, ?_, ?_⟩
  · simp only [getExpenses, he]
  · simp only [getIncome, hi]
  · simp only [getBudgets, hb]
  · simp only [getSpendingSummary, filter_owner_and, he, hi]

/-- C3, at the failing input: the stores `leakDb` and `leakDbNoExpense` hold
the same rows of user 2 and differ only in an expense of user 3, and the
answers of `GET /reports/budget-analysis` to user 2 differ. -/
theorem budget_analysis_depends_on_foreign_rows :
    SameOwnRows 2 leakDb leakDbNoExpense ∧
    (userRoute (getBudgetAnalysis isoEnv none none) (sessionOf 2) leakDb).1 ≠
      (userRoute (getBudgetAnalysis isoEnv none none) (sessionOf 2) leakDbNoExpense).1 := by
  unfold SameOwnRows
  decide!

/-- C4, at the failing input: user 2 has a food budget of 100 for May 2024
and no expense at all; the only expense of the store (70, food, 2024-05-10)
belongs to user 3, and the analysis of user 2 reports 70 as spent. -/
theorem budget_analysis_counts_foreign_expenses :
    (∀ e ∈ leakDb.expenses, e.user_id ≠ 2) ∧
    (userRoute (getBudgetAnalysis isoEnv (some "5") (some "2024")) (sessionOf 2) leakDb).1 =
      okWith (.budgetAnalysis
        [{ category := .text "food", budget_limit := .num 100, actual_spent := 70,
           remaining := .num 30, status := "good" }]) := by
  decide!

/-! ## The authorization gates -/

theorem userById_none_iff (db : Db) (uid : Option Nat) :
    userById db uid = none ↔ ∀ u ∈ db.users, some u.id ≠ uid := by
  simp [userById, List.find?_eq_none]

theorem userById_some {db : Db} {uid : Option Nat} {u : User} (h : userById db uid = some u) :
    u ∈ db.users ∧ some u.id = uid := by
  refine ⟨List.mem_of_find?_eq_some h, ?_⟩
  have := List.find?_some h
  simpa using this

/-- C5: the decision of `requireActiveUser`, for every session and store.  A
session without user id is answered 401; a user id that no row of `users`
carries is answered 401; when the store returns a row for the id and its
status is not `active` the answer is 403; the request is passed on exactly
when the store returns a row for the session's user id and that row's status
is `active`.  Only the user id is read from the session: sessions with the
same user id are treated alike, whatever else they hold. -/
theorem requireActiveUser_decision (s : Session) (db : Db) :
    (s.noUserId = true →
      requireActiveUser s db = .respond (failure 401 "Authentication required")) ∧
    (s.noUserId = false → (∀ u ∈ db.users, some u.id ≠ s.userId) →
      requireActiveUser s db = .respond (failure 401 "User not found")) ∧
    (s.noUserId = false → ∀ u, userById db s.userId = some u → u.status ≠ .text "active" →
      requireActiveUser s db = .respond (failure 403 "Account is inactive")) ∧
    (requireActiveUser s db = .next ↔
      s.noUserId = false ∧
        ∃ u ∈ db.users, some u.id = s.userId ∧ userById db s.userId = some u ∧
          u.status = .text "active") ∧
    (∀ s' : Session, s'.userId = s.userId →
      requireActiveUser s' db = requireActiveUser s db) := by
  refine ⟨?_, ?_, ?_, ?_, ?_⟩
  · intro h
    simp [requireActiveUser, h]
  · intro h hnone
    simp [requireActiveUser, h, (userById_none_iff db s.userId).mpr hnone]
  · intro h u hu hst
    simp [requireActiveUser, h, hu, hst]
  · constructor
    · intro h
      unfold requireActiveUser at h
      split_ifs at h with h1
      split at h
      · cases h
      · next u hu =>
        split_ifs at h with h2
        refine ⟨by simpa using h1, u, (userById_some hu).1, (userById_some hu).2, hu, ?_⟩
        simpa using h2
    · rintro ⟨h1, u, _, _, hu, hst⟩
      simp [requireActiveUser, h1, hu, hst]
  · intro s' hs'
    simp [requireActiveUser, Session.noUserId, hs']

/-- C6: the decision of `requireAdmin`, for every session and store.  The
request is passed on exactly when the session carries a user id, the store
returns a row for it, that row's status is `active` and its role is `admin`.
A stored active user with another role is answered 403, a stored user who is
not active is answered 403 whatever the role, a session without user id and
a user id without row are answered 401.  Only the user id is read from the
session: the role kept in the session does not enter the decision. -/
theorem requireAdmin_decision (s : Session) (db : Db) :
    (requireAdmin s db = .next ↔
      s.noUserId = false ∧
        ∃ u ∈ db.users, some u.id = s.userId ∧ userById db s.userId = some u ∧
          u.status = .text "active" ∧ u.role = .text "admin") ∧
    (s.noUserId = false → ∀ u, userById db s.userId = some u → u.status = .text "active" →
      u.role ≠ .text "admin" →
      requireAdmin s db = .respond (failure 403 "Admin access required")) ∧
    (s.noUserId = false → ∀ u, userById db s.userId = some u → u.status ≠ .text "active" →
      requireAdmin s db = .respond (failure 403 "Account is inactive")) ∧
    (s.noUserId = true →
      requireAdmin s db = .respond (failure 401 "Authentication required")) ∧
    (s.noUserId = false → (∀ u ∈ db.users, some u.id ≠ s.userId) →
      requireAdmin s db = .respond (failure 401 "User not found")) ∧
    (∀ s' : Session, s'.userId = s.userId → requireAdmin s' db = requireAdmin s db) := by
  refine ⟨?_, ?_, ?_, ?_, ?_, ?_⟩
  · constructor
    · intro h
      unfold requireAdmin at h
      split_ifs at h with h1
      split at h
      · cases h
      · next u hu =>
        split_ifs at h with h2 h3
        refine ⟨by simpa using h1, u, (userById_some hu).1, (userById_some hu).2, hu, ?_, ?_⟩
        · simpa using h2
        · simpa using h3
    · rintro ⟨h1, u, _, _, hu, hst, hrole⟩
      simp [requireAdmin, h1, hu, hst, hrole]
  · intro h u hu hst hrole
    simp [requireAdmin, h, hu, hst, hrole]
  · intro h u hu hst
    simp [requireAdmin, h, hu, hst]
  · intro h
    simp [requireAdmin, h]
  · intro h hnone
    simp [requireAdmin, h, (userById_none_iff db s.userId).mpr hnone]
  · intro s' hs'
    simp [requireAdmin, Session.noUserId, hs']

/-- Witness of C5: in `sampleDb` user 2 is passed on, and a session bound
to the unknown id 9 is answered 401. -/
theorem requireActiveUser_decision_witness :
    requireActiveUser (sessionOf 2) sampleDb = .next ∧
    requireActiveUser (sessionOf 9) sampleDb = .respond (failure 401 "User not found") :=
  ⟨(requireActiveUser_decision (sessionOf 2) sampleDb).2.2.2.1.mpr (by decide!),
   (requireActiveUser_decision (sessionOf 9) sampleDb).2.1 (by decide!) (by decide!)⟩

/-- Witness of C6: in `sampleDb` the admin 1 is passed on, and the active
user 2 is answered 403 even with the role `admin` written in the session. -/
theorem requireAdmin_decision_witness :
    requireAdmin (sessionOf 1) sampleDb = .next ∧
    requireAdmin { sessionOf 2 with role := .text "admin" } sampleDb =
      .respond (failure 403 "Admin access required") :=
  ⟨(requireAdmin_decision (sessionOf 1) sampleDb).1.mpr (by decide!),
   (requireAdmin_decision { sessionOf 2 with role := .text "admin" } sampleDb).2.1
     (by decide!) (sampleUser 2 "user" "active") (by decide!) (by decide!) (by decide!)⟩

theorem adminRoute_success {handler : Nat → Db → Response × Db} {s : Session} {db db' : Db}
    {r : Response} (h : adminRoute handler s db = (r, db')) (hs : r.success = true) :
    handler (s.userId.getD 0) db = (r, db') := by
  unfold adminRoute at h
  split at h
  · exact h
  · next r' hr =>
    cases h
    rw [requireAdmin_respond_fails hr] at hs
    cases hs

theorem find_after_status (p : IdParam) (U : Nat) (st : SqlVal) (hp : p.sqlKey = some U)
    (l : List User) (h : ∃ e ∈ l, e.id = U) :
    ∃ u, (l.map (fun u => if p.selects u.id then { u with status := st } else u)).find?
        (fun u => some u.id == some U) = some u ∧ u.status = st := by
  induction l with
  | nil => simp at h
  | cons x xs ih =>
    by_cases hx : x.id = U
    · refine ⟨{ x with status := st }, ?_, rfl⟩
      simp [selects_of_key hp, hx]
    · have hrest : ∃ e ∈ xs, e.id = U := by
        obtain ⟨e, he, heU⟩ := h
        rcases List.mem_cons.mp he with rfl | he'
        · exact absurd heU hx
        · exact ⟨e, he', heU⟩
      obtain ⟨u, hu, hst⟩ := ih hrest
      refine ⟨u, ?_, hst⟩
      simp only [List.map_cons, selects_of_key hp, hx, decide_False, Bool.false_eq_true,
        if_false]
      rw [List.find?_cons_of_neg]
      · simpa [selects_of_key hp] using hu
      · simpa using hx

/-- C7: let an admin request `PUT /users/:id/status` with status `inactive`
succeed for the user U.  Then the store it leaves holds U with the status
`inactive`, and in every later store in which U's row still carries that
status (U was not re-activated), every session bound to U is answered 403 by
`requireActiveUser` and by `requireAdmin`, and no handler behind these gates
is run.  The handlers never write a session: the session `s` below is any
session bound to U, in particular the one U had before. -/
theorem deactivated_user_is_blocked (sa : Session) (db db1 : Db) (r : Response)
    (id : IdParam) (U : Nat) (hU : 0 < U) (hid : id.sqlKey = some U)
    (hreq : adminRoute (putUserStatus id (.str "inactive")) sa db = (r, db1))
    (hok : r.success = true) :
    (∃ u, userById db1 (some U) = some u ∧ u.status = .text "inactive") ∧
    ∀ (db2 : Db) (s : Session), s.userId = some U →
      (userById db2 (some U)).map (fun u => u.status) =
        (userById db1 (some U)).map (fun u => u.status) →
      requireActiveUser s db2 = .respond (failure 403 "Account is inactive") ∧
      requireAdmin s db2 = .respond (failure 403 "Account is inactive") ∧
      ∀ handler : Nat → Db → Response × Db,
        userRoute handler s db2 = (failure 403 "Account is inactive", db2) ∧
        adminRoute handler s db2 = (failure 403 "Account is inactive", db2) := by
  have hh := adminRoute_success hreq hok
  have h1 : ∃ u, userById db1 (some U) = some u ∧ u.status = .text "inactive" := by
    unfold putUserStatus at hh
    split_ifs at hh with hbad
    · simp at hbad
    · split at hh
      · cases hh; simp [failure] at hok
      · next e he =>
        cases hh
        have hmem := List.mem_of_find?_eq_some he
        have hsel := List.find?_some he
        rw [selects_iff, hid] at hsel
        have heU : e.id = U := (Option.some.inj hsel).symm
        exact find_after_status id U (bind (.str "inactive")) hid db.users ⟨e, hmem, heU⟩
  refine ⟨h1, ?_⟩
  intro db2 s hs hsame
  obtain ⟨u1, hu1, hst1⟩ := h1
  rw [hu1] at hsame
  have h2 : ∃ u2, userById db2 (some U) = some u2 ∧ u2.status = .text "inactive" := by
    cases hfind : userById db2 (some U) with
    | none => rw [hfind] at hsame; simp at hsame
    | some u2 =>
      rw [hfind] at hsame
      simp only [Option.map_some', Option.some.injEq] at hsame
      exact ⟨u2, rfl, hsame.trans hst1⟩
  obtain ⟨u2, hu2, hst2⟩ := h2
  have hno : s.noUserId = false := by
    simp [Session.noUserId, hs]
    omega
  have ha : requireActiveUser s db2 = .respond (failure 403 "Account is inactive") := by
    simp [requireActiveUser, hno, hs, hu2, hst2]
  have hb : requireAdmin s db2 = .respond (failure 403 "Account is inactive") := by
    simp [requireAdmin, hno, hs, hu2, hst2]
  refine ⟨ha, hb, fun handler => ⟨?_, ?_⟩⟩
  · simp [userRoute, ha]
  · simp [adminRoute, hb]

/-- Witness of C7: the admin 1 deactivates user 2 in `sampleDb`; in the
store this leaves, the session of user 2 is answered 403 by both gates. -/
theorem deactivated_user_is_blocked_witness :
    (adminRoute (putUserStatus (.ofId 2) (.str "inactive")) (sessionOf 1) sampleDb).1.success
      = true ∧
    requireActiveUser (sessionOf 2) sampleDb = .next ∧
    requireActiveUser (sessionOf 2)
        (adminRoute (putUserStatus (.ofId 2) (.str "inactive")) (sessionOf 1) sampleDb).2 =
      .respond (failure 403 "Account is inactive") ∧
    requireAdmin (sessionOf 2)
        (adminRoute (putUserStatus (.ofId 2) (.str "inactive")) (sessionOf 1) sampleDb).2 =
      .respond (failure 403 "Account is inactive") :=
  have h := (deactivated_user_is_blocked (sessionOf 1) sampleDb _ _ (.ofId 2) 2 (by decide) rfl
    rfl (by decide!)).2 _ (sessionOf 2) rfl rfl
  ⟨by decide!, by decide!, h.1, h.2.1⟩

/-! ## Deleting users -/

theorem deleteUser_response (p : IdParam) (uid : Nat) (db : Db) :
    (deleteUser p uid db).1 =
      if (db.users.map (fun u => u.id)).any p.selects then
        (if p.parsed = some (uid : ℤ) then failure 400 "Cannot delete your own account"
         else okMsg "User deleted successfully")
      else failure 404 "User not found" := by
  unfold deleteUser
  cases hfind : db.users.find? (fun u => p.selects u.id) with
  | none =>
    have hnone : (db.users.map (fun u => u.id)).any p.selects = false := by
      rw [List.find?_eq_none] at hfind
      simpa [List.any_eq_false] using hfind
    simp [hnone]
  | some e =>
    have hany : (db.users.map (fun u => u.id)).any p.selects = true := by
      have hsel := List.find?_some hfind
      rw [List.any_eq_true]
      exact ⟨e.id, List.mem_map_of_mem _ (List.mem_of_find?_eq_some hfind), hsel⟩
    simp only [hany, if_true]
    split_ifs <;> rfl

/-- For an id written in plain decimal in the path the guard of
`DELETE /users/:id` works: for every admin session with user id s, every
store with primary keys and every id t of a stored user, the request answers
400 and returns the store as it was when t = s, and answers with success and
removes exactly the row of t from `users` when t ≠ s.  The answer of the
handler is the same for any two stores whose `users` tables carry the same
ids: no role enters the decision. -/
theorem delete_user_refuses_self_only (sa : Session) (db : Db) (t : Nat)
    (hadmin : requireAdmin sa db = .next)
    (hpk : (db.users.map (fun u => u.id)).Nodup) (ht : ∃ u ∈ db.users, u.id = t) :
    (t = sa.userId.getD 0 →
      adminRoute (deleteUser (.ofId t)) sa db =
        (failure 400 "Cannot delete your own account", db)) ∧
    (t ≠ sa.userId.getD 0 →
      ∃ pre u post, db.users = pre ++ u :: post ∧ u.id = t ∧
        adminRoute (deleteUser (.ofId t)) sa db =
          (okMsg "User deleted successfully", { db with users := pre ++ post })) ∧
    (∀ (uid : Nat) (db' : Db), db'.users.map (fun u => u.id) = db.users.map (fun u => u.id) →
      (deleteUser (.ofId t) uid db').1 = (deleteUser (.ofId t) uid db).1) := by
  obtain ⟨u, hu, hut⟩ := ht
  have hkey : (IdParam.ofId t).sqlKey = some u.id := by simp [IdParam.ofId, hut]
  have hfind : ∃ e, db.users.find? (fun x => (IdParam.ofId t).selects x.id) = some e := by
    cases hf : db.users.find? (fun x => (IdParam.ofId t).selects x.id) with
    | none =>
      rw [List.find?_eq_none] at hf
      have := hf u hu
      simp [selects_iff, hkey] at this
    | some e => exact ⟨e, rfl⟩
  obtain ⟨e, he⟩ := hfind
  refine ⟨?_, ?_, ?_⟩
  · intro hts
    simp only [adminRoute, hadmin, deleteUser, he]
    simp [IdParam.ofId, hts]
  · intro hts
    obtain ⟨pre, post, h1, h2⟩ :=
      filter_selects_split (fun x : User => x.id) (.ofId t) db.users hpk u hu hkey
    refine ⟨pre, u, post, h1, hut, ?_⟩
    have hne : ¬((t : ℤ) = ((sa.userId.getD 0 : Nat) : ℤ)) := by
      intro h
      exact hts (by exact_mod_cast h)
    simp only [adminRoute, hadmin, deleteUser, he]
    rw [if_neg (by simpa [IdParam.ofId] using hne)]
    rw [h2]
  · intro uid db' hids
    rw [deleteUser_response, deleteUser_response, hids]

/-- In `sampleDb` the admin 1 cannot delete the account 1 under the path
`1` and can delete the account 2. -/
theorem delete_user_refuses_self_only_witness :
    requireAdmin (sessionOf 1) sampleDb = .next ∧
    adminRoute (deleteUser (.ofId 1)) (sessionOf 1) sampleDb =
      (failure 400 "Cannot delete your own account", sampleDb) ∧
    (adminRoute (deleteUser (.ofId 2)) (sessionOf 1) sampleDb).1 =
      okMsg "User deleted successfully" ∧
    (adminRoute (deleteUser (.ofId 2)) (sessionOf 1) sampleDb).2.users =
      [sampleUser 1 "admin" "active", sampleUser 3 "user" "active"] :=
  ⟨by decide!,
   (delete_user_refuses_self_only (sessionOf 1) sampleDb 1 (by decide!) (by decide!)
     (by decide!)).1 rfl,
   by decide!, by decide!⟩

/-- C8: `DELETE /api/admin/users/10e-1` sent by the admin 1, the session
user, in a store with the users 1, 2 and 3.  The store takes the text
`10e-1` as the number 1, so the lookup finds the row of user 1; the guard
compares `parseInt('10e-1')`, which is 10, with the session user id 1 and
lets the request through; and the `DELETE` removes the row of user 1.  The
answer is 200 "User deleted successfully" and the account of the session
user is gone, where the same request under the path `1` is answered 400. -/
theorem admin_deletes_own_account :
    IdParam.ofPath "1" = IdParam.ofId 1 ∧
    IdParam.ofPath "10e-1" = { sqlKey := some 1, parsed := some 10, stored := .num 1 } ∧
    requireAdmin (sessionOf 1) sampleDb = .next ∧
    adminRoute (deleteUser (.ofPath "1")) (sessionOf 1) sampleDb =
      (failure 400 "Cannot delete your own account", sampleDb) ∧
    adminRoute (deleteUser (.ofPath "10e-1")) (sessionOf 1) sampleDb =
      (okMsg "User deleted successfully",
        { sampleDb with
          users := [sampleUser 2 "user" "active", sampleUser 3 "user" "active"] }) := by
  decide!

/-! ## Creating budgets, expenses and income -/

theorem includes_uniqueFailed : includes uniqueFailed "UNIQUE constraint failed" = true := by
  decide!

/-- A valid body whose slot is free is inserted: the 400 of `POST /budgets`
for a conflict is given for a taken slot only. -/
theorem free_slot_budget_is_inserted (b : BudgetBody) (uid : Nat) (db : Db)
    (hvalid : validateBudget b = none)
    (hfree : ¬∃ r ∈ db.budgets, r.user_id = uid ∧
        sqlEq (bind b.category) r.category = true ∧
        sqlEq (bindInt (parseInt b.month)) r.month = true ∧
        sqlEq (bindInt (parseInt b.year)) r.year = true) :
    postBudget b uid db =
      (created "Budget added successfully" (nextId (db.budgets.map (fun r => r.id))),
       { db with budgets := db.budgets ++
          [budgetRow (nextId (db.budgets.map (fun r => r.id))) uid b] }) := by
  have hany : db.budgets.any (fun r' =>
      sameSlot (budgetRow (nextId (db.budgets.map (fun r => r.id))) uid b) r') = false := by
    rw [List.any_eq_false]
    intro r hr hslot
    apply hfree
    simp only [sameSlot, budgetRow, Bool.and_eq_true, beq_iff_eq] at hslot
    exact ⟨r, hr, hslot.1.1.1.symm, hslot.1.1.2, hslot.1.2, hslot.2⟩
  simp only [postBudget, hvalid, insertBudget, hany]
  simp

/-- C9: for every session user A who passes `requireActiveUser` and every
body of `POST /budgets` that passes the validation: when the store holds a
budget row of A with the same category, month and year as the row to insert,
the answer is 400 with the message `Budget for this category already exists
for this month and year` and the store is returned as it was; and the `catch`
block answers any error whose message does not name a uniqueness failure with
500 and `Server error`. -/
theorem duplicate_budget_is_conflict (s : Session) (db : Db) (b : BudgetBody)
    (hactive : requireActiveUser s db = .next) (hvalid : validateBudget b = none) :
    ((∃ r ∈ db.budgets, r.user_id = s.userId.getD 0 ∧
        sqlEq (bind b.category) r.category = true ∧
        sqlEq (bindInt (parseInt b.month)) r.month = true ∧
        sqlEq (bindInt (parseInt b.year)) r.year = true) →
      userRoute (postBudget b) s db =
        (failure 400 "Budget for this category already exists for this month and year", db)) ∧
    (∀ errorMessage : String, includes errorMessage "UNIQUE constraint failed" = false →
      postBudgetCatch errorMessage = failure 500 "Server error") := by
  refine ⟨?_, ?_⟩
  · rintro ⟨r, hr, hown, hc, hm, hy⟩
    have hany : db.budgets.any (fun r' =>
        sameSlot (budgetRow (nextId (db.budgets.map (fun r => r.id))) (s.userId.getD 0) b) r')
        = true := by
      rw [List.any_eq_true]
      exact ⟨r, hr, by simp [sameSlot, budgetRow, hown, hc, hm, hy]⟩
    simp only [userRoute, hactive, postBudget, hvalid, insertBudget, hany, if_true]
    simp [postBudgetCatch, includes_uniqueFailed]
  · intro errorMessage h
    simp [postBudgetCatch, h]

/-- Witness of C9: user 3 holds a food budget for May 2024 in `sampleDb` and
asks for another one. -/
theorem duplicate_budget_is_conflict_witness :
    requireActiveUser (sessionOf 3) sampleDb = .next ∧
    validateBudget { category := .str "food", limit_amount := .num 50, month := .str "5",
                     year := .num 2024 } = none ∧
    userRoute (postBudget { category := .str "food", limit_amount := .num 50, month := .str "5",
                            year := .num 2024 }) (sessionOf 3) sampleDb =
      (failure 400 "Budget for this category already exists for this month and year",
       sampleDb) :=
  ⟨by decide!, by decide!,
   (duplicate_budget_is_conflict (sessionOf 3) sampleDb _ (by decide!) (by decide!)).1
     (by decide!)⟩

/-- The part of the validation of the three `POST` handlers that holds: a
body without the amount (or limit), or with a number that is not above 0, is
answered 400 and nothing is inserted. -/
theorem post_rejects_missing_or_nonpositive_number (uid : Nat) (db : Db)
    (eb : ExpenseBody) (ib : IncomeBody) (bb : BudgetBody) :
    ((eb.amount = .undefined ∨ ∃ q : ℚ, q ≤ 0 ∧ eb.amount = .num q) →
      (postExpense eb uid db).1.status = 400 ∧ (postExpense eb uid db).2 = db) ∧
    ((ib.amount = .undefined ∨ ∃ q : ℚ, q ≤ 0 ∧ ib.amount = .num q) →
      (postIncome ib uid db).1.status = 400 ∧ (postIncome ib uid db).2 = db) ∧
    ((bb.limit_amount = .undefined ∨ ∃ q : ℚ, q ≤ 0 ∧ bb.limit_amount = .num q) →
      (postBudget bb uid db).1.status = 400 ∧ (postBudget bb uid db).2 = db) := by
  have key : ∀ v : JVal, (v = .undefined ∨ ∃ q : ℚ, q ≤ 0 ∧ v = .num q) →
      jsNot v = true ∨ jsLe v 0 = true := by
    rintro v (rfl | ⟨q, hq, rfl⟩)
    · left; rfl
    · right
      simp [jsLe, toNumber, numLt, hq]
  refine ⟨fun h => ?_, fun h => ?_, fun h => ?_⟩
  · unfold postExpense
    rcases key _ h with h1 | h1
    · simp [h1, failure]
    · split_ifs <;> simp [failure]
  · unfold postIncome
    rcases key _ h with h1 | h1
    · simp [h1, failure]
    · split_ifs <;> simp [failure]
  · unfold postBudget validateBudget
    rcases key _ h with h1 | h1
    · simp [h1, failure]
    · split_ifs <;> simp [failure]

/-- C10, at the failing input: a body whose amount (or limit) is the text
`abc` passes the validation of `POST /expenses`, `POST /income` and
`POST /budgets`; the answer is 201 and a row with that amount is inserted. -/
theorem non_numeric_amount_is_inserted :
    postExpense { category := .str "food", amount := .str "abc", description := .undefined,
                  date := .str "2024-05-10" } 2 sampleDb =
      (created "Expense added successfully" 2,
       { sampleDb with expenses := sampleDb.expenses ++
          [{ id := 2, user_id := 2, category := .text "food", amount := .text "abc",
             description := .text "", date := .text "2024-05-10" }] }) ∧
    postIncome { source := .str "job", amount := .str "abc", description := .undefined,
                 date := .str "2024-05-10" } 2 sampleDb =
      (created "Income added successfully" 2,
       { sampleDb with income := sampleDb.income ++
          [{ id := 2, user_id := 2, source := .text "job", amount := .text "abc",
             description := .text "", date := .text "2024-05-10" }] }) ∧
    postBudget { category := .str "food", limit_amount := .str "abc", month := .num 5,
                 year := .num 2024 } 2 sampleDb =
      (created "Budget added successfully" 2,
       { sampleDb with budgets := sampleDb.budgets ++
          [{ id := 2, user_id := 2, category := .text "food", limit_amount := .text "abc",
             month := .num 5, year := .num 2024 }] }) := by
  decide!

/-! ## The month of a budget -/

/-- The part of the month check that holds: when the month of the body is a
number, a month outside [1, 12] is answered 400 by `POST /budgets` and
nothing is written, and a body that passes the validation is stored with an
integer month between 1 and 12. -/
theorem numeric_month_is_checked (b : BudgetBody) (uid : Nat) (db : Db) (q : ℚ)
    (hq : b.month = .num q) :
    ((q < 1 ∨ 12 < q) → (postBudget b uid db).1.status = 400 ∧ (postBudget b uid db).2 = db) ∧
    (validateBudget b = none →
      ∃ m : ℤ, parseInt b.month = some m ∧ 1 ≤ m ∧ m ≤ 12) := by
  constructor
  · intro hout
    have hbad : (jsLt b.month 1 || jsGt b.month 12) = true := by
      rcases hout with h | h
      · simp [hq, jsLt, jsGt, toNumber, numLt, h]
      · simp [hq, jsLt, jsGt, toNumber, numLt, h]
    unfold postBudget validateBudget
    split_ifs <;> simp [failure]
  · intro hv
    unfold validateBudget at hv
    split_ifs at hv with h1 h2 h3
    have h3' : ¬q < 1 ∧ ¬12 < q := by
      simpa [hq, jsLt, jsGt, toNumber, numLt] using h3
    have hlo : (1 : ℚ) ≤ q := not_lt.mp h3'.1
    have hhi : q ≤ 12 := not_lt.mp h3'.2
    have hpos : (0 : ℚ) ≤ q := by linarith
    have habs : |q| = q := abs_of_nonneg hpos
    have hne : q ≠ 0 := by linarith
    have hrange : (1 / 1000000 : ℚ) ≤ |q| ∧ |q| < (10 : ℚ) ^ 21 := by
      rw [habs]
      constructor
      · linarith
      · have : (12 : ℚ) < (10 : ℚ) ^ 21 := by norm_num
        linarith
    refine ⟨⌊q⌋, ?_, ?_, ?_⟩
    · simp only [hq, parseInt, hne, if_false, hrange, and_self, if_true, truncQ, hpos]
    · exact Int.le_floor.mpr (by exact_mod_cast hlo)
    · have : (⌊q⌋ : ℚ) ≤ q := Int.floor_le q
      have : (⌊q⌋ : ℚ) ≤ 12 := by linarith
      exact_mod_cast this

/-- C11, at the failing input: `POST /budgets` with the month `13abc` passes
the range test, which compares `NaN`, and stores the month 13; with the
month `true` it stores NULL; `PUT /budgets/:id` without a month stores NULL
in a row that had the month 5.  Each request is answered with success. -/
theorem out_of_range_month_is_written :
    postBudget { category := .str "food", limit_amount := .num 50, month := .str "13abc",
                 year := .num 2024 } 2 sampleDb =
      (created "Budget added successfully" 2,
       { sampleDb with budgets := sampleDb.budgets ++
          [{ id := 2, user_id := 2, category := .text "food", limit_amount := .num 50,
             month := .num 13, year := .num 2024 }] }) ∧
    postBudget { category := .str "food", limit_amount := .num 50, month := .bool true,
                 year := .num 2024 } 2 sampleDb =
      (created "Budget added successfully" 2,
       { sampleDb with budgets := sampleDb.budgets ++
          [{ id := 2, user_id := 2, category := .text "food", limit_amount := .num 50,
             month := .null, year := .num 2024 }] }) ∧
    putBudget (.ofId 1) { category := .str "food", limit_amount := .num 50,
                          month := .undefined, year := .num 2024 } 3 sampleDb =
      (okMsg "Budget updated successfully",
       { sampleDb with budgets :=
          [{ id := 1, user_id := 3, category := .text "food", limit_amount := .num 50,
             month := .null, year := .num 2024 }] }) := by
  decide!

/-! ## Refused requests write nothing -/

theorem postRegister_failFast (env : Env) (b : NewUserBody) (db : Db) :
    Rejected (postRegister env b db).1 → (postRegister env b db).2 = db := by
  unfold postRegister
  repeat' split
  all_goals simp [Rejected, failure, okMsg, created, okWith]

theorem getMeFirst_failFast (uid : Nat) (db : Db) :
    Rejected (getMeFirst uid db).1 → (getMeFirst uid db).2 = db := by
  unfold getMeFirst
  repeat' split
  all_goals simp [Rejected, failure, okMsg, created, okWith]

theorem putMe_failFast (name email : JVal) (uid : Nat) (db : Db) :
    Rejected (putMe name email uid db).1 → (putMe name email uid db).2 = db := by
  unfold putMe
  repeat' split
  all_goals simp [Rejected, failure, okMsg, created, okWith]

theorem changePasswordFirst_failFast (env : Env) (c n : JVal) (uid : Nat) (db : Db) :
    Rejected (changePasswordFirst env c n uid db).1 → (changePasswordFirst env c n uid db).2 = db := by
  unfold changePasswordFirst
  repeat' split
  all_goals simp [Rejected, failure, okMsg, created, okWith]

theorem getExpenses_failFast (env : Env) (m y c : QParam) (uid : Nat) (db : Db) :
    Rejected (getExpenses env m y c uid db).1 → (getExpenses env m y c uid db).2 = db := by
  intro _
  rfl

theorem postExpense_failFast (b : ExpenseBody) (uid : Nat) (db : Db) :
    Rejected (postExpense b uid db).1 → (postExpense b uid db).2 = db := by
  unfold postExpense
  repeat' split
  all_goals simp [Rejected, failure, okMsg, created, okWith]

theorem putExpense_failFast (id : IdParam) (b : ExpenseBody) (uid : Nat) (db : Db) :
    Rejected (putExpense id b uid db).1 → (putExpense id b uid db).2 = db := by
  unfold putExpense
  repeat' split
  all_goals simp [Rejected, failure, okMsg, created, okWith]

theorem deleteExpense_failFast (id : IdParam) (uid : Nat) (db : Db) :
    Rejected (deleteExpense id uid db).1 → (deleteExpense id uid db).2 = db := by
  unfold deleteExpense
  repeat' split
  all_goals simp [Rejected, failure, okMsg, created, okWith]

theorem getIncome_failFast (env : Env) (m y : QParam) (uid : Nat) (db : Db) :
    Rejected (getIncome env m y uid db).1 → (getIncome env m y uid db).2 = db := by
  intro _
  rfl

theorem postIncome_failFast (b : IncomeBody) (uid : Nat) (db : Db) :
    Rejected (postIncome b uid db).1 → (postIncome b uid db).2 = db := by
  unfold postIncome
  repeat' split
  all_goals simp [Rejected, failure, okMsg, created, okWith]

theorem putIncome_failFast (id : IdParam) (b : IncomeBody) (uid : Nat) (db : Db) :
    Rejected (putIncome id b uid db).1 → (putIncome id b uid db).2 = db := by
  unfold putIncome
  repeat' split
  all_goals simp [Rejected, failure, okMsg, created, okWith]

theorem deleteIncome_failFast (id : IdParam) (uid : Nat) (db : Db) :
    Rejected (deleteIncome id uid db).1 → (deleteIncome id uid db).2 = db := by
  unfold deleteIncome
  repeat' split
  all_goals simp [Rejected, failure, okMsg, created, okWith]

theorem getBudgets_failFast (m y : QParam) (uid : Nat) (db : Db) :
    Rejected (getBudgets m y uid db).1 → (getBudgets m y uid db).2 = db := by
  intro _
  rfl

theorem putBudget_failFast (id : IdParam) (b : BudgetBody) (uid : Nat) (db : Db) :
    Rejected (putBudget id b uid db).1 → (putBudget id b uid db).2 = db := by
  unfold putBudget
  repeat' split
  all_goals simp [Rejected, failure, okMsg, created, okWith]

theorem deleteBudget_failFast (id : IdParam) (uid : Nat) (db : Db) :
    Rejected (deleteBudget id uid db).1 → (deleteBudget id uid db).2 = db := by
  unfold deleteBudget
  repeat' split
  all_goals simp [Rejected, failure, okMsg, created, okWith]

theorem getSpendingSummary_failFast (env : Env) (m y : QParam) (uid : Nat) (db : Db) :
    Rejected (getSpendingSummary env m y uid db).1 → (getSpendingSummary env m y uid db).2 = db := by
  intro _
  rfl

theorem getBudgetAnalysis_failFast (env : Env) (m y : QParam) (uid : Nat) (db : Db) :
    Rejected (getBudgetAnalysis env m y uid db).1 → (getBudgetAnalysis env m y uid db).2 = db := by
  intro _
  rfl

theorem getEducation_failFast (env : Env) (uid : Nat) (db : Db) :
    Rejected (getEducation env uid db).1 → (getEducation env uid db).2 = db := by
  intro _
  rfl

theorem postChatbot_failFast (env : Env) (message : JVal) (uid : Nat) (db : Db) :
    Rejected (postChatbot env message uid db).1 → (postChatbot env message uid db).2 = db := by
  unfold postChatbot
  repeat' split
  all_goals simp [Rejected, failure, okMsg, created, okWith]

theorem getNotifications_failFast (uid : Nat) (db : Db) :
    Rejected (getNotifications uid db).1 → (getNotifications uid db).2 = db := by
  intro _
  rfl

theorem markReadFirst_failFast (id : IdParam) (uid : Nat) (db : Db) :
    Rejected (markReadFirst id uid db).1 → (markReadFirst id uid db).2 = db := by
  intro _
  rfl

theorem markAllReadFirst_failFast (uid : Nat) (db : Db) :
    Rejected (markAllReadFirst uid db).1 → (markAllReadFirst uid db).2 = db := by
  intro _
  rfl

theorem getProfile_failFast (uid : Nat) (db : Db) :
    Rejected (getProfile uid db).1 → (getProfile uid db).2 = db := by
  unfold getProfile
  repeat' split
  all_goals simp [Rejected, failure, okMsg, created, okWith]

theorem putProfile_failFast (name email : JVal) (uid : Nat) (db : Db) :
    Rejected (putProfile name email uid db).1 → (putProfile name email uid db).2 = db := by
  unfold putProfile
  repeat' split
  all_goals simp [Rejected, failure, okMsg, created, okWith]

theorem postUserChangePassword_failFast (c n cf : JVal) (uid : Nat) (db : Db) :
    Rejected (postUserChangePassword c n cf uid db).1 → (postUserChangePassword c n cf uid db).2 = db := by
  unfold postUserChangePassword
  repeat' split
  all_goals simp [Rejected, failure, okMsg, created, okWith]

theorem getUsers_failFast (env : Env) (uid : Nat) (db : Db) :
    Rejected (getUsers env uid db).1 → (getUsers env uid db).2 = db := by
  intro _
  rfl

theorem postUser_failFast (env : Env) (b : NewUserBody) (uid : Nat) (db : Db) :
    Rejected (postUser env b uid db).1 → (postUser env b uid db).2 = db := by
  unfold postUser
  repeat' split
  all_goals simp [Rejected, failure, okMsg, created, okWith]

theorem getUser_failFast (id : IdParam) (uid : Nat) (db : Db) :
    Rejected (getUser id uid db).1 → (getUser id uid db).2 = db := by
  unfold getUser
  repeat' split
  all_goals simp [Rejected, failure, okMsg, created, okWith]

theorem putUser_failFast (id : IdParam) (b : UserUpdateBody) (uid : Nat) (db : Db) :
    Rejected (putUser id b uid db).1 → (putUser id b uid db).2 = db := by
  unfold putUser
  repeat' split
  all_goals simp [Rejected, failure, okMsg, created, okWith]

theorem putUserStatus_failFast (id : IdParam) (status : JVal) (uid : Nat) (db : Db) :
    Rejected (putUserStatus id status uid db).1 → (putUserStatus id status uid db).2 = db := by
  unfold putUserStatus
  repeat' split
  all_goals simp [Rejected, failure, okMsg, created, okWith]

theorem postResetPassword_failFast (env : Env) (id : IdParam) (p : JVal) (uid : Nat) (db : Db) :
    Rejected (postResetPassword env id p uid db).1 → (postResetPassword env id p uid db).2 = db := by
  unfold postResetPassword
  repeat' split
  all_goals simp [Rejected, failure, okMsg, created, okWith]

theorem deleteUser_failFast (id : IdParam) (uid : Nat) (db : Db) :
    Rejected (deleteUser id uid db).1 → (deleteUser id uid db).2 = db := by
  unfold deleteUser
  repeat' split
  all_goals simp [Rejected, failure, okMsg, created, okWith]

theorem getEducationItem_failFast (id : IdParam) (uid : Nat) (db : Db) :
    Rejected (getEducationItem id uid db).1 → (getEducationItem id uid db).2 = db := by
  unfold getEducationItem
  repeat' split
  all_goals simp [Rejected, failure, okMsg, created, okWith]

theorem postEducation_failFast (title content : JVal) (uid : Nat) (db : Db) :
    Rejected (postEducation title content uid db).1 → (postEducation title content uid db).2 = db := by
  unfold postEducation
  repeat' split
  all_goals simp [Rejected, failure, okMsg, created, okWith]

theorem putEducation_failFast (id : IdParam) (title content : JVal) (uid : Nat) (db : Db) :
    Rejected (putEducation id title content uid db).1 → (putEducation id title content uid db).2 = db := by
  unfold putEducation
  repeat' split
  all_goals simp [Rejected, failure, okMsg, created, okWith]

theorem deleteEducation_failFast (id : IdParam) (uid : Nat) (db : Db) :
    Rejected (deleteEducation id uid db).1 → (deleteEducation id uid db).2 = db := by
  unfold deleteEducation
  repeat' split
  all_goals simp [Rejected, failure, okMsg, created, okWith]

theorem getAdminNotifications_failFast (env : Env) (uid : Nat) (db : Db) :
    Rejected (getAdminNotifications env uid db).1 → (getAdminNotifications env uid db).2 = db := by
  intro _
  rfl

theorem getAdminNotification_failFast (id : IdParam) (uid : Nat) (db : Db) :
    Rejected (getAdminNotification id uid db).1 → (getAdminNotification id uid db).2 = db := by
  unfold getAdminNotification
  repeat' split
  all_goals simp [Rejected, failure, okMsg, created, okWith]

theorem putNotification_failFast (id : IdParam) (message type expires_at : JVal) (uid : Nat) (db : Db) :
    Rejected (putNotification id message type expires_at uid db).1 → (putNotification id message type expires_at uid db).2 = db := by
  unfold putNotification
  repeat' split
  all_goals simp [Rejected, failure, okMsg, created, okWith]

theorem deleteNotification_failFast (id : IdParam) (uid : Nat) (db : Db) :
    Rejected (deleteNotification id uid db).1 → (deleteNotification id uid db).2 = db := by
  unfold deleteNotification
  repeat' split
  all_goals simp [Rejected, failure, okMsg, created, okWith]

theorem getStats_failFast (env : Env) (uid : Nat) (db : Db) :
    Rejected (getStats env uid db).1 → (getStats env uid db).2 = db := by
  intro _
  rfl

theorem getUserActivity_failFast (env : Env) (id : IdParam) (limit : QParam) (uid : Nat) (db : Db) :
    Rejected (getUserActivity env id limit uid db).1 → (getUserActivity env id limit uid db).2 = db := by
  unfold getUserActivity
  repeat' split
  all_goals simp [Rejected, failure, okMsg, created, okWith]

theorem postBudget_failFast (b : BudgetBody) (uid : Nat) (db : Db) :
    Rejected (postBudget b uid db).1 → (postBudget b uid db).2 = db := by
  unfold postBudget
  split
  · simp
  · simp only []
    generalize insertBudget _ db = r
    cases r <;> simp [Rejected, created]

theorem postNotification_failFast (b : NotificationBody) (uid : Nat) (db : Db) :
    Rejected (postNotification b uid db).1 → (postNotification b uid db).2 = db := by
  unfold postNotification
  split_ifs
  · simp
  · simp
  · simp
  · simp only []
    generalize fanOut _ _ _ = r
    rcases r with ⟨sent, db2⟩
    cases sent <;> simp [Rejected, created, failure]

theorem userRoute_failFast {handler : Nat → Db → Response × Db}
    (h : ∀ uid db, Rejected (handler uid db).1 → (handler uid db).2 = db)
    (s : Session) (db : Db) :
    Rejected (userRoute handler s db).1 → (userRoute handler s db).2 = db := by
  unfold userRoute
  split
  · exact h _ _
  · intro _; rfl

theorem adminRoute_failFast {handler : Nat → Db → Response × Db}
    (h : ∀ uid db, Rejected (handler uid db).1 → (handler uid db).2 = db)
    (s : Session) (db : Db) :
    Rejected (adminRoute handler s db).1 → (adminRoute handler s db).2 = db := by
  unfold adminRoute
  split
  · exact h _ _
  · intro _; rfl

theorem authRoute_failFast {handler : Nat → Db → Response × Db}
    (h : ∀ uid db, Rejected (handler uid db).1 → (handler uid db).2 = db)
    (s : Session) (db : Db) :
    Rejected (authRoute handler s db).1 → (authRoute handler s db).2 = db := by
  unfold authRoute
  split
  · exact h _ _
  · intro _; rfl

theorem postLogin_db (env : Env) (email password : JVal) (s : Session) (db : Db) :
    (postLogin env email password s db).db = db := by
  unfold postLogin
  repeat' split
  all_goals simp [keepSession]

/-- The registrations that Express does not reach write nothing either when
they answer 400, 401, 403 or 404. -/
theorem shadowed_handlers_fail_fast (env : Env) (id : IdParam) (s : Session) (uid : Nat)
    (db : Db) :
    (Rejected (getMeSecond s db).1 → (getMeSecond s db).2 = db) ∧
    (Rejected (getMeThird uid db).1 → (getMeThird uid db).2 = db) ∧
    (Rejected (changePasswordSecond uid db).1 → (changePasswordSecond uid db).2 = db) ∧
    (Rejected (markReadSecond id uid db).1 → (markReadSecond id uid db).2 = db) ∧
    (Rejected (markAllReadSecond env uid db).1 → (markAllReadSecond env uid db).2 = db) := by
  refine ⟨?_, ?_, ?_, ?_, ?_⟩
  · unfold getMeSecond
    split_ifs <;> simp
  · unfold getMeThird
    split <;> simp
  · intro _
    rfl
  · simp [markReadSecond, Rejected, okMsg]
  · simp [markAllReadSecond, Rejected, okMsg]

/-- C12: for every request to a route of the auth, user and admin routers,
every session and every store: when the answer has status 400, 401, 403 or
404, the store after the request is the store before it. -/
theorem refused_request_writes_nothing (env : Env) (req : Request) (s : Session) (db : Db)
    (h : Rejected (serve env req s db).1) : (serve env req s db).2 = db := by
  cases req with
  | register b => exact postRegister_failFast env b db h
  | login email password => exact postLogin_db env email password s db
  | logout => exact rfl
  | getMe => exact authRoute_failFast getMeFirst_failFast s db h
  | putMe name email => exact authRoute_failFast (putMe_failFast name email) s db h
  | changePassword c n => exact authRoute_failFast (changePasswordFirst_failFast env c n) s db h
  | getExpenses m y c => exact userRoute_failFast (getExpenses_failFast env m y c) s db h
  | postExpense b => exact userRoute_failFast (postExpense_failFast b) s db h
  | putExpense id b => exact userRoute_failFast (putExpense_failFast id b) s db h
  | deleteExpense id => exact userRoute_failFast (deleteExpense_failFast id) s db h
  | getIncome m y => exact userRoute_failFast (getIncome_failFast env m y) s db h
  | postIncome b => exact userRoute_failFast (postIncome_failFast b) s db h
  | putIncome id b => exact userRoute_failFast (putIncome_failFast id b) s db h
  | deleteIncome id => exact userRoute_failFast (deleteIncome_failFast id) s db h
  | getBudgets m y => exact userRoute_failFast (getBudgets_failFast m y) s db h
  | postBudget b => exact userRoute_failFast (postBudget_failFast b) s db h
  | putBudget id b => exact userRoute_failFast (putBudget_failFast id b) s db h
  | deleteBudget id => exact userRoute_failFast (deleteBudget_failFast id) s db h
  | spendingSummary m y => exact userRoute_failFast (getSpendingSummary_failFast env m y) s db h
  | budgetAnalysis m y => exact userRoute_failFast (getBudgetAnalysis_failFast env m y) s db h
  | getEducation => exact userRoute_failFast (getEducation_failFast env) s db h
  | chatbot message => exact userRoute_failFast (postChatbot_failFast env message) s db h
  | getNotifications => exact userRoute_failFast getNotifications_failFast s db h
  | markRead id => exact userRoute_failFast (markReadFirst_failFast id) s db h
  | markAllRead => exact userRoute_failFast markAllReadFirst_failFast s db h
  | getProfile => exact userRoute_failFast getProfile_failFast s db h
  | putProfile name email => exact userRoute_failFast (putProfile_failFast name email) s db h
  | userChangePassword c n cf => exact userRoute_failFast (postUserChangePassword_failFast c n cf) s db h
  | adminGetUsers => exact adminRoute_failFast (getUsers_failFast env) s db h
  | adminPostUser b => exact adminRoute_failFast (postUser_failFast env b) s db h
  | adminGetUser id => exact adminRoute_failFast (getUser_failFast id) s db h
  | adminPutUser id b => exact adminRoute_failFast (putUser_failFast id b) s db h
  | adminPutUserStatus id status => exact adminRoute_failFast (putUserStatus_failFast id status) s db h
  | adminResetPassword id p => exact adminRoute_failFast (postResetPassword_failFast env id p) s db h
  | adminDeleteUser id => exact adminRoute_failFast (deleteUser_failFast id) s db h
  | adminGetEducation => exact adminRoute_failFast (getEducation_failFast env) s db h
  | adminGetEducationItem id => exact adminRoute_failFast (getEducationItem_failFast id) s db h
  | adminPostEducation title content => exact adminRoute_failFast (postEducation_failFast title content) s db h
  | adminPutEducation id title content => exact adminRoute_failFast (putEducation_failFast id title content) s db h
  | adminDeleteEducation id => exact adminRoute_failFast (deleteEducation_failFast id) s db h
  | adminGetNotifications => exact adminRoute_failFast (getAdminNotifications_failFast env) s db h
  | adminGetNotification id => exact adminRoute_failFast (getAdminNotification_failFast id) s db h
  | adminPostNotification b => exact adminRoute_failFast (postNotification_failFast b) s db h
  | adminPutNotification id message type expires_at => exact adminRoute_failFast (putNotification_failFast id message type expires_at) s db h
  | adminDeleteNotification id => exact adminRoute_failFast (deleteNotification_failFast id) s db h
  | adminStats => exact adminRoute_failFast (getStats_failFast env) s db h
  | adminUserActivity id limit => exact adminRoute_failFast (getUserActivity_failFast env id limit) s db h

/-- Witness of C12: user 2 posts an expense without amount and is answered
400; an unknown session is answered 401. -/
theorem refused_request_writes_nothing_witness :
    (serve isoEnv (.postExpense { sampleExpenseBody with amount := .undefined })
      (sessionOf 2) sampleDb).1.status = 400 ∧
    (serve isoEnv (.postExpense { sampleExpenseBody with amount := .undefined })
      (sessionOf 2) sampleDb).2 = sampleDb ∧
    (serve isoEnv (.adminDeleteUser (.ofId 2)) noSession sampleDb).2 = sampleDb :=
  ⟨by decide!,
   refused_request_writes_nothing isoEnv _ (sessionOf 2) sampleDb (Or.inl (by decide!)),
   refused_request_writes_nothing isoEnv _ noSession sampleDb (Or.inr (Or.inl (by decide!)))⟩

/-! ## Notification fan-out -/

theorem fanOut_sent (nid : Nat) (ts : List SqlVal) (db db2 : Db)
    (h : fanOut nid ts db = (true, db2)) :
    db2 = { db with user_notifications :=
              db.user_notifications ++ ts.map (deliveryRow nid) } := by
  induction ts generalizing db with
  | nil =>
    simp only [fanOut, Prod.mk.injEq, true_and] at h
    subst h
    simp
  | cons t ts ih =>
    unfold fanOut at h
    split at h
    · next db1 hins =>
      have hrest := ih db1 h
      unfold insertUserNotification at hins
      simp only [] at hins
      split_ifs at hins
      cases hins
      rw [hrest]
      simp [deliveryRow]
    · cases h

theorem postUser_keeps_deliveries (env : Env) (b : NewUserBody) (uid : Nat) (db : Db) :
    (postUser env b uid db).2.user_notifications = db.user_notifications := by
  unfold postUser
  repeat' split
  all_goals rfl

theorem postRegister_keeps_deliveries (env : Env) (b : NewUserBody) (db : Db) :
    (postRegister env b db).2.user_notifications = db.user_notifications := by
  unfold postRegister
  repeat' split
  all_goals rfl

/-- C13: for every store, an admin `POST /notifications` with `recipients`
left out or equal to `all` that is answered with success adds one row to
`notifications`, with `user_id` NULL, and adds to `user_notifications` the
rows (u, new notification id), one for each row of `users` with role `user`
and no other; under the primary key of `users` these rows are all different.
Every other table is as before.  Creating a user, by the admin or by
registration, leaves `user_notifications` as it is. -/
theorem broadcast_reaches_role_users (s : Session) (db db' : Db) (r : Response)
    (b : NotificationBody) (hall : b.recipients = .undefined ∨ b.recipients = .str "all")
    (hreq : adminRoute (postNotification b) s db = (r, db')) (hok : r.success = true) :
    db' = { db with
      notifications := db.notifications ++
        [notificationRow (nextId (db.notifications.map (fun n => n.id))) b],
      user_notifications := db.user_notifications ++
        (db.users.filter (fun u => sqlEq u.role (.text "user"))).map (fun u =>
          { user_id := .num u.id,
            notification_id := .num (nextId (db.notifications.map (fun n => n.id))),
            read_status := .num 0 }) } ∧
    (notificationRow (nextId (db.notifications.map (fun n => n.id))) b).user_id = .null ∧
    ((db.users.map (fun u => u.id)).Nodup →
      ((db.users.filter (fun u => sqlEq u.role (.text "user"))).map (fun u =>
        ({ user_id := .num u.id,
           notification_id := .num (nextId (db.notifications.map (fun n => n.id))),
           read_status := .num 0 } : UserNotification))).Nodup) ∧
    (∀ (env : Env) (nb : NewUserBody) (s2 : Session) (db2 : Db),
      (serve env (.adminPostUser nb) s2 db2).2.user_notifications = db2.user_notifications ∧
      (serve env (.register nb) s2 db2).2.user_notifications = db2.user_notifications) := by
  have hrec : withDefault b.recipients (.str "all") = .str "all" := by
    rcases hall with h | h <;> simp [withDefault, h]
  have hh := adminRoute_success hreq hok
  refine ⟨?_, ?_, ?_, ?_⟩
  · unfold postNotification at hh
    split_ifs at hh with h1 h2 h3
    · cases hh; simp [failure] at hok
    · cases hh; simp [failure] at hok
    · cases hh; simp [failure] at hok
    · simp only [] at hh
      split at hh
      · next db2 hfan =>
        cases hh
        have hsent := fanOut_sent _ _ _ _ hfan
        rw [hsent]
        simp [fanOutTargets, hrec, deliveryRow, numericAffinity, Function.comp_def]
      · cases hh; simp [failure] at hok
  · simp [notificationRow, hrec]
  · intro hnd
    have hsub : ((db.users.filter (fun u => sqlEq u.role (.text "user"))).map
        (fun u => u.id)).Nodup :=
      List.Nodup.sublist (List.Sublist.map (fun u : User => u.id) (List.filter_sublist _)) hnd
    have hinj : Function.Injective (fun k : Nat =>
        ({ user_id := .num k,
           notification_id := .num (nextId (db.notifications.map (fun n => n.id))),
           read_status := .num 0 } : UserNotification)) := by
      intro a c hac
      simpa using hac
    have hmap := List.Nodup.map hinj hsub
    simpa [List.map_map, Function.comp_def] using hmap
  · intro env nb s2 db2
    constructor
    · simp only [serve, adminRoute]
      split
      · exact postUser_keeps_deliveries env nb _ db2
      · rfl
    · exact postRegister_keeps_deliveries env nb db2

/-- Witness of C13: the admin 1 sends a broadcast in `notifDb`; users 2 and
3 have the role `user` and get a row each, the admin gets none. -/
theorem broadcast_reaches_role_users_witness :
    (adminRoute (postNotification (notifyBody .undefined .undefined)) (sessionOf 1)
      notifDb).1.success = true ∧
    (adminRoute (postNotification (notifyBody .undefined .undefined)) (sessionOf 1)
      notifDb).2.user_notifications =
      [{ user_id := .num 2, notification_id := .num 4, read_status := .num 0 },
       { user_id := .num 3, notification_id := .num 4, read_status := .num 0 }] :=
  have h := (broadcast_reaches_role_users (sessionOf 1) notifDb _ _
    (notifyBody .undefined .undefined) (Or.inl rfl) rfl (by decide!)).1
  ⟨by decide!, (congrArg Db.user_notifications h).trans (by decide!)⟩

/-- C14: for an admin `POST /notifications` with `recipients` equal to
`specific`: without a `user_id` the answer is 400 and the store is as before,
so that neither a notification nor a `user_notifications` row is stored; and
when the request is answered with success, the row added to `notifications`
carries the given `user_id` as the store keeps it, and exactly one row is
added to `user_notifications`, for that user and the new notification. -/
theorem specific_notification_has_one_target (s : Session) (db : Db) (b : NotificationBody)
    (hadmin : requireAdmin s db = .next) (hspec : b.recipients = .str "specific") :
    (jsNot b.user_id = true →
      (adminRoute (postNotification b) s db).1.status = 400 ∧
      (adminRoute (postNotification b) s db).2 = db) ∧
    (∀ r db', adminRoute (postNotification b) s db = (r, db') → r.success = true →
      db' = { db with
        notifications := db.notifications ++
          [notificationRow (nextId (db.notifications.map (fun n => n.id))) b],
        user_notifications := db.user_notifications ++
          [{ user_id := numericAffinity (bind b.user_id),
             notification_id := .num (nextId (db.notifications.map (fun n => n.id))),
             read_status := .num 0 }] } ∧
      (notificationRow (nextId (db.notifications.map (fun n => n.id))) b).user_id =
        numericAffinity (bind b.user_id)) := by
  have hrec : withDefault b.recipients (.str "all") = .str "specific" := by
    simp [withDefault, hspec]
  constructor
  · intro hno
    simp only [adminRoute, hadmin]
    unfold postNotification
    split_ifs with h1 h2 h3
    · simp [failure]
    · simp [failure]
    · simp [failure]
    · exact absurd ⟨hrec, hno⟩ h3
  · intro r db' hreq hok
    have hh := adminRoute_success hreq hok
    unfold postNotification at hh
    split_ifs at hh with h1 h2 h3
    · cases hh; simp [failure] at hok
    · cases hh; simp [failure] at hok
    · cases hh; simp [failure] at hok
    · have htruthy : truthy b.user_id = true := by
        by_contra hc
        exact h3 ⟨hrec, by simp [jsNot, hc]⟩
      simp only [] at hh
      split at hh
      · next db2 hfan =>
        cases hh
        have hsent := fanOut_sent _ _ _ _ hfan
        rw [hsent]
        simp [fanOutTargets, hrec, htruthy, deliveryRow, notificationRow, jsOr]
      · cases hh; simp [failure] at hok

/-- Witness of C14: the admin 1 sends a notification to user 3 in `notifDb`,
and sends one without target. -/
theorem specific_notification_has_one_target_witness :
    requireAdmin (sessionOf 1) notifDb = .next ∧
    (adminRoute (postNotification (notifyBody (.str "specific") .undefined)) (sessionOf 1)
      notifDb).1.status = 400 ∧
    (adminRoute (postNotification (notifyBody (.str "specific") (.num 3))) (sessionOf 1)
      notifDb).2.user_notifications =
      [{ user_id := .num 3, notification_id := .num 4, read_status := .num 0 }] :=
  have h := specific_notification_has_one_target (sessionOf 1) notifDb
    (notifyBody (.str "specific") .undefined) (by decide!) rfl
  have h3 := (specific_notification_has_one_target (sessionOf 1) notifDb
    (notifyBody (.str "specific") (.num 3)) (by decide!) rfl).2 _ _ rfl (by decide!)
  ⟨by decide!, (h.1 (by decide!)).1, (congrArg Db.user_notifications h3.1).trans (by decide!)⟩

/-- C15, at the failing input: in `notifDb` user 2 has the role `user`.  An
admin `POST /notifications` with `recipients` equal to `both` and `user_id`
2 is answered 500: the broadcast loop inserts the rows (2, 4) and (3, 4), and
the extra insert of (2, 4) is refused by the key of `user_notifications`.
The notification and the two rows stay in the store.  With the target 1, who
is an admin, the request is answered 201. -/
theorem both_with_role_user_target_fails :
    adminRoute (postNotification (notifyBody (.str "both") (.num 2))) (sessionOf 1) notifDb =
      (failure 500 "Server error",
       { notifDb with
         notifications := notifDb.notifications ++
           [{ id := 4, message := .text "hi", type := .text "info", expires_at := .null,
              user_id := .null }],
         user_notifications :=
           [{ user_id := .num 2, notification_id := .num 4, read_status := .num 0 },
            { user_id := .num 3, notification_id := .num 4, read_status := .num 0 }] }) ∧
    (adminRoute (postNotification (notifyBody (.str "both") (.num 1))) (sessionOf 1)
      notifDb).1 = created "Notification created successfully" 4 := by
  decide!

/-! ## The read state of notifications -/

/-- The handlers Express runs for `GET /notifications`, for
`POST /notifications/:id/read` and for `POST /notifications/read-all` leave
the store as it is, whatever the request. -/
theorem served_notification_routes_write_nothing (env : Env) (id : IdParam) (s : Session)
    (db : Db) :
    (serve env .getNotifications s db).2 = db ∧ (serve env (.markRead id) s db).2 = db ∧
    (serve env .markAllRead s db).2 = db := by
  refine ⟨?_, ?_, ?_⟩ <;>
    · simp only [serve, firstRegistered, userRoute]
      split <;> rfl

/-- The second registration of `POST /notifications/:id/read`, which Express
does not reach, holds the row (A, n) with `read_status` 1 afterwards and
keeps every row with another key. -/
theorem markReadSecond_upserts (id : IdParam) (uid : Nat) (db : Db) :
    ({ user_id := .num uid, notification_id := id.stored, read_status := .num 1 } :
        UserNotification) ∈ (markReadSecond id uid db).2.user_notifications ∧
    ∀ r ∈ db.user_notifications,
      sameKey r { user_id := .num uid, notification_id := id.stored, read_status := .num 1 }
        = false →
      r ∈ (markReadSecond id uid db).2.user_notifications := by
  constructor
  · simp [markReadSecond, upsertRead]
  · intro r hr hkey
    simp [markReadSecond, upsertRead, hr, hkey]

/-- C16, at the failing input: in `notifDb` no read state is stored.  The
active user 2 posts to `/notifications/1/read`; Express runs the first
registration, which answers with success and leaves `user_notifications`
empty, so the row (2, 1) is not there.  The second registration would have
stored it. -/
theorem served_mark_read_stores_nothing :
    serve isoEnv (.markRead (.ofId 1)) (sessionOf 2) notifDb =
      (okMsg "Notification marked as read", notifDb) ∧
    notifDb.user_notifications = [] ∧
    (userRoute (markReadSecond (.ofId 1)) (sessionOf 2) notifDb).2.user_notifications =
      [{ user_id := .num 2, notification_id := .num 1, read_status := .num 1 }] := by
  decide!

/-- C17, at the failing input: in `notifDb` the notification 1 is a broadcast
that is not expired, so it is visible to the active user 2.  The user posts
to `/notifications/read-all`; Express runs the first registration, which
answers with success and leaves `user_notifications` empty.  The second
registration would have stored the row (2, 1) and no other. -/
theorem served_mark_all_read_stores_nothing :
    serve isoEnv .markAllRead (sessionOf 2) notifDb =
      (okMsg "All notifications marked as read", notifDb) ∧
    notifDb.user_notifications = [] ∧
    (notifDb.notifications.filter (visibleTo isoEnv 2)).map (fun n => n.id) = [1] ∧
    (userRoute (markAllReadSecond isoEnv) (sessionOf 2) notifDb).2.user_notifications =
      [{ user_id := .num 2, notification_id := .num 1, read_status := .num 1 }] := by
  decide!

/-- C18, at the failing input: in `notifDb` the notification 1 is a broadcast
without expiry and the notification 2 is for user 3.  `GET /notifications`
answers user 2, and user 3, with an empty list. -/
theorem served_notification_list_is_empty :
    (notifDb.notifications.filter (visibleTo isoEnv 2)).map (fun n => n.id) = [1] ∧
    (notifDb.notifications.filter (visibleTo isoEnv 3)).map (fun n => n.id) = [1, 2] ∧
    (serve isoEnv .getNotifications (sessionOf 2) notifDb).1 = okWith (.notifications []) ∧
    (serve isoEnv .getNotifications (sessionOf 3) notifDb).1 = okWith (.notifications []) := by
  decide!

/-! ## Emails -/

theorem sqlEq_symm (a b : SqlVal) : sqlEq a b = sqlEq b a := by
  cases a <;> cases b <;> simp [sqlEq, eq_comm]

theorem sqlEq_of_both {a b x : SqlVal} (ha : sqlEq a x = true) (hb : sqlEq b x = true) :
    sqlEq a b = true := by
  cases a <;> cases b <;> cases x <;> simp_all [sqlEq]

theorem emailsUnique_append (l : List User) (new : User)
    (h : l.Pairwise (fun a b => sqlEq a.email b.email = false))
    (hnone : l.find? (fun u => sqlEq u.email new.email) = none) :
    (l ++ [new]).Pairwise (fun a b => sqlEq a.email b.email = false) := by
  rw [List.pairwise_append]
  refine ⟨h, List.pairwise_singleton _ _, ?_⟩
  intro a ha b hb
  rw [List.mem_singleton] at hb
  subst hb
  rw [List.find?_eq_none] at hnone
  simpa using hnone a ha

theorem emailsUnique_map (l : List User) (sel : User → Bool) (f : User → User) (e : SqlVal)
    (hf : ∀ u, (f u).email = e)
    (hpair : l.Pairwise (fun a b => sqlEq a.email b.email = false))
    (hsel : l.Pairwise (fun a b => ¬(sel a = true ∧ sel b = true)))
    (hother : ∀ u ∈ l, sel u = false → sqlEq u.email e = false) :
    (l.map (fun u => if sel u then f u else u)).Pairwise
      (fun a b => sqlEq a.email b.email = false) := by
  rw [List.pairwise_map]
  refine List.Pairwise.imp_of_mem ?_ (hpair.and hsel)
  intro a b ha hb hab
  obtain ⟨hR, hns⟩ := hab
  cases hsa : sel a <;> cases hsb : sel b
  · simpa [hsa, hsb] using hR
  · simp only [hsa, hsb, if_true, Bool.false_eq_true, if_false, hf]
    exact hother a ha hsa
  · simp only [hsa, hsb, if_true, Bool.false_eq_true, if_false, hf]
    rw [sqlEq_symm]
    exact hother b hb hsb
  · exact absurd ⟨hsa, hsb⟩ hns

theorem ids_pairwise {l : List User} (h : (l.map (fun u => u.id)).Nodup) :
    l.Pairwise (fun a b => a.id ≠ b.id) := by
  simpa [List.Nodup, List.pairwise_map] using h

theorem postRegister_emails (env : Env) (b : NewUserBody) (db : Db) (h : EmailsUnique db) :
    EmailsUnique (postRegister env b db).2 := by
  unfold postRegister
  split_ifs
  · exact h
  · exact h
  · exact h
  · split
    · exact h
    · next hnone =>
      split
      · exact h
      · exact emailsUnique_append db.users _ h hnone

theorem postUser_emails (env : Env) (b : NewUserBody) (uid : Nat) (db : Db)
    (h : EmailsUnique db) : EmailsUnique (postUser env b uid db).2 := by
  unfold postUser
  split_ifs
  · exact h
  · exact h
  · exact h
  · split
    · exact h
    · next hnone =>
      split
      · exact h
      · exact emailsUnique_append db.users _ h hnone

theorem putMe_emails (name email : JVal) (uid : Nat) (db : Db)
    (hpk : (db.users.map (fun u => u.id)).Nodup) (h : EmailsUnique db) :
    EmailsUnique (putMe name email uid db).2 := by
  unfold putMe
  split_ifs
  · exact h
  · split
    · exact h
    · next hnone =>
      rw [List.find?_eq_none] at hnone
      refine emailsUnique_map db.users (fun u => u.id == uid)
        (fun u => { u with name := bind name, email := bind email }) (bind email)
        (fun _ => rfl) h ?_ ?_
      · refine (ids_pairwise hpk).imp ?_
        intro a c hne hboth
        simp only [beq_iff_eq] at hboth
        exact hne (hboth.1.trans hboth.2.symm)
      · intro u hu hsel
        have := hnone u hu
        simp only [beq_eq_false_iff_ne, ne_eq] at hsel
        simpa [hsel] using this

theorem putProfile_emails (name email : JVal) (uid : Nat) (db : Db)
    (hpk : (db.users.map (fun u => u.id)).Nodup) (h : EmailsUnique db) :
    EmailsUnique (putProfile name email uid db).2 := by
  unfold putProfile
  split_ifs
  · exact h
  · split
    · exact h
    · next hnone =>
      rw [List.find?_eq_none] at hnone
      refine emailsUnique_map db.users (fun u => u.id == uid)
        (fun u => { u with name := bind name, email := bind email }) (bind email)
        (fun _ => rfl) h ?_ ?_
      · refine (ids_pairwise hpk).imp ?_
        intro a c hne hboth
        simp only [beq_iff_eq] at hboth
        exact hne (hboth.1.trans hboth.2.symm)
      · intro u hu hsel
        have := hnone u hu
        simp only [beq_eq_false_iff_ne, ne_eq] at hsel
        simpa [hsel] using this

theorem putUser_emails (id : IdParam) (b : UserUpdateBody) (uid : Nat) (db : Db)
    (hpk : (db.users.map (fun u => u.id)).Nodup) (h : EmailsUnique db) :
    EmailsUnique (putUser id b uid db).2 := by
  unfold putUser
  split_ifs
  · exact h
  · split
    · exact h
    · next hnone =>
      rw [List.find?_eq_none] at hnone
      refine emailsUnique_map db.users (fun u => id.selects u.id) (setUser b) (bind b.email)
        (fun _ => rfl) h ?_ ?_
      · refine (ids_pairwise hpk).imp ?_
        intro a c hne hboth
        rw [selects_iff, selects_iff] at hboth
        exact hne (Option.some.inj (hboth.1.symm.trans hboth.2))
      · intro u hu hsel
        have := hnone u hu
        simpa [hsel] using this

theorem emails_distinct {db : Db} (h : EmailsUnique db) {a b : User} (ha : a ∈ db.users)
    (hb : b ∈ db.users) (hne : a ≠ b) : sqlEq a.email b.email = false := by
  refine List.Pairwise.forall ?_ h ha hb hne
  intro x y hxy
  rw [sqlEq_symm]
  exact hxy

theorem held_email_found {l : List User} {e : SqlVal} (cond : User → Bool)
    (h : ∃ u ∈ l, sqlEq u.email e = true ∧ cond u = true) :
    ∃ v, l.find? (fun u => sqlEq u.email e && cond u) = some v := by
  cases hf : l.find? (fun u => sqlEq u.email e && cond u) with
  | some v => exact ⟨v, rfl⟩
  | none =>
    obtain ⟨u, hu, h1, h2⟩ := h
    rw [List.find?_eq_none] at hf
    have := hf u hu
    simp [h1, h2] at this

theorem own_email_not_taken {db : Db} (h : EmailsUnique db) {e : SqlVal} (cond : User → Bool)
    {u : User} (hu : u ∈ db.users) (hown : sqlEq u.email e = true) (hcond : cond u = false)
    (honly : ∀ v ∈ db.users, cond v = false → v = u) :
    db.users.find? (fun v => sqlEq v.email e && cond v) = none := by
  rw [List.find?_eq_none]
  intro v hv hboth
  simp only [Bool.and_eq_true] at hboth
  by_cases hvu : v = u
  · subst hvu
    rw [hcond] at hboth
    exact absurd hboth.2 (by simp)
  · have hd := emails_distinct h hv hu hvu
    rw [sqlEq_of_both hboth.1 hown] at hd
    exact absurd hd (by simp)

/-- C19: in a store with primary keys where no two users share an email, no
two users share an email after a request to `POST /register`, `POST /users`,
`PUT /me`, `PUT /profile` or `PUT /users/:id`, whoever sends it.  A create
with an email that a user holds is answered 400 and the store is as before;
so is an update to an email held by a user with another id; and an update
that keeps the email of the user's own row is answered with success. -/
theorem emails_stay_unique (env : Env) (s : Session) (db : Db) (hpk : PrimaryKeys db)
    (h : EmailsUnique db) :
    (∀ b, EmailsUnique (serve env (.register b) s db).2) ∧
    (∀ b, EmailsUnique (serve env (.adminPostUser b) s db).2) ∧
    (∀ name email, EmailsUnique (serve env (.putMe name email) s db).2) ∧
    (∀ name email, EmailsUnique (serve env (.putProfile name email) s db).2) ∧
    (∀ id b, EmailsUnique (serve env (.adminPutUser id b) s db).2) ∧
    (∀ b uid, (∃ u ∈ db.users, sqlEq u.email (bind b.email) = true) →
      ((postRegister env b db).1.status = 400 ∧ (postRegister env b db).2 = db) ∧
      ((postUser env b uid db).1.status = 400 ∧ (postUser env b uid db).2 = db)) ∧
    (∀ name email uid, (∃ u ∈ db.users, sqlEq u.email (bind email) = true ∧ u.id ≠ uid) →
      ((putMe name email uid db).1.status = 400 ∧ (putMe name email uid db).2 = db) ∧
      ((putProfile name email uid db).1.status = 400 ∧ (putProfile name email uid db).2 = db)) ∧
    (∀ id b uid, (∃ u ∈ db.users, sqlEq u.email (bind b.email) = true ∧ id.sqlKey ≠ some u.id) →
      (putUser id b uid db).1.status = 400 ∧ (putUser id b uid db).2 = db) ∧
    (∀ name email uid, truthy name = true → truthy email = true →
      (∃ u ∈ db.users, u.id = uid ∧ sqlEq u.email (bind email) = true) →
      (putMe name email uid db).1 = okMsg "Profile updated successfully" ∧
      (putProfile name email uid db).1 = okMsg "Profile updated successfully") ∧
    (∀ id b uid, truthy b.name = true → truthy b.email = true → truthy b.role = true →
      truthy b.status = true →
      (∃ u ∈ db.users, id.sqlKey = some u.id ∧ sqlEq u.email (bind b.email) = true) →
      (putUser id b uid db).1 = okMsg "User updated successfully") := by
  have hids := hpk.1
  have hidp := ids_pairwise hids
  have same_id : ∀ {a c : User}, a ∈ db.users → c ∈ db.users → a.id = c.id → a = c := by
    intro a c ha hc hac
    by_contra hne
    exact List.Pairwise.forall (fun x y hxy => Ne.symm hxy) hidp ha hc hne hac
  refine ⟨?_, ?_, ?_, ?_, ?_, ?_, ?_, ?_, ?_, ?_⟩
  · intro b
    exact postRegister_emails env b db h
  · intro b
    simp only [serve, adminRoute]
    split
    · exact postUser_emails env b _ db h
    · exact h
  · intro name email
    simp only [serve, authRoute]
    split
    · exact putMe_emails name email _ db hids h
    · exact h
  · intro name email
    simp only [serve, userRoute]
    split
    · exact putProfile_emails name email _ db hids h
    · exact h
  · intro id b
    simp only [serve, adminRoute]
    split
    · exact putUser_emails id b _ db hids h
    · exact h
  · intro b uid hheld
    obtain ⟨v, hv⟩ := held_email_found (fun _ => true)
      (by obtain ⟨u, hu, he⟩ := hheld; exact ⟨u, hu, he, rfl⟩)
    simp only [Bool.and_true] at hv
    constructor
    · unfold postRegister
      split_ifs <;> simp [failure, hv]
    · unfold postUser
      split_ifs <;> simp [failure, hv]
  · intro name email uid hheld
    obtain ⟨v, hv⟩ := held_email_found (fun u => u.id != uid)
      (by obtain ⟨u, hu, he, hne⟩ := hheld; exact ⟨u, hu, he, by simpa using hne⟩)
    constructor
    · unfold putMe
      split_ifs <;> simp [failure, hv]
    · unfold putProfile
      split_ifs <;> simp [failure, hv]
  · intro id b uid hheld
    obtain ⟨v, hv⟩ := held_email_found (fun u => !id.selects u.id)
      (by
        obtain ⟨u, hu, he, hne⟩ := hheld
        refine ⟨u, hu, he, ?_⟩
        simpa [IdParam.selects] using hne)
    unfold putUser
    split_ifs <;> simp [failure, hv]
  · intro name email uid hn he hown
    obtain ⟨u, hu, huid, hmail⟩ := hown
    have hfree := own_email_not_taken h (fun v => v.id != uid) hu hmail
      (by simp [huid]) (by
        intro v hv hc
        simp only [bne_eq_false_iff_eq] at hc
        exact same_id hv hu (hc.trans huid.symm))
    constructor
    · simp [putMe, jsNot, hn, he, hfree]
    · simp [putProfile, jsNot, hn, he, hfree]
  · intro id b uid hn he hr hst hown
    obtain ⟨u, hu, hkey, hmail⟩ := hown
    have hfree := own_email_not_taken h (fun v => !id.selects v.id) hu hmail
      (by simp [IdParam.selects, hkey]) (by
        intro v hv hc
        simp only [Bool.not_eq_false', selects_iff] at hc
        exact same_id hv hu (Option.some.inj (hc.symm.trans hkey)))
    simp [putUser, jsNot, hn, he, hr, hst, hfree]

/-- Witness of C19: in `notifDb` the three users have emails of their own.
User 2 cannot take the email of user 3, can keep their own, and nobody can
register with the email of user 2. -/
theorem emails_stay_unique_witness :
    PrimaryKeys notifDb ∧ EmailsUnique notifDb ∧
    (putProfile (.str "n") (.str "c@x") 2 notifDb).1.status = 400 ∧
    (putProfile (.str "n") (.str "b@x") 2 notifDb).1 = okMsg "Profile updated successfully" ∧
    (postRegister isoEnv { name := .str "n", email := .str "b@x", password := .str "secret",
                           role := .undefined } notifDb).1.status = 400 ∧
    EmailsUnique (serve isoEnv (.register { name := .str "n", email := .str "d@x",
                                            password := .str "secret",
                                            role := .undefined }) noSession notifDb).2 :=
  have hpk : PrimaryKeys notifDb := by
    unfold PrimaryKeys
    decide!
  have hu : EmailsUnique notifDb := by
    unfold EmailsUnique
    decide!
  have h := emails_stay_unique isoEnv noSession notifDb hpk hu
  ⟨hpk, hu,
   ((h.2.2.2.2.2.2.1 (.str "n") (.str "c@x") 2 (by decide!)).2).1,
   (h.2.2.2.2.2.2.2.2.1 (.str "n") (.str "b@x") 2 rfl rfl (by decide!)).2,
   ((h.2.2.2.2.2.1 _ 0 (by decide!)).1).1,
   h.1 _⟩

/-! ## Roles and statuses -/

theorem userDomain_map {l : List User} (sel : User → Bool) (f : User → User)
    (hf : ∀ u, u.inDomain → (f u).inDomain) (h : ∀ u ∈ l, u.inDomain) :
    ∀ u ∈ l.map (fun u => if sel u then f u else u), u.inDomain := by
  intro u hu
  rw [List.mem_map] at hu
  obtain ⟨v, hv, rfl⟩ := hu
  split_ifs
  · exact hf v (h v hv)
  · exact h v hv

theorem newUserRow_inDomain (id : Nat) (b : NewUserBody) (hash : String)
    (hrole : ¬(withDefault b.role (.str "user") ≠ .str "user" ∧
      withDefault b.role (.str "user") ≠ .str "admin")) :
    (newUserRow id b hash).inDomain := by
  have hr : withDefault b.role (.str "user") = .str "user" ∨
      withDefault b.role (.str "user") = .str "admin" := by
    by_contra hc
    exact hrole ⟨fun h1 => hc (Or.inl h1), fun h2 => hc (Or.inr h2)⟩
  rcases hr with hr | hr <;> simp [User.inDomain, newUserRow, hr, bind]

/-- The handlers that write `users`, other than `PUT /users/:id`, keep every
role among `user` and `admin` and every status among `active` and
`inactive`: registration and creation check the role and set the status
`active`, the status toggle checks the status, and the profile and password
handlers and the deletion leave both columns alone. -/
theorem other_writers_keep_user_domain (env : Env) (db : Db) (h : UserDomain db) :
    (∀ b, UserDomain (postRegister env b db).2) ∧
    (∀ b uid, UserDomain (postUser env b uid db).2) ∧
    (∀ id status uid, UserDomain (putUserStatus id status uid db).2) ∧
    (∀ name email uid, UserDomain (putMe name email uid db).2) ∧
    (∀ name email uid, UserDomain (putProfile name email uid db).2) ∧
    (∀ c n uid, UserDomain (changePasswordFirst env c n uid db).2) ∧
    (∀ c n cf uid, UserDomain (postUserChangePassword c n cf uid db).2) ∧
    (∀ id p uid, UserDomain (postResetPassword env id p uid db).2) ∧
    (∀ id uid, UserDomain (deleteUser id uid db).2) := by
  have h' : ∀ u ∈ db.users, u.inDomain := h
  refine ⟨?_, ?_, ?_, ?_, ?_, ?_, ?_, ?_, ?_⟩
  · intro b
    unfold postRegister
    split_ifs with h1 h2 h3
    · exact h
    · exact h
    · exact h
    · split
      · exact h
      · split
        · exact h
        · intro u hu
          rcases List.mem_append.mp hu with hu | hu
          · exact h u hu
          · rw [List.mem_singleton] at hu
            subst hu
            exact newUserRow_inDomain _ b _ h3
  · intro b uid
    unfold postUser
    split_ifs with h1 h2 h3
    · exact h
    · exact h
    · exact h
    · split
      · exact h
      · split
        · exact h
        · intro u hu
          rcases List.mem_append.mp hu with hu | hu
          · exact h u hu
          · rw [List.mem_singleton] at hu
            subst hu
            exact newUserRow_inDomain _ b _ h3
  · intro id status uid
    unfold putUserStatus
    split_ifs with hbad
    · exact h
    · split
      · exact h
      · have hst : status = .str "active" ∨ status = .str "inactive" := by
          by_contra hc
          exact hbad ⟨fun h1 => hc (Or.inl h1), fun h2 => hc (Or.inr h2)⟩
        refine userDomain_map _ (fun u => { u with status := bind status }) ?_ h'
        intro u hu
        rcases hst with hst | hst <;> simpa [User.inDomain, hst, bind] using hu.1
  · intro name email uid
    unfold putMe
    split_ifs
    · exact h
    · split
      · exact h
      · exact userDomain_map _ (fun u => { u with name := bind name, email := bind email })
          (fun u hu => hu) h'
  · intro name email uid
    unfold putProfile
    split_ifs
    · exact h
    · split
      · exact h
      · exact userDomain_map _ (fun u => { u with name := bind name, email := bind email })
          (fun u hu => hu) h'
  · intro c n uid
    unfold changePasswordFirst
    split_ifs
    · exact h
    · exact h
    · split
      · exact h
      · split
        · exact h
        · exact h
        · split
          · exact h
          · next hash _ =>
            exact userDomain_map _ (fun u => { u with password_hash := .text hash })
              (fun u hu => hu) h'
  · intro c n cf uid
    unfold postUserChangePassword
    split_ifs <;> exact h
  · intro id p uid
    unfold postResetPassword
    split_ifs
    · exact h
    · split
      · exact h
      · split
        · exact h
        · next hash _ =>
          exact userDomain_map _ (fun u => { u with password_hash := .text hash })
            (fun u hu => hu) h'
  · intro id uid
    unfold deleteUser
    split
    · exact h
    · split_ifs
      · exact h
      · intro u hu
        exact h u (List.mem_of_mem_filter hu)

/-- C20, at the failing input: in `notifDb` every role and status is in its
domain.  The admin 1 sends `PUT /users/2` with the role `superuser` and the
status `banned`; the handler checks only that the two fields are there, the
request is answered with success, and the row of user 2 carries a role and a
status outside the domains. -/
theorem admin_update_breaks_user_domain :
    UserDomain notifDb ∧
    serve isoEnv (.adminPutUser (.ofId 2) { name := .str "n", email := .str "b@x",
                                            role := .str "superuser",
                                            status := .str "banned" }) (sessionOf 1) notifDb =
      (okMsg "User updated successfully",
       { notifDb with users :=
          [mailUser 1 "a@x" "admin",
           { id := 2, name := .text "n", email := .text "b@x", password_hash := .text "h",
             role := .text "superuser", status := .text "banned" },
           mailUser 3 "c@x" "user"] }) ∧
    ¬UserDomain (serve isoEnv (.adminPutUser (.ofId 2) { name := .str "n", email := .str "b@x",
                                                         role := .str "superuser",
                                                         status := .str "banned" })
      (sessionOf 1) notifDb).2 := by
  unfold UserDomain
  decide!

/-! ## Changing the password -/

theorem lengthBelow_six (p : String) (h : 6 ≤ utf16Length p) :
    lengthBelow (.str p) 6 = false := by
  simp only [lengthBelow, jsLength, numLt, Option.getD_some, decide_eq_false_iff_not, not_lt]
  exact_mod_cast h

theorem ne_empty_of_length {p : String} {n : Nat} (hn : 0 < n) (h : n ≤ utf16Length p) :
    p ≠ "" := by
  rintro rfl
  simp [utf16Length] at h
  omega

/-- C21: for a session bound to the user row `A` and a request to
`POST /api/auth/change-password` with `currentPassword` present and a
`newPassword` of at least 6 characters, served by the handler Express
dispatches (the first of the two registrations): when `currentPassword` does
not verify against the stored hash of `A` the answer is 400 and the store is
unchanged; when it verifies the answer is 200, the hash of the rows with the
id of `A` becomes the hash of `newPassword`, no other row and no other column
changes, and the row of the session user is `A` with the new hash; and the
store changes in no case but that of a verified password (when the password
library throws, for a password or a stored hash that is not a string, the
answer is neither and the store is unchanged too). -/
theorem change_password_requires_current (env : Env) (s : Session) (db : Db) (A : User)
    (cur : JVal) (new : String) (hs : s.noUserId = false) (hA : userById db s.userId = some A)
    (hcur : truthy cur = true) (hlen : 6 ≤ utf16Length new) :
    (compareOf env cur A.password_hash = some false →
      (serve env (.changePassword cur (.str new)) s db).1.status = 400 ∧
      (serve env (.changePassword cur (.str new)) s db).2 = db) ∧
    (compareOf env cur A.password_hash = some true →
      (serve env (.changePassword cur (.str new)) s db).1.status = 200 ∧
      (serve env (.changePassword cur (.str new)) s db).2 =
        { db with users := db.users.map (fun u =>
            if u.id = A.id then { u with password_hash := .text (env.bcryptHash new) } else u) } ∧
      userById (serve env (.changePassword cur (.str new)) s db).2 s.userId =
        some { A with password_hash := .text (env.bcryptHash new) }) ∧
    (compareOf env cur A.password_hash ≠ some true →
      (serve env (.changePassword cur (.str new)) s db).2 = db) := by
  obtain ⟨uid, hu⟩ : ∃ uid, s.userId = some uid := by
    cases h0 : s.userId with
    | none => simp [Session.noUserId, h0] at hs
    | some n => exact ⟨n, rfl⟩
  have hfind : db.users.find? (fun u => u.id == uid) = some A := by
    simpa [userById, hu] using hA
  have hAid : A.id = uid := by
    have := List.find?_some hfind
    simpa using this
  have hnew : new ≠ "" := ne_empty_of_length (by decide) hlen
  have hlb := lengthBelow_six new hlen
  have hjc : jsNot cur = false := by simp [jsNot, hcur]
  have hjn : jsNot (.str new) = false := by simp [jsNot, truthy, hnew]
  refine ⟨?_, ?_, ?_⟩
  · intro hc
    simp [serve, firstRegistered, authRoute, requireAuth, hs, hu, changePasswordFirst, hjc, hjn,
      hlb, hfind, hc, failure]
  · intro hc
    have hserve : serve env (.changePassword cur (.str new)) s db =
        (okMsg "Password changed successfully",
          { db with users := db.users.map (fun u =>
              if u.id == uid then { u with password_hash := .text (env.bcryptHash new) }
              else u) }) := by
      simp [serve, firstRegistered, authRoute, requireAuth, hs, hu, changePasswordFirst, hjc, hjn,
        hlb, hfind, hc, hashOf]
    rw [hserve]
    refine ⟨rfl, ?_, ?_⟩
    · simp [hAid]
    · simp only [userById, hu]
      have : (fun u : User => some u.id == some uid) = (fun u : User => u.id == uid) := by
        funext u; simp
      rw [this, List.find?_map]
      have h2 : ((fun u : User => u.id == uid) ∘ fun u : User =>
          if (u.id == uid) = true then { u with password_hash := SqlVal.text (env.bcryptHash new) }
          else u) = (fun u : User => u.id == uid) := by
        funext u
        by_cases hq : (u.id == uid) = true <;> simp [Function.comp, hq]
      rw [h2, hfind]
      simp [hAid]
  · intro hc
    simp only [serve, firstRegistered, authRoute, requireAuth, hs, changePasswordFirst, hu,
      Option.getD_some, hfind]
    cases h : compareOf env cur A.password_hash with
    | none => simp [hjc, hjn, hlb]
    | some v =>
      cases v with
      | false => simp [hjc, hjn, hlb]
      | true => exact absurd h hc

/-- Witness of C21: user 2, whose password is `secret1`, is answered 400 with
the store unchanged for the current password `wrong!`, and 200 with the hash
of `newsecret` stored for the current password `secret1`. -/
theorem change_password_requires_current_witness :
    (serve isoEnv (.changePassword (.str "wrong!") (.str "newsecret")) (sessionOf 2)
      loginDb).1.status = 400 ∧
    (serve isoEnv (.changePassword (.str "wrong!") (.str "newsecret")) (sessionOf 2)
      loginDb).2 = loginDb ∧
    (serve isoEnv (.changePassword (.str "secret1") (.str "newsecret")) (sessionOf 2)
      loginDb).1.status = 200 ∧
    userById
      (serve isoEnv (.changePassword (.str "secret1") (.str "newsecret")) (sessionOf 2) loginDb).2
      (some 2) = some (loginUser 2 "b@x" "newsecret" "user" "active") :=
  have hw := (change_password_requires_current isoEnv (sessionOf 2) loginDb
    (loginUser 2 "b@x" "secret1" "user" "active") (.str "wrong!") "newsecret"
    (by decide) (by decide!) (by decide) (by decide!)).1 (by decide!)
  have hr := (change_password_requires_current isoEnv (sessionOf 2) loginDb
    (loginUser 2 "b@x" "secret1" "user" "active") (.str "secret1") "newsecret"
    (by decide) (by decide!) (by decide) (by decide!)).2.1 (by decide!)
  ⟨hw.1, hw.2, hr.1, hr.2.2.trans (by decide!)⟩

/-- C22: `POST /api/user/change-password` by the active user 2, whose
password is `secret1`, with matching new passwords of nine characters: the
answer is 500 "Server error" for the wrong current password `wrong!`, not
400, and it is the same answer for the right current password.  The handler
compares `currentPassword` with nothing. -/
theorem user_change_password_skips_verification :
    (serve isoEnv (.userChangePassword (.str "wrong!") (.str "newsecret") (.str "newsecret"))
      (sessionOf 2) loginDb).1 = failure 500 "Server error" ∧
    (serve isoEnv (.userChangePassword (.str "secret1") (.str "newsecret") (.str "newsecret"))
      (sessionOf 2) loginDb).1 = failure 500 "Server error" := by
  decide!

/-! ## The status of a budget -/

/-- C23: over the rationals, for every limit and every actual amount, the
status the budget analysis reports for a budget with that limit is `over`
exactly when actual > limit, `warning` exactly when actual ≤ limit and
5 * actual > 4 * limit, and `good` exactly when neither holds; it is always
one of the three; and every row of the answer of the handler carries the
status of its own limit and amount. -/
theorem budget_status_classification (limit actual : ℚ) (env : Env) (m y : QParam) (uid : Nat)
    (db : Db) :
    (budgetStatus (.num limit) actual = "over" ↔ actual > limit) ∧
    (budgetStatus (.num limit) actual = "warning" ↔ actual ≤ limit ∧ 5 * actual > 4 * limit) ∧
    (budgetStatus (.num limit) actual = "good" ↔ actual ≤ limit ∧ 5 * actual ≤ 4 * limit) ∧
    (budgetStatus (.num limit) actual = "over" ∨ budgetStatus (.num limit) actual = "warning" ∨
      budgetStatus (.num limit) actual = "good") ∧
    (match (getBudgetAnalysis env m y uid db).1.payload with
      | .budgetAnalysis rows => ∀ r ∈ rows, r.status = budgetStatus r.budget_limit r.actual_spent
      | _ => False) := by
  have h45 : actual > limit * (4 / 5) ↔ 5 * actual > 4 * limit := by
    constructor <;> intro h <;> linarith
  have hrows : (match (getBudgetAnalysis env m y uid db).1.payload with
      | .budgetAnalysis rows => ∀ r ∈ rows, r.status = budgetStatus r.budget_limit r.actual_spent
      | _ => False) := by
    simp only [getBudgetAnalysis, okWith]
    intro r hr
    simp only [List.mem_map] at hr
    obtain ⟨b, _, rfl⟩ := hr
    rfl
  refine ⟨?_, ?_, ?_, ?_, hrows⟩ <;> simp only [budgetStatus, statusOf]
  all_goals
    by_cases h1 : actual > limit
    · have h1n : ¬ actual ≤ limit := not_le.mpr h1
      simp [h1, h1n]
    · have h1n : actual ≤ limit := not_lt.mp h1
      by_cases h2 : actual > limit * (4 / 5)
      · have h3 := h45.mp h2
        have h4 : ¬ 5 * actual ≤ 4 * limit := not_le.mpr h3
        simp [h1, h2, h1n, h3, h4]
      · have h3 : ¬ 5 * actual > 4 * limit := fun h => h2 (h45.mpr h)
        have h4 : 5 * actual ≤ 4 * limit := not_lt.mp h3
        simp [h1, h2, h1n, h3, h4]

/-- Counterexample to C24 as stated: with the limit 100 the amount 100 is
classified `warning`, not `good`: 100 is not above the limit and it is above
80. -/
theorem boundary_hundred_is_warning :
    budgetStatus (.num 100) 100 = "warning" ∧ budgetStatus (.num 100) 100 ≠ "good" := by
  decide!

/-- C24, amended: with the limit 100, the amount 100 is classified `warning`,
80.01 is classified `warning`, 100.01 is classified `over`, and 80.00 exactly
is classified `good`. -/
theorem boundary_statuses :
    budgetStatus (.num 100) 100 = "warning" ∧
    budgetStatus (.num 100) (8001 / 100) = "warning" ∧
    budgetStatus (.num 100) (10001 / 100) = "over" ∧
    budgetStatus (.num 100) 80 = "good" := by
  decide!

/-! ## Login -/

/-- Counterexample to C25 as stated: a request to `POST /login` that comes
with the session of user 2 and names an unknown email is answered 401, and
the session still carries the user id 2. -/
theorem failed_login_keeps_session :
    (serve isoEnv (.login (.str "nobody@x") (.str "secret1")) (sessionOf 2) loginDb).1.status
      = 401 ∧
    (sessionAfter isoEnv (.login (.str "nobody@x") (.str "secret1")) (sessionOf 2) loginDb).userId
      = some 2 := by
  decide!

/-- C25, amended: for every store, every session and every request to
`POST /login` with email and password present: when no user row has the
email, compared as the store compares the bound value, the answer is 401; when the row of the email has a status other than
`active` the answer is 403; when the row is active and the password does not
verify the answer is 401 with the message of the unknown email; when the row
is active and the password verifies the answer is 200, its body carries the
id, name, email and role of the row and nothing else of it, and the session
holds the id, role, name and email of the row.  In every case but 200 the
session is left as it was: without a user id when it had none, and with the
user id it already carried otherwise.  The store is never written. -/
theorem login_decision (env : Env) (s : Session) (db : Db) (email password : JVal)
    (he : truthy email = true) (hp : truthy password = true) :
    (db.users.find? (fun u => sqlEq u.email (bind email)) = none →
      (serve env (.login email password) s db).1 = failure 401 "Invalid email or password") ∧
    (∀ u, db.users.find? (fun u => sqlEq u.email (bind email)) = some u →
      u.status ≠ .text "active" →
      (serve env (.login email password) s db).1.status = 403) ∧
    (∀ u, db.users.find? (fun u => sqlEq u.email (bind email)) = some u →
      u.status = .text "active" → compareOf env password u.password_hash = some false →
      (serve env (.login email password) s db).1 = failure 401 "Invalid email or password") ∧
    (∀ u, db.users.find? (fun u => sqlEq u.email (bind email)) = some u →
      u.status = .text "active" → compareOf env password u.password_hash = some true →
      (serve env (.login email password) s db).1 =
        ⟨200, true, some "Login successful",
          .user { id := u.id, name := u.name, email := u.email, role := some u.role,
                  status := none }⟩ ∧
      sessionAfter env (.login email password) s db =
        { userId := some u.id, role := u.role, name := u.name, email := u.email }) ∧
    ((serve env (.login email password) s db).1.status ≠ 200 →
      sessionAfter env (.login email password) s db = s) ∧
    (serve env (.login email password) s db).2 = db := by
  have hje : jsNot email = false := by simp [jsNot, he]
  have hjp : jsNot password = false := by simp [jsNot, hp]
  refine ⟨?_, ?_, ?_, ?_, ?_, ?_⟩
  · intro hf
    simp [serve, postLogin, hje, hjp, hf, keepSession]
  · intro u hf hst
    simp [serve, postLogin, hje, hjp, hf, hst, keepSession, failure]
  · intro u hf hst hc
    simp [serve, postLogin, hje, hjp, hf, hst, hc, keepSession]
  · intro u hf hst hc
    simp [serve, sessionAfter, postLogin, hje, hjp, hf, hst, hc]
  · simp only [serve, sessionAfter, postLogin]
    repeat' split
    all_goals simp [keepSession]
  · exact postLogin_db env _ _ s db

/-- Witness of C25: in `loginDb` an unknown email is answered 401, the
inactive user 3 is answered 403, user 2 with a wrong password is answered 401
with the same message, user 2 with the right password gets a session bound
to the row, a failed login sent with the session of user 3 leaves that
session as it was, and the email sent as the array `['b@x']`, which the
driver binds as the text `[object Object]`, is the email of no row and is
answered 401. -/
theorem login_decision_witness :
    (serve isoEnv (.login (.str "nobody@x") (.str "secret1")) noSession loginDb).1 =
      failure 401 "Invalid email or password" ∧
    (serve isoEnv (.login (.str "c@x") (.str "secret3")) noSession loginDb).1.status = 403 ∧
    (serve isoEnv (.login (.str "b@x") (.str "wrong!")) noSession loginDb).1 =
      failure 401 "Invalid email or password" ∧
    sessionAfter isoEnv (.login (.str "b@x") (.str "secret1")) noSession loginDb =
      { userId := some 2, role := .text "user", name := .text "n", email := .text "b@x" } ∧
    sessionAfter isoEnv (.login (.str "b@x") (.str "wrong!")) (sessionOf 3) loginDb =
      sessionOf 3 ∧
    (serve isoEnv (.login (.obj "b@x" (.fin 1)) (.str "secret1")) noSession loginDb).1 =
      failure 401 "Invalid email or password" :=
  ⟨(login_decision isoEnv noSession loginDb (.str "nobody@x") (.str "secret1")
      (by decide) (by decide)).1 (by decide!),
   (login_decision isoEnv noSession loginDb (.str "c@x") (.str "secret3")
      (by decide) (by decide)).2.1 (loginUser 3 "c@x" "secret3" "user" "inactive")
      (by decide!) (by decide),
   (login_decision isoEnv noSession loginDb (.str "b@x") (.str "wrong!")
      (by decide) (by decide)).2.2.1 (loginUser 2 "b@x" "secret1" "user" "active")
      (by decide!) (by decide) (by decide!),
   ((login_decision isoEnv noSession loginDb (.str "b@x") (.str "secret1")
      (by decide) (by decide)).2.2.2.1 (loginUser 2 "b@x" "secret1" "user" "active")
      (by decide!) (by decide) (by decide!)).2,
   (login_decision isoEnv (sessionOf 3) loginDb (.str "b@x") (.str "wrong!")
      (by decide) (by decide)).2.2.2.2.1 (by decide!),
   (login_decision isoEnv noSession loginDb (.obj "b@x" (.fin 1)) (.str "secret1")
      (by decide) (by decide)).1 (by decide!)⟩

/-! ## Stored hashes and responses -/

theorem rehash_expenses (g : SqlVal → SqlVal) (db : Db) :
    (rehash g db).expenses = db.expenses := rfl

theorem rehash_income (g : SqlVal → SqlVal) (db : Db) : (rehash g db).income = db.income := rfl

theorem rehash_budgets (g : SqlVal → SqlVal) (db : Db) : (rehash g db).budgets = db.budgets := rfl

theorem rehash_education (g : SqlVal → SqlVal) (db : Db) :
    (rehash g db).education = db.education := rfl

theorem rehash_notifications (g : SqlVal → SqlVal) (db : Db) :
    (rehash g db).notifications = db.notifications := rfl

theorem rehash_user_notifications (g : SqlVal → SqlVal) (db : Db) :
    (rehash g db).user_notifications = db.user_notifications := rfl

theorem rehash_users (g : SqlVal → SqlVal) (db : Db) :
    (rehash g db).users = db.users.map (User.withHash g) := rfl

theorem find_withHash (g : SqlVal → SqlVal) (p : User → Bool)
    (hp : ∀ u, p (User.withHash g u) = p u) (l : List User) :
    (l.map (User.withHash g)).find? p = (l.find? p).map (User.withHash g) := by
  rw [List.find?_map]
  congr 2
  funext u
  exact hp u

theorem filter_withHash (g : SqlVal → SqlVal) (p : User → Bool)
    (hp : ∀ u, p (User.withHash g u) = p u) (l : List User) :
    (l.map (User.withHash g)).filter p = (l.filter p).map (User.withHash g) := by
  rw [List.filter_map]
  congr 2
  funext u
  exact hp u

theorem map_withHash {β : Type} (g : SqlVal → SqlVal) (f : User → β)
    (hf : ∀ u, f (User.withHash g u) = f u) (l : List User) :
    (l.map (User.withHash g)).map f = l.map f := by
  rw [List.map_map]
  congr 1
  funext u
  exact hf u

theorem insertDesc_withHash (g : SqlVal → SqlVal) (key : User → SqlVal)
    (hk : ∀ u, key (User.withHash g u) = key u) (x : User) (l : List User) :
    insertDesc key (User.withHash g x) (l.map (User.withHash g)) =
      (insertDesc key x l).map (User.withHash g) := by
  induction l with
  | nil => rfl
  | cons y ys ih =>
    simp only [List.map_cons, insertDesc, hk]
    split_ifs
    · simp [ih]
    · simp

theorem orderByDesc_withHash (g : SqlVal → SqlVal) (key : User → SqlVal)
    (hk : ∀ u, key (User.withHash g u) = key u) (l : List User) :
    orderByDesc key (l.map (User.withHash g)) = (orderByDesc key l).map (User.withHash g) := by
  unfold orderByDesc
  have : ∀ (acc : List User),
      (l.map (User.withHash g)).foldl (fun acc x => insertDesc key x acc)
        (acc.map (User.withHash g)) =
      (l.foldl (fun acc x => insertDesc key x acc) acc).map (User.withHash g) := by
    induction l with
    | nil => intro acc; rfl
    | cons x xs ih =>
      intro acc
      simp only [List.map_cons, List.foldl_cons]
      rw [insertDesc_withHash g key hk, ih]
  exact this []

theorem educationJoin_rehash (g : SqlVal → SqlVal) (db : Db) :
    educationJoin (rehash g db) = educationJoin db := by
  unfold educationJoin
  congr 1
  apply List.map_congr_left
  intro e _
  rw [rehash_users, filter_withHash g, map_withHash g]
  · intro u; rfl
  · intro u; rfl

theorem recentRows_rehash (g : SqlVal → SqlVal) (env : Env) (db : Db) :
    recentRows env (rehash g db) = recentRows env db := by
  unfold recentRows
  congr 2
  · apply List.map_congr_left
    intro e _
    rw [rehash_users, filter_withHash g, map_withHash g]
    · intro u; rfl
    · intro u; rfl
  · apply List.map_congr_left
    intro e _
    rw [rehash_users, filter_withHash g, map_withHash g]
    · intro u; rfl
    · intro u; rfl

theorem insertUserNotification_rehash (g : SqlVal → SqlVal) (t : SqlVal) (nid : Nat) (db : Db) :
    insertUserNotification t nid (rehash g db) =
      (insertUserNotification t nid db).map (rehash g) := by
  unfold insertUserNotification
  have h : (rehash g db).user_notifications = db.user_notifications := rfl
  simp only [h]
  split_ifs <;> rfl

theorem fanOut_rehash (g : SqlVal → SqlVal) (nid : Nat) (ts : List SqlVal) (db : Db) :
    fanOut nid ts (rehash g db) = ((fanOut nid ts db).1, rehash g (fanOut nid ts db).2) := by
  induction ts generalizing db with
  | nil => rfl
  | cons t ts ih =>
    simp only [fanOut, insertUserNotification_rehash]
    cases h : insertUserNotification t nid db with
    | error e => rfl
    | ok d => exact ih d

theorem fanOutTargets_rehash (g : SqlVal → SqlVal) (r u : JVal) (db : Db) :
    fanOutTargets r u (rehash g db) = fanOutTargets r u db := by
  unfold fanOutTargets
  rw [rehash_users, filter_withHash g, map_withHash g]
  · intro u; rfl
  · intro u; rfl

theorem insertBudget_rehash (g : SqlVal → SqlVal) (row : Budget) (db : Db) :
    insertBudget row (rehash g db) = (insertBudget row db).map (rehash g) := by
  unfold insertBudget
  have h : (rehash g db).budgets = db.budgets := rfl
  simp only [h]
  split_ifs <;> rfl

theorem updateBudget_rehash (g : SqlVal → SqlVal) (id : IdParam) (f : Budget → Budget) (db : Db) :
    updateBudget id f (rehash g db) = (updateBudget id f db).map (rehash g) := by
  unfold updateBudget
  have h : (rehash g db).budgets = db.budgets := rfl
  simp only [h]
  split_ifs <;> rfl


theorem postRegister_rehash (g : SqlVal → SqlVal) (env : Env) (b : NewUserBody) (db : Db) :
    (postRegister env b (rehash g db)).1 = (postRegister env b db).1 := by
  have hf := find_withHash g (fun u => sqlEq u.email (bind b.email)) (fun _ => rfl) db.users
  have hm := map_withHash g (fun u => u.id) (fun _ => rfl) db.users
  unfold postRegister
  simp only [rehash_users, hf, hm]
  cases db.users.find? (fun u => sqlEq u.email (bind b.email))
  all_goals simp only [Option.map_none', Option.map_some']
  all_goals repeat' split
  all_goals rfl

theorem postUser_rehash (g : SqlVal → SqlVal) (env : Env) (b : NewUserBody) (uid : Nat) (db : Db) :
    (postUser env b uid (rehash g db)).1 = (postUser env b uid db).1 := by
  have hf := find_withHash g (fun u => sqlEq u.email (bind b.email)) (fun _ => rfl) db.users
  have hm := map_withHash g (fun u => u.id) (fun _ => rfl) db.users
  unfold postUser
  simp only [rehash_users, hf, hm]
  cases db.users.find? (fun u => sqlEq u.email (bind b.email))
  all_goals simp only [Option.map_none', Option.map_some']
  all_goals repeat' split
  all_goals rfl

theorem getMeFirst_rehash (g : SqlVal → SqlVal) (uid : Nat) (db : Db) :
    (getMeFirst uid (rehash g db)).1 = (getMeFirst uid db).1 := by
  have hf := find_withHash g (fun u => u.id == uid) (fun _ => rfl) db.users
  unfold getMeFirst
  simp only [rehash_users, hf]
  cases db.users.find? (fun u => u.id == uid) <;> rfl

theorem getProfile_rehash (g : SqlVal → SqlVal) (uid : Nat) (db : Db) :
    (getProfile uid (rehash g db)).1 = (getProfile uid db).1 := by
  have hf := find_withHash g (fun u => u.id == uid) (fun _ => rfl) db.users
  unfold getProfile
  simp only [rehash_users, hf]
  cases db.users.find? (fun u => u.id == uid) <;> rfl

theorem getUser_rehash (g : SqlVal → SqlVal) (id : IdParam) (uid : Nat) (db : Db) :
    (getUser id uid (rehash g db)).1 = (getUser id uid db).1 := by
  have hf := find_withHash g (fun u => id.selects u.id) (fun _ => rfl) db.users
  unfold getUser
  simp only [rehash_users, hf]
  cases db.users.find? (fun u => id.selects u.id) <;> rfl

theorem getUsers_rehash (g : SqlVal → SqlVal) (env : Env) (uid : Nat) (db : Db) :
    (getUsers env uid (rehash g db)).1 = (getUsers env uid db).1 := by
  have ho := orderByDesc_withHash g (fun u => env.createdAt .users u.id) (fun _ => rfl) db.users
  unfold getUsers
  rw [rehash_users, ho, map_withHash g User.view (fun _ => rfl)]

theorem changePasswordFirst_rehash (g : SqlVal → SqlVal) (env : Env) (hg : SameVerdicts env g)
    (c n : JVal) (uid : Nat) (db : Db) :
    (changePasswordFirst env c n uid (rehash g db)).1 = (changePasswordFirst env c n uid db).1 := by
  have hf := find_withHash g (fun u => u.id == uid) (fun _ => rfl) db.users
  unfold changePasswordFirst
  simp only [rehash_users, hf]
  cases db.users.find? (fun u => u.id == uid) with
  | none =>
    simp only [Option.map_none']
    repeat' split
    all_goals rfl
  | some u =>
    have hc : compareOf env c (User.withHash g u).password_hash = compareOf env c u.password_hash :=
      hg c u.password_hash
    simp only [Option.map_some', hc]
    repeat' split
    all_goals rfl

theorem getEducation_rehash (g : SqlVal → SqlVal) (env : Env) (uid : Nat) (db : Db) :
    (getEducation env uid (rehash g db)).1 = (getEducation env uid db).1 := by
  unfold getEducation
  rw [educationJoin_rehash]

theorem getEducationItem_rehash (g : SqlVal → SqlVal) (id : IdParam) (uid : Nat) (db : Db) :
    (getEducationItem id uid (rehash g db)).1 = (getEducationItem id uid db).1 := by
  unfold getEducationItem
  rw [educationJoin_rehash]
  cases (educationJoin db).find? (fun v => id.selects v.id) <;> rfl

theorem getStats_rehash (g : SqlVal → SqlVal) (env : Env) (uid : Nat) (db : Db) :
    (getStats env uid (rehash g db)).1 = (getStats env uid db).1 := by
  have hf := filter_withHash g (fun u => sqlEq u.status (.text "active")) (fun _ => rfl) db.users
  unfold getStats
  simp only [recentRows_rehash, rehash_users, hf, List.length_map]
  rfl

theorem getUserActivity_rehash (g : SqlVal → SqlVal) (env : Env) (id : IdParam) (limit : QParam)
    (uid : Nat) (db : Db) :
    (getUserActivity env id limit uid (rehash g db)).1 = (getUserActivity env id limit uid db).1 := by
  have hf := find_withHash g (fun u => id.selects u.id) (fun _ => rfl) db.users
  have ha : activityRows env id (rehash g db) = activityRows env id db := rfl
  unfold getUserActivity
  simp only [rehash_users, hf, ha]
  cases db.users.find? (fun u => id.selects u.id) with
  | none => rfl
  | some u =>
    simp only [Option.map_some']
    repeat' split
    all_goals rfl

theorem postBudget_rehash (g : SqlVal → SqlVal) (b : BudgetBody) (uid : Nat) (db : Db) :
    (postBudget b uid (rehash g db)).1 = (postBudget b uid db).1 := by
  have hb : (rehash g db).budgets = db.budgets := rfl
  unfold postBudget
  simp only [insertBudget_rehash, hb]
  cases validateBudget b with
  | some r => rfl
  | none =>
    simp only []
    cases insertBudget (budgetRow (nextId (db.budgets.map (fun r => r.id))) uid b) db <;> rfl

theorem putBudget_rehash (g : SqlVal → SqlVal) (id : IdParam) (b : BudgetBody) (uid : Nat)
    (db : Db) : (putBudget id b uid (rehash g db)).1 = (putBudget id b uid db).1 := by
  have hb : (rehash g db).budgets = db.budgets := rfl
  unfold putBudget
  simp only [updateBudget_rehash, hb]
  cases updateBudget id (setBudget b) db <;> simp only [Except.map] <;> repeat' split
  all_goals rfl

theorem postNotification_rehash (g : SqlVal → SqlVal) (b : NotificationBody) (uid : Nat)
    (db : Db) : (postNotification b uid (rehash g db)).1 = (postNotification b uid db).1 := by
  have hn : (rehash g db).notifications = db.notifications := rfl
  unfold postNotification
  split_ifs
  · rfl
  · rfl
  · rfl
  · simp only [hn]
    generalize hrow : notificationRow (nextId (db.notifications.map (fun n => n.id))) b = row
    have e : ({ rehash g db with notifications := db.notifications ++ [row] } : Db) =
        rehash g { db with notifications := db.notifications ++ [row] } := rfl
    rw [e, fanOutTargets_rehash, fanOut_rehash]
    generalize fanOut _ _ { db with notifications := db.notifications ++ [row] } = r
    rcases r with ⟨sent, d⟩
    cases sent <;> rfl

theorem postChatbot_rehash (g : SqlVal → SqlVal) (env : Env) (message : JVal) (uid : Nat)
    (db : Db) : (postChatbot env message uid (rehash g db)).1 = (postChatbot env message uid db).1 := by
  unfold postChatbot
  repeat' split
  all_goals rfl

theorem postUserChangePassword_rehash (g : SqlVal → SqlVal) (c n cf : JVal) (uid : Nat) (db : Db) :
    (postUserChangePassword c n cf uid (rehash g db)).1 = (postUserChangePassword c n cf uid db).1 := by
  unfold postUserChangePassword
  repeat' split
  all_goals rfl

theorem userById_rehash (g : SqlVal → SqlVal) (db : Db) (uid : Option Nat) :
    userById (rehash g db) uid = (userById db uid).map (User.withHash g) :=
  find_withHash g (fun u => some u.id == uid) (fun _ => rfl) db.users

theorem requireActiveUser_rehash (g : SqlVal → SqlVal) (s : Session) (db : Db) :
    requireActiveUser s (rehash g db) = requireActiveUser s db := by
  unfold requireActiveUser
  rw [userById_rehash]
  cases userById db s.userId <;> rfl

theorem requireAdmin_rehash (g : SqlVal → SqlVal) (s : Session) (db : Db) :
    requireAdmin s (rehash g db) = requireAdmin s db := by
  unfold requireAdmin
  rw [userById_rehash]
  cases userById db s.userId <;> rfl

theorem userRoute_rehash (g : SqlVal → SqlVal) {handler : Nat → Db → Response × Db}
    (h : ∀ uid db, (handler uid (rehash g db)).1 = (handler uid db).1) (s : Session) (db : Db) :
    (userRoute handler s (rehash g db)).1 = (userRoute handler s db).1 := by
  unfold userRoute
  rw [requireActiveUser_rehash]
  cases requireActiveUser s db with
  | next => exact h _ _
  | respond r => rfl

theorem adminRoute_rehash (g : SqlVal → SqlVal) {handler : Nat → Db → Response × Db}
    (h : ∀ uid db, (handler uid (rehash g db)).1 = (handler uid db).1) (s : Session) (db : Db) :
    (adminRoute handler s (rehash g db)).1 = (adminRoute handler s db).1 := by
  unfold adminRoute
  rw [requireAdmin_rehash]
  cases requireAdmin s db with
  | next => exact h _ _
  | respond r => rfl

theorem authRoute_rehash (g : SqlVal → SqlVal) {handler : Nat → Db → Response × Db}
    (h : ∀ uid db, (handler uid (rehash g db)).1 = (handler uid db).1) (s : Session) (db : Db) :
    (authRoute handler s (rehash g db)).1 = (authRoute handler s db).1 := by
  unfold authRoute
  cases requireAuth s with
  | next => exact h _ _
  | respond r => rfl

theorem postLogin_rehash (g : SqlVal → SqlVal) (env : Env) (hg : SameVerdicts env g)
    (email password : JVal) (s : Session) (db : Db) :
    (postLogin env email password s (rehash g db)).response =
      (postLogin env email password s db).response ∧
    (postLogin env email password s (rehash g db)).session =
      (postLogin env email password s db).session := by
  have hf := find_withHash g (fun u => sqlEq u.email (bind email)) (fun _ => rfl) db.users
  unfold postLogin
  simp only [rehash_users, hf]
  cases db.users.find? (fun u => sqlEq u.email (bind email)) with
  | none =>
    simp only [Option.map_none']
    repeat' split
    all_goals exact ⟨rfl, rfl⟩
  | some u =>
    have hc : compareOf env password (User.withHash g u).password_hash =
        compareOf env password u.password_hash := hg password u.password_hash
    simp only [Option.map_some', hc]
    simp only [User.withHash]
    repeat' split
    all_goals exact ⟨rfl, rfl⟩


theorem getExpenses_rehash (g : SqlVal → SqlVal) (env : Env) (m y c : QParam) (uid : Nat) (db : Db) :
    (getExpenses env m y c uid (rehash g db)).1 = (getExpenses env m y c uid db).1 := by
  rfl

theorem postExpense_rehash (g : SqlVal → SqlVal) (b : ExpenseBody) (uid : Nat) (db : Db) :
    (postExpense b uid (rehash g db)).1 = (postExpense b uid db).1 := by
  unfold postExpense
  repeat' split
  all_goals rfl

theorem putExpense_rehash (g : SqlVal → SqlVal) (id : IdParam) (b : ExpenseBody) (uid : Nat) (db : Db) :
    (putExpense id b uid (rehash g db)).1 = (putExpense id b uid db).1 := by
  unfold putExpense
  simp only [rehash_expenses, rehash_income, rehash_budgets, rehash_education,
    rehash_notifications, rehash_user_notifications]
  repeat' split
  all_goals rfl

theorem deleteExpense_rehash (g : SqlVal → SqlVal) (id : IdParam) (uid : Nat) (db : Db) :
    (deleteExpense id uid (rehash g db)).1 = (deleteExpense id uid db).1 := by
  unfold deleteExpense
  simp only [rehash_expenses, rehash_income, rehash_budgets, rehash_education,
    rehash_notifications, rehash_user_notifications]
  repeat' split
  all_goals rfl

theorem getIncome_rehash (g : SqlVal → SqlVal) (env : Env) (m y : QParam) (uid : Nat) (db : Db) :
    (getIncome env m y uid (rehash g db)).1 = (getIncome env m y uid db).1 := by
  rfl

theorem postIncome_rehash (g : SqlVal → SqlVal) (b : IncomeBody) (uid : Nat) (db : Db) :
    (postIncome b uid (rehash g db)).1 = (postIncome b uid db).1 := by
  unfold postIncome
  repeat' split
  all_goals rfl

theorem putIncome_rehash (g : SqlVal → SqlVal) (id : IdParam) (b : IncomeBody) (uid : Nat) (db : Db) :
    (putIncome id b uid (rehash g db)).1 = (putIncome id b uid db).1 := by
  unfold putIncome
  simp only [rehash_expenses, rehash_income, rehash_budgets, rehash_education,
    rehash_notifications, rehash_user_notifications]
  repeat' split
  all_goals rfl

theorem deleteIncome_rehash (g : SqlVal → SqlVal) (id : IdParam) (uid : Nat) (db : Db) :
    (deleteIncome id uid (rehash g db)).1 = (deleteIncome id uid db).1 := by
  unfold deleteIncome
  simp only [rehash_expenses, rehash_income, rehash_budgets, rehash_education,
    rehash_notifications, rehash_user_notifications]
  repeat' split
  all_goals rfl

theorem getBudgets_rehash (g : SqlVal → SqlVal) (m y : QParam) (uid : Nat) (db : Db) :
    (getBudgets m y uid (rehash g db)).1 = (getBudgets m y uid db).1 := by
  rfl

theorem deleteBudget_rehash (g : SqlVal → SqlVal) (id : IdParam) (uid : Nat) (db : Db) :
    (deleteBudget id uid (rehash g db)).1 = (deleteBudget id uid db).1 := by
  unfold deleteBudget
  simp only [rehash_expenses, rehash_income, rehash_budgets, rehash_education,
    rehash_notifications, rehash_user_notifications]
  repeat' split
  all_goals rfl

theorem getSpendingSummary_rehash (g : SqlVal → SqlVal) (env : Env) (m y : QParam) (uid : Nat) (db : Db) :
    (getSpendingSummary env m y uid (rehash g db)).1 = (getSpendingSummary env m y uid db).1 := by
  rfl

theorem getBudgetAnalysis_rehash (g : SqlVal → SqlVal) (env : Env) (m y : QParam) (uid : Nat) (db : Db) :
    (getBudgetAnalysis env m y uid (rehash g db)).1 = (getBudgetAnalysis env m y uid db).1 := by
  rfl

theorem getNotifications_rehash (g : SqlVal → SqlVal) (uid : Nat) (db : Db) :
    (getNotifications uid (rehash g db)).1 = (getNotifications uid db).1 := by
  rfl

theorem markReadFirst_rehash (g : SqlVal → SqlVal) (id : IdParam) (uid : Nat) (db : Db) :
    (markReadFirst id uid (rehash g db)).1 = (markReadFirst id uid db).1 := by
  rfl

theorem markAllReadFirst_rehash (g : SqlVal → SqlVal) (uid : Nat) (db : Db) :
    (markAllReadFirst uid (rehash g db)).1 = (markAllReadFirst uid db).1 := by
  rfl

theorem postEducation_rehash (g : SqlVal → SqlVal) (title content : JVal) (uid : Nat) (db : Db) :
    (postEducation title content uid (rehash g db)).1 = (postEducation title content uid db).1 := by
  unfold postEducation
  repeat' split
  all_goals rfl

theorem putEducation_rehash (g : SqlVal → SqlVal) (id : IdParam) (title content : JVal) (uid : Nat) (db : Db) :
    (putEducation id title content uid (rehash g db)).1 =
      (putEducation id title content uid db).1 := by
  unfold putEducation
  simp only [rehash_expenses, rehash_income, rehash_budgets, rehash_education,
    rehash_notifications, rehash_user_notifications]
  repeat' split
  all_goals rfl

theorem deleteEducation_rehash (g : SqlVal → SqlVal) (id : IdParam) (uid : Nat) (db : Db) :
    (deleteEducation id uid (rehash g db)).1 = (deleteEducation id uid db).1 := by
  unfold deleteEducation
  simp only [rehash_expenses, rehash_income, rehash_budgets, rehash_education,
    rehash_notifications, rehash_user_notifications]
  repeat' split
  all_goals rfl

theorem getAdminNotifications_rehash (g : SqlVal → SqlVal) (env : Env) (uid : Nat) (db : Db) :
    (getAdminNotifications env uid (rehash g db)).1 = (getAdminNotifications env uid db).1 := by
  rfl

theorem getAdminNotification_rehash (g : SqlVal → SqlVal) (id : IdParam) (uid : Nat) (db : Db) :
    (getAdminNotification id uid (rehash g db)).1 = (getAdminNotification id uid db).1 := by
  unfold getAdminNotification
  simp only [rehash_expenses, rehash_income, rehash_budgets, rehash_education,
    rehash_notifications, rehash_user_notifications]
  repeat' split
  all_goals rfl

theorem putNotification_rehash (g : SqlVal → SqlVal) (id : IdParam) (message type expires_at : JVal) (uid : Nat) (db : Db) :
    (putNotification id message type expires_at uid (rehash g db)).1 =
      (putNotification id message type expires_at uid db).1 := by
  unfold putNotification
  simp only [rehash_expenses, rehash_income, rehash_budgets, rehash_education,
    rehash_notifications, rehash_user_notifications]
  repeat' split
  all_goals rfl

theorem deleteNotification_rehash (g : SqlVal → SqlVal) (id : IdParam) (uid : Nat) (db : Db) :
    (deleteNotification id uid (rehash g db)).1 = (deleteNotification id uid db).1 := by
  unfold deleteNotification
  simp only [rehash_expenses, rehash_income, rehash_budgets, rehash_education,
    rehash_notifications, rehash_user_notifications]
  repeat' split
  all_goals rfl

theorem putMe_rehash (g : SqlVal → SqlVal) (name email : JVal) (uid : Nat) (db : Db) :
    (putMe name email uid (rehash g db)).1 = (putMe name email uid db).1 := by
  have hf := find_withHash g (fun u => sqlEq u.email (bind email) && u.id != uid) (fun _ => rfl) db.users
  unfold putMe
  simp only [rehash_users, hf]
  cases db.users.find? (fun u => sqlEq u.email (bind email) && u.id != uid)
  all_goals simp only [Option.map_none', Option.map_some']
  all_goals repeat' split
  all_goals rfl

theorem putProfile_rehash (g : SqlVal → SqlVal) (name email : JVal) (uid : Nat) (db : Db) :
    (putProfile name email uid (rehash g db)).1 = (putProfile name email uid db).1 := by
  have hf := find_withHash g (fun u => sqlEq u.email (bind email) && u.id != uid) (fun _ => rfl) db.users
  unfold putProfile
  simp only [rehash_users, hf]
  cases db.users.find? (fun u => sqlEq u.email (bind email) && u.id != uid)
  all_goals simp only [Option.map_none', Option.map_some']
  all_goals repeat' split
  all_goals rfl

theorem putUser_rehash (g : SqlVal → SqlVal) (id : IdParam) (b : UserUpdateBody) (uid : Nat) (db : Db) :
    (putUser id b uid (rehash g db)).1 = (putUser id b uid db).1 := by
  have hf := find_withHash g (fun u => sqlEq u.email (bind b.email) && !id.selects u.id) (fun _ => rfl) db.users
  unfold putUser
  simp only [rehash_users, hf]
  cases db.users.find? (fun u => sqlEq u.email (bind b.email) && !id.selects u.id)
  all_goals simp only [Option.map_none', Option.map_some']
  all_goals repeat' split
  all_goals rfl

theorem putUserStatus_rehash (g : SqlVal → SqlVal) (id : IdParam) (status : JVal) (uid : Nat) (db : Db) :
    (putUserStatus id status uid (rehash g db)).1 = (putUserStatus id status uid db).1 := by
  have hf := find_withHash g (fun u => id.selects u.id) (fun _ => rfl) db.users
  unfold putUserStatus
  simp only [rehash_users, hf]
  cases db.users.find? (fun u => id.selects u.id)
  all_goals simp only [Option.map_none', Option.map_some']
  all_goals repeat' split
  all_goals rfl

theorem postResetPassword_rehash (g : SqlVal → SqlVal) (env : Env) (id : IdParam) (p : JVal) (uid : Nat) (db : Db) :
    (postResetPassword env id p uid (rehash g db)).1 = (postResetPassword env id p uid db).1 := by
  have hf := find_withHash g (fun u => id.selects u.id) (fun _ => rfl) db.users
  unfold postResetPassword
  simp only [rehash_users, hf]
  cases db.users.find? (fun u => id.selects u.id)
  all_goals simp only [Option.map_none', Option.map_some']
  all_goals repeat' split
  all_goals rfl

theorem deleteUser_rehash (g : SqlVal → SqlVal) (id : IdParam) (uid : Nat) (db : Db) :
    (deleteUser id uid (rehash g db)).1 = (deleteUser id uid db).1 := by
  have hf := find_withHash g (fun u => id.selects u.id) (fun _ => rfl) db.users
  unfold deleteUser
  simp only [rehash_users, hf]
  cases db.users.find? (fun u => id.selects u.id)
  all_goals simp only [Option.map_none', Option.map_some']
  all_goals repeat' split
  all_goals rfl

theorem getMeThird_rehash (g : SqlVal → SqlVal) (uid : Nat) (db : Db) :
    (getMeThird uid (rehash g db)).1 = (getMeThird uid db).1 := by
  have hf := find_withHash g (fun u => u.id == uid) (fun _ => rfl) db.users
  unfold getMeThird
  simp only [rehash_users, hf]
  cases db.users.find? (fun u => u.id == uid) <;> rfl

theorem serve_rehash (env : Env) (g : SqlVal → SqlVal) (hg : SameVerdicts env g) (req : Request)
    (s : Session) (db : Db) : (serve env req s (rehash g db)).1 = (serve env req s db).1 := by
  cases req with
  | register b => exact postRegister_rehash g env b db
  | login email password => exact (postLogin_rehash g env hg email password s db).1
  | logout => exact rfl
  | getMe => exact authRoute_rehash g (getMeFirst_rehash g) s db
  | putMe name email => exact authRoute_rehash g (putMe_rehash g name email) s db
  | changePassword c n => exact authRoute_rehash g (changePasswordFirst_rehash g env hg c n) s db
  | getExpenses m y c => exact userRoute_rehash g (getExpenses_rehash g env m y c) s db
  | postExpense b => exact userRoute_rehash g (postExpense_rehash g b) s db
  | putExpense id b => exact userRoute_rehash g (putExpense_rehash g id b) s db
  | deleteExpense id => exact userRoute_rehash g (deleteExpense_rehash g id) s db
  | getIncome m y => exact userRoute_rehash g (getIncome_rehash g env m y) s db
  | postIncome b => exact userRoute_rehash g (postIncome_rehash g b) s db
  | putIncome id b => exact userRoute_rehash g (putIncome_rehash g id b) s db
  | deleteIncome id => exact userRoute_rehash g (deleteIncome_rehash g id) s db
  | getBudgets m y => exact userRoute_rehash g (getBudgets_rehash g m y) s db
  | postBudget b => exact userRoute_rehash g (postBudget_rehash g b) s db
  | putBudget id b => exact userRoute_rehash g (putBudget_rehash g id b) s db
  | deleteBudget id => exact userRoute_rehash g (deleteBudget_rehash g id) s db
  | spendingSummary m y => exact userRoute_rehash g (getSpendingSummary_rehash g env m y) s db
  | budgetAnalysis m y => exact userRoute_rehash g (getBudgetAnalysis_rehash g env m y) s db
  | getEducation => exact userRoute_rehash g (getEducation_rehash g env) s db
  | chatbot message => exact userRoute_rehash g (postChatbot_rehash g env message) s db
  | getNotifications => exact userRoute_rehash g (getNotifications_rehash g) s db
  | markRead id => exact userRoute_rehash g (markReadFirst_rehash g id) s db
  | markAllRead => exact userRoute_rehash g (markAllReadFirst_rehash g) s db
  | getProfile => exact userRoute_rehash g (getProfile_rehash g) s db
  | putProfile name email => exact userRoute_rehash g (putProfile_rehash g name email) s db
  | userChangePassword c n cf => exact userRoute_rehash g (postUserChangePassword_rehash g c n cf) s db
  | adminGetUsers => exact adminRoute_rehash g (getUsers_rehash g env) s db
  | adminPostUser b => exact adminRoute_rehash g (postUser_rehash g env b) s db
  | adminGetUser id => exact adminRoute_rehash g (getUser_rehash g id) s db
  | adminPutUser id b => exact adminRoute_rehash g (putUser_rehash g id b) s db
  | adminPutUserStatus id status => exact adminRoute_rehash g (putUserStatus_rehash g id status) s db
  | adminResetPassword id p => exact adminRoute_rehash g (postResetPassword_rehash g env id p) s db
  | adminDeleteUser id => exact adminRoute_rehash g (deleteUser_rehash g id) s db
  | adminGetEducation => exact adminRoute_rehash g (getEducation_rehash g env) s db
  | adminGetEducationItem id => exact adminRoute_rehash g (getEducationItem_rehash g id) s db
  | adminPostEducation title content => exact adminRoute_rehash g (postEducation_rehash g title content) s db
  | adminPutEducation id title content => exact adminRoute_rehash g (putEducation_rehash g id title content) s db
  | adminDeleteEducation id => exact adminRoute_rehash g (deleteEducation_rehash g id) s db
  | adminGetNotifications => exact adminRoute_rehash g (getAdminNotifications_rehash g env) s db
  | adminGetNotification id => exact adminRoute_rehash g (getAdminNotification_rehash g id) s db
  | adminPostNotification b => exact adminRoute_rehash g (postNotification_rehash g b) s db
  | adminPutNotification id message type expires_at => exact adminRoute_rehash g (putNotification_rehash g id message type expires_at) s db
  | adminDeleteNotification id => exact adminRoute_rehash g (deleteNotification_rehash g id) s db
  | adminStats => exact adminRoute_rehash g (getStats_rehash g env) s db
  | adminUserActivity id limit => exact adminRoute_rehash g (getUserActivity_rehash g env id limit) s db

theorem sessionAfter_rehash (env : Env) (g : SqlVal → SqlVal) (hg : SameVerdicts env g)
    (req : Request) (s : Session) (db : Db) :
    sessionAfter env req s (rehash g db) = sessionAfter env req s db := by
  cases req
  case login email password => exact (postLogin_rehash g env hg email password s db).2
  all_goals rfl

theorem postRegister_hashFn (env : Env) (f : String → String) (b : NewUserBody) (db : Db) :
    (postRegister { env with bcryptHash := f } b db).1 = (postRegister env b db).1 := by
  unfold postRegister
  cases b.password
  all_goals simp only [hashOf]
  all_goals repeat' split
  all_goals rfl

theorem postUser_hashFn (env : Env) (f : String → String) (b : NewUserBody) (uid : Nat)
    (db : Db) : (postUser { env with bcryptHash := f } b uid db).1 = (postUser env b uid db).1 := by
  unfold postUser
  cases b.password
  all_goals simp only [hashOf]
  all_goals repeat' split
  all_goals rfl

theorem postResetPassword_hashFn (env : Env) (f : String → String) (id : IdParam) (p : JVal)
    (uid : Nat) (db : Db) :
    (postResetPassword { env with bcryptHash := f } id p uid db).1 =
      (postResetPassword env id p uid db).1 := by
  unfold postResetPassword
  cases p
  all_goals simp only [hashOf]
  all_goals repeat' split
  all_goals rfl

theorem changePasswordFirst_hashFn (env : Env) (f : String → String) (c n : JVal) (uid : Nat)
    (db : Db) :
    (changePasswordFirst { env with bcryptHash := f } c n uid db).1 =
      (changePasswordFirst env c n uid db).1 := by
  have hc : ∀ h, compareOf { env with bcryptHash := f } c h = compareOf env c h := by
    intro h
    cases c <;> cases h <;> rfl
  unfold changePasswordFirst
  simp only [hc]
  cases n
  all_goals simp only [hashOf]
  all_goals repeat' split
  all_goals rfl

theorem route_hashFn {h1 h2 : Nat → Db → Response × Db} (h : ∀ uid db, (h1 uid db).1 = (h2 uid db).1)
    (s : Session) (db : Db) :
    (authRoute h1 s db).1 = (authRoute h2 s db).1 ∧
    (adminRoute h1 s db).1 = (adminRoute h2 s db).1 := by
  constructor
  · unfold authRoute
    cases requireAuth s with
    | next => exact h _ _
    | respond r => rfl
  · unfold adminRoute
    cases requireAdmin s db with
    | next => exact h _ _
    | respond r => rfl

theorem serve_hashFn (env : Env) (f : String → String) (req : Request) (s : Session) (db : Db) :
    (serve { env with bcryptHash := f } req s db).1 = (serve env req s db).1 := by
  cases req
  case register b => exact postRegister_hashFn env f b db
  case changePassword c n =>
    exact (route_hashFn (changePasswordFirst_hashFn env f c n) s db).1
  case adminPostUser b => exact (route_hashFn (postUser_hashFn env f b) s db).2
  case adminResetPassword id p =>
    exact (route_hashFn (postResetPassword_hashFn env f id p) s db).2
  all_goals rfl

/-- C26: no answer carries a password hash.  For every request to a route of
the three routers, every session and every store: the answer, and the
session the request leaves, stay the same when every stored hash is replaced
by another hash that verifies the same passwords; and the answer stays the
same when the password library returns other hashes.  So an answer depends
on the stored hashes through the verdicts of `bcrypt.compare` only, and on
no hash computed during the request.  The same holds for the registrations
that Express does not reach. -/
theorem responses_carry_no_password_hash (env : Env) (g : SqlVal → SqlVal)
    (f : String → String) (hg : SameVerdicts env g) (req : Request) (s : Session) (uid : Nat)
    (id : IdParam) (db : Db) :
    (serve env req s (rehash g db)).1 = (serve env req s db).1 ∧
    sessionAfter env req s (rehash g db) = sessionAfter env req s db ∧
    (serve { env with bcryptHash := f } req s db).1 = (serve env req s db).1 ∧
    (getMeSecond s (rehash g db)).1 = (getMeSecond s db).1 ∧
    (getMeThird uid (rehash g db)).1 = (getMeThird uid db).1 ∧
    (changePasswordSecond uid (rehash g db)).1 = (changePasswordSecond uid db).1 ∧
    (markReadSecond id uid (rehash g db)).1 = (markReadSecond id uid db).1 ∧
    (markAllReadSecond env uid (rehash g db)).1 = (markAllReadSecond env uid db).1 := by
  refine ⟨serve_rehash env g hg req s db, sessionAfter_rehash env g hg req s db,
    serve_hashFn env f req s db, ?_, getMeThird_rehash g uid db, rfl, rfl, rfl⟩
  unfold getMeSecond
  split <;> rfl

/-- Witness of C26: with a verification that skips the salt, putting every
hash of `loginDb` behind another salt changes the store, and changes neither
the answer to the login of user 2 (200) nor the user list the admin gets. -/
theorem responses_carry_no_password_hash_witness :
    SameVerdicts saltedEnv resalt ∧ rehash resalt loginDb ≠ loginDb ∧
    (serve saltedEnv (.login (.str "b@x") (.str "secret1")) noSession loginDb).1.status = 200 ∧
    (serve saltedEnv (.login (.str "b@x") (.str "secret1")) noSession (rehash resalt loginDb)).1 =
      (serve saltedEnv (.login (.str "b@x") (.str "secret1")) noSession loginDb).1 ∧
    (serve saltedEnv .adminGetUsers (sessionOf 1) (rehash resalt loginDb)).1 =
      (serve saltedEnv .adminGetUsers (sessionOf 1) loginDb).1 :=
  ⟨by intro p h; cases p <;> cases h <;> rfl, by decide!, by decide!,
   (responses_carry_no_password_hash saltedEnv resalt id
      (by intro p h; cases p <;> cases h <;> rfl)
      (.login (.str "b@x") (.str "secret1")) noSession 0 (.ofId 0) loginDb).1,
   (responses_carry_no_password_hash saltedEnv resalt id
      (by intro p h; cases p <;> cases h <;> rfl)
      .adminGetUsers (sessionOf 1) 0 (.ofId 0) loginDb).1⟩

/-! ## The envelope of the answers -/

theorem postRegister_envelope (env : Env) (b : NewUserBody) (db : Db) :
    Envelope (postRegister env b db).1 := by
  unfold postRegister
  repeat' split
  all_goals simp [Envelope, failure, okMsg, created, okWith]

theorem getMeFirst_envelope (uid : Nat) (db : Db) :
    Envelope (getMeFirst uid db).1 := by
  unfold getMeFirst
  repeat' split
  all_goals simp [Envelope, failure, okMsg, created, okWith]

theorem putMe_envelope (name email : JVal) (uid : Nat) (db : Db) :
    Envelope (putMe name email uid db).1 := by
  unfold putMe
  repeat' split
  all_goals simp [Envelope, failure, okMsg, created, okWith]

theorem changePasswordFirst_envelope (env : Env) (c n : JVal) (uid : Nat) (db : Db) :
    Envelope (changePasswordFirst env c n uid db).1 := by
  unfold changePasswordFirst
  repeat' split
  all_goals simp [Envelope, failure, okMsg, created, okWith]

theorem getExpenses_envelope (env : Env) (m y c : QParam) (uid : Nat) (db : Db) :
    Envelope (getExpenses env m y c uid db).1 := by
  simp [getExpenses, Envelope, okWith, okMsg]

theorem postExpense_envelope (b : ExpenseBody) (uid : Nat) (db : Db) :
    Envelope (postExpense b uid db).1 := by
  unfold postExpense
  repeat' split
  all_goals simp [Envelope, failure, okMsg, created, okWith]

theorem putExpense_envelope (id : IdParam) (b : ExpenseBody) (uid : Nat) (db : Db) :
    Envelope (putExpense id b uid db).1 := by
  unfold putExpense
  repeat' split
  all_goals simp [Envelope, failure, okMsg, created, okWith]

theorem deleteExpense_envelope (id : IdParam) (uid : Nat) (db : Db) :
    Envelope (deleteExpense id uid db).1 := by
  unfold deleteExpense
  repeat' split
  all_goals simp [Envelope, failure, okMsg, created, okWith]

theorem getIncome_envelope (env : Env) (m y : QParam) (uid : Nat) (db : Db) :
    Envelope (getIncome env m y uid db).1 := by
  simp [getIncome, Envelope, okWith, okMsg]

theorem postIncome_envelope (b : IncomeBody) (uid : Nat) (db : Db) :
    Envelope (postIncome b uid db).1 := by
  unfold postIncome
  repeat' split
  all_goals simp [Envelope, failure, okMsg, created, okWith]

theorem putIncome_envelope (id : IdParam) (b : IncomeBody) (uid : Nat) (db : Db) :
    Envelope (putIncome id b uid db).1 := by
  unfold putIncome
  repeat' split
  all_goals simp [Envelope, failure, okMsg, created, okWith]

theorem deleteIncome_envelope (id : IdParam) (uid : Nat) (db : Db) :
    Envelope (deleteIncome id uid db).1 := by
  unfold deleteIncome
  repeat' split
  all_goals simp [Envelope, failure, okMsg, created, okWith]

theorem getBudgets_envelope (m y : QParam) (uid : Nat) (db : Db) :
    Envelope (getBudgets m y uid db).1 := by
  simp [getBudgets, Envelope, okWith, okMsg]

theorem putBudget_envelope (id : IdParam) (b : BudgetBody) (uid : Nat) (db : Db) :
    Envelope (putBudget id b uid db).1 := by
  unfold putBudget
  repeat' split
  all_goals simp [Envelope, failure, okMsg, created, okWith]

theorem deleteBudget_envelope (id : IdParam) (uid : Nat) (db : Db) :
    Envelope (deleteBudget id uid db).1 := by
  unfold deleteBudget
  repeat' split
  all_goals simp [Envelope, failure, okMsg, created, okWith]

theorem getSpendingSummary_envelope (env : Env) (m y : QParam) (uid : Nat) (db : Db) :
    Envelope (getSpendingSummary env m y uid db).1 := by
  simp [getSpendingSummary, Envelope, okWith, okMsg]

theorem getBudgetAnalysis_envelope (env : Env) (m y : QParam) (uid : Nat) (db : Db) :
    Envelope (getBudgetAnalysis env m y uid db).1 := by
  simp [getBudgetAnalysis, Envelope, okWith, okMsg]

theorem getEducation_envelope (env : Env) (uid : Nat) (db : Db) :
    Envelope (getEducation env uid db).1 := by
  simp [getEducation, Envelope, okWith, okMsg]

theorem postChatbot_envelope (env : Env) (message : JVal) (uid : Nat) (db : Db) :
    Envelope (postChatbot env message uid db).1 := by
  unfold postChatbot
  repeat' split
  all_goals simp [Envelope, failure, okMsg, created, okWith]

theorem getNotifications_envelope (uid : Nat) (db : Db) :
    Envelope (getNotifications uid db).1 := by
  simp [getNotifications, Envelope, okWith, okMsg]

theorem markReadFirst_envelope (id : IdParam) (uid : Nat) (db : Db) :
    Envelope (markReadFirst id uid db).1 := by
  simp [markReadFirst, Envelope, okWith, okMsg]

theorem markAllReadFirst_envelope (uid : Nat) (db : Db) :
    Envelope (markAllReadFirst uid db).1 := by
  simp [markAllReadFirst, Envelope, okWith, okMsg]

theorem getProfile_envelope (uid : Nat) (db : Db) :
    Envelope (getProfile uid db).1 := by
  unfold getProfile
  repeat' split
  all_goals simp [Envelope, failure, okMsg, created, okWith]

theorem putProfile_envelope (name email : JVal) (uid : Nat) (db : Db) :
    Envelope (putProfile name email uid db).1 := by
  unfold putProfile
  repeat' split
  all_goals simp [Envelope, failure, okMsg, created, okWith]

theorem postUserChangePassword_envelope (c n cf : JVal) (uid : Nat) (db : Db) :
    Envelope (postUserChangePassword c n cf uid db).1 := by
  unfold postUserChangePassword
  repeat' split
  all_goals simp [Envelope, failure, okMsg, created, okWith]

theorem getUsers_envelope (env : Env) (uid : Nat) (db : Db) :
    Envelope (getUsers env uid db).1 := by
  simp [getUsers, Envelope, okWith, okMsg]

theorem postUser_envelope (env : Env) (b : NewUserBody) (uid : Nat) (db : Db) :
    Envelope (postUser env b uid db).1 := by
  unfold postUser
  repeat' split
  all_goals simp [Envelope, failure, okMsg, created, okWith]

theorem getUser_envelope (id : IdParam) (uid : Nat) (db : Db) :
    Envelope (getUser id uid db).1 := by
  unfold getUser
  repeat' split
  all_goals simp [Envelope, failure, okMsg, created, okWith]

theorem putUser_envelope (id : IdParam) (b : UserUpdateBody) (uid : Nat) (db : Db) :
    Envelope (putUser id b uid db).1 := by
  unfold putUser
  repeat' split
  all_goals simp [Envelope, failure, okMsg, created, okWith]

theorem putUserStatus_envelope (id : IdParam) (status : JVal) (uid : Nat) (db : Db) :
    Envelope (putUserStatus id status uid db).1 := by
  unfold putUserStatus
  repeat' split
  all_goals simp [Envelope, failure, okMsg, created, okWith]

theorem postResetPassword_envelope (env : Env) (id : IdParam) (p : JVal) (uid : Nat) (db : Db) :
    Envelope (postResetPassword env id p uid db).1 := by
  unfold postResetPassword
  repeat' split
  all_goals simp [Envelope, failure, okMsg, created, okWith]

theorem deleteUser_envelope (id : IdParam) (uid : Nat) (db : Db) :
    Envelope (deleteUser id uid db).1 := by
  unfold deleteUser
  repeat' split
  all_goals simp [Envelope, failure, okMsg, created, okWith]

theorem getEducationItem_envelope (id : IdParam) (uid : Nat) (db : Db) :
    Envelope (getEducationItem id uid db).1 := by
  unfold getEducationItem
  repeat' split
  all_goals simp [Envelope, failure, okMsg, created, okWith]

theorem postEducation_envelope (title content : JVal) (uid : Nat) (db : Db) :
    Envelope (postEducation title content uid db).1 := by
  unfold postEducation
  repeat' split
  all_goals simp [Envelope, failure, okMsg, created, okWith]

theorem putEducation_envelope (id : IdParam) (title content : JVal) (uid : Nat) (db : Db) :
    Envelope (putEducation id title content uid db).1 := by
  unfold putEducation
  repeat' split
  all_goals simp [Envelope, failure, okMsg, created, okWith]

theorem deleteEducation_envelope (id : IdParam) (uid : Nat) (db : Db) :
    Envelope (deleteEducation id uid db).1 := by
  unfold deleteEducation
  repeat' split
  all_goals simp [Envelope, failure, okMsg, created, okWith]

theorem getAdminNotifications_envelope (env : Env) (uid : Nat) (db : Db) :
    Envelope (getAdminNotifications env uid db).1 := by
  simp [getAdminNotifications, Envelope, okWith, okMsg]

theorem getAdminNotification_envelope (id : IdParam) (uid : Nat) (db : Db) :
    Envelope (getAdminNotification id uid db).1 := by
  unfold getAdminNotification
  repeat' split
  all_goals simp [Envelope, failure, okMsg, created, okWith]

theorem putNotification_envelope (id : IdParam) (message type expires_at : JVal) (uid : Nat) (db : Db) :
    Envelope (putNotification id message type expires_at uid db).1 := by
  unfold putNotification
  repeat' split
  all_goals simp [Envelope, failure, okMsg, created, okWith]

theorem deleteNotification_envelope (id : IdParam) (uid : Nat) (db : Db) :
    Envelope (deleteNotification id uid db).1 := by
  unfold deleteNotification
  repeat' split
  all_goals simp [Envelope, failure, okMsg, created, okWith]

theorem getStats_envelope (env : Env) (uid : Nat) (db : Db) :
    Envelope (getStats env uid db).1 := by
  simp [getStats, Envelope, okWith, okMsg]

theorem getUserActivity_envelope (env : Env) (id : IdParam) (limit : QParam) (uid : Nat) (db : Db) :
    Envelope (getUserActivity env id limit uid db).1 := by
  unfold getUserActivity
  repeat' split
  all_goals simp [Envelope, failure, okMsg, created, okWith]

theorem postBudget_envelope (b : BudgetBody) (uid : Nat) (db : Db) :
    Envelope (postBudget b uid db).1 := by
  unfold postBudget
  split
  · rename_i r hv
    unfold validateBudget at hv
    split_ifs at hv <;> simp at hv <;> subst hv <;> simp [Envelope, failure]
  · simp only []
    generalize insertBudget _ db = r
    cases r with
    | error e =>
      simp only [postBudgetCatch]
      split_ifs <;> simp [Envelope, failure]
    | ok d => simp [Envelope, created]

theorem postNotification_envelope (b : NotificationBody) (uid : Nat) (db : Db) :
    Envelope (postNotification b uid db).1 := by
  unfold postNotification
  split_ifs
  · simp [Envelope, failure]
  · simp [Envelope, failure]
  · simp [Envelope, failure]
  · simp only []
    generalize fanOut _ _ _ = r
    rcases r with ⟨sent, db2⟩
    cases sent <;> simp [Envelope, created, failure]


theorem gate_envelope (s : Session) (db : Db) :
    (∀ r, requireAuth s = .respond r → Envelope r) ∧
    (∀ r, requireActiveUser s db = .respond r → Envelope r) ∧
    (∀ r, requireAdmin s db = .respond r → Envelope r) := by
  refine ⟨?_, ?_, ?_⟩
  · intro r
    unfold requireAuth
    split_ifs <;> simp
    rintro rfl
    simp [Envelope, failure]
  · intro r
    unfold requireActiveUser
    repeat' split
    all_goals simp
    all_goals rintro rfl
    all_goals simp [Envelope, failure]
  · intro r
    unfold requireAdmin
    repeat' split
    all_goals simp
    all_goals rintro rfl
    all_goals simp [Envelope, failure]

theorem userRoute_envelope {handler : Nat → Db → Response × Db}
    (h : ∀ uid db, Envelope (handler uid db).1) (s : Session) (db : Db) :
    Envelope (userRoute handler s db).1 := by
  unfold userRoute
  split
  · exact h _ _
  · exact (gate_envelope s db).2.1 _ (by assumption)

theorem adminRoute_envelope {handler : Nat → Db → Response × Db}
    (h : ∀ uid db, Envelope (handler uid db).1) (s : Session) (db : Db) :
    Envelope (adminRoute handler s db).1 := by
  unfold adminRoute
  split
  · exact h _ _
  · exact (gate_envelope s db).2.2 _ (by assumption)

theorem authRoute_envelope {handler : Nat → Db → Response × Db}
    (h : ∀ uid db, Envelope (handler uid db).1) (s : Session) (db : Db) :
    Envelope (authRoute handler s db).1 := by
  unfold authRoute
  split
  · exact h _ _
  · exact (gate_envelope s db).1 _ (by assumption)

theorem postLogin_envelope (env : Env) (email password : JVal) (s : Session) (db : Db) :
    Envelope (postLogin env email password s db).response := by
  unfold postLogin
  repeat' split
  all_goals simp [Envelope, keepSession, failure]

theorem serve_envelope (env : Env) (req : Request) (s : Session) (db : Db) :
    Envelope (serve env req s db).1 := by
  cases req with
  | register b => exact postRegister_envelope env b db
  | login email password => exact postLogin_envelope env email password s db
  | logout => exact by simp [serve, postLogout, Envelope, okMsg]
  | getMe => exact authRoute_envelope getMeFirst_envelope s db
  | putMe name email => exact authRoute_envelope (putMe_envelope name email) s db
  | changePassword c n => exact authRoute_envelope (changePasswordFirst_envelope env c n) s db
  | getExpenses m y c => exact userRoute_envelope (getExpenses_envelope env m y c) s db
  | postExpense b => exact userRoute_envelope (postExpense_envelope b) s db
  | putExpense id b => exact userRoute_envelope (putExpense_envelope id b) s db
  | deleteExpense id => exact userRoute_envelope (deleteExpense_envelope id) s db
  | getIncome m y => exact userRoute_envelope (getIncome_envelope env m y) s db
  | postIncome b => exact userRoute_envelope (postIncome_envelope b) s db
  | putIncome id b => exact userRoute_envelope (putIncome_envelope id b) s db
  | deleteIncome id => exact userRoute_envelope (deleteIncome_envelope id) s db
  | getBudgets m y => exact userRoute_envelope (getBudgets_envelope m y) s db
  | postBudget b => exact userRoute_envelope (postBudget_envelope b) s db
  | putBudget id b => exact userRoute_envelope (putBudget_envelope id b) s db
  | deleteBudget id => exact userRoute_envelope (deleteBudget_envelope id) s db
  | spendingSummary m y => exact userRoute_envelope (getSpendingSummary_envelope env m y) s db
  | budgetAnalysis m y => exact userRoute_envelope (getBudgetAnalysis_envelope env m y) s db
  | getEducation => exact userRoute_envelope (getEducation_envelope env) s db
  | chatbot message => exact userRoute_envelope (postChatbot_envelope env message) s db
  | getNotifications => exact userRoute_envelope getNotifications_envelope s db
  | markRead id => exact userRoute_envelope (markReadFirst_envelope id) s db
  | markAllRead => exact userRoute_envelope markAllReadFirst_envelope s db
  | getProfile => exact userRoute_envelope getProfile_envelope s db
  | putProfile name email => exact userRoute_envelope (putProfile_envelope name email) s db
  | userChangePassword c n cf => exact userRoute_envelope (postUserChangePassword_envelope c n cf) s db
  | adminGetUsers => exact adminRoute_envelope (getUsers_envelope env) s db
  | adminPostUser b => exact adminRoute_envelope (postUser_envelope env b) s db
  | adminGetUser id => exact adminRoute_envelope (getUser_envelope id) s db
  | adminPutUser id b => exact adminRoute_envelope (putUser_envelope id b) s db
  | adminPutUserStatus id status => exact adminRoute_envelope (putUserStatus_envelope id status) s db
  | adminResetPassword id p => exact adminRoute_envelope (postResetPassword_envelope env id p) s db
  | adminDeleteUser id => exact adminRoute_envelope (deleteUser_envelope id) s db
  | adminGetEducation => exact adminRoute_envelope (getEducation_envelope env) s db
  | adminGetEducationItem id => exact adminRoute_envelope (getEducationItem_envelope id) s db
  | adminPostEducation title content => exact adminRoute_envelope (postEducation_envelope title content) s db
  | adminPutEducation id title content => exact adminRoute_envelope (putEducation_envelope id title content) s db
  | adminDeleteEducation id => exact adminRoute_envelope (deleteEducation_envelope id) s db
  | adminGetNotifications => exact adminRoute_envelope (getAdminNotifications_envelope env) s db
  | adminGetNotification id => exact adminRoute_envelope (getAdminNotification_envelope id) s db
  | adminPostNotification b => exact adminRoute_envelope (postNotification_envelope b) s db
  | adminPutNotification id message type expires_at => exact adminRoute_envelope (putNotification_envelope id message type expires_at) s db
  | adminDeleteNotification id => exact adminRoute_envelope (deleteNotification_envelope id) s db
  | adminStats => exact adminRoute_envelope (getStats_envelope env) s db
  | adminUserActivity id limit => exact adminRoute_envelope (getUserActivity_envelope env id limit) s db

/-- C27: for every request to a route of the auth, user and admin routers,
every session and every store, the answer Express sends has `success` false
exactly when its status is not of the form 2xx; so have the answers of the
registrations that Express does not reach, and the answers the three
middlewares `requireAuth`, `requireActiveUser` and `requireAdmin` send when
they do not call `next`.  (`success` is a boolean in every answer.) -/
theorem envelope_invariant (env : Env) (req : Request) (s : Session) (uid : Nat) (id : IdParam)
    (db : Db) :
    Envelope (serve env req s db).1 ∧
    Envelope (getMeSecond s db).1 ∧ Envelope (getMeThird uid db).1 ∧
    Envelope (changePasswordSecond uid db).1 ∧ Envelope (markReadSecond id uid db).1 ∧
    Envelope (markAllReadSecond env uid db).1 ∧
    (match requireAuth s with
      | .respond r => Envelope r
      | .next => True) ∧
    (match requireActiveUser s db with
      | .respond r => Envelope r
      | .next => True) ∧
    (match requireAdmin s db with
      | .respond r => Envelope r
      | .next => True) := by
  refine ⟨serve_envelope env req s db, ?_, ?_, ?_, ?_, ?_, ?_, ?_, ?_⟩
  · unfold getMeSecond
    split <;> simp [Envelope, failure, okWith]
  · unfold getMeThird
    split <;> simp [Envelope, okWith]
  · simp [changePasswordSecond, Envelope, okMsg]
  · simp [markReadSecond, Envelope, okMsg]
  · simp [markAllReadSecond, Envelope, okMsg]
  · cases h : requireAuth s with
    | next => trivial
    | respond r => exact (gate_envelope s db).1 r h
  · cases h : requireActiveUser s db with
    | next => trivial
    | respond r => exact (gate_envelope s db).2.1 r h
  · cases h : requireAdmin s db with
    | next => trivial
    | respond r => exact (gate_envelope s db).2.2 r h

/-! ## The chatbot -/

theorem starts_with_shorter (a ext : List Char) :
    ∀ t : List Char, (a ++ ext).isPrefixOf t = true → a.isPrefixOf t = true := by
  induction a with
  | nil => intro t _; simp
  | cons x xs ih =>
    intro t h
    cases t with
    | nil => simp at h
    | cons y ys =>
      simp only [List.cons_append, List.isPrefixOf, Bool.and_eq_true] at h ⊢
      exact ⟨h.1, ih ys h.2⟩

theorem includes_of_longer (s a b : String) (ext : List Char) (hab : b.toList = a.toList ++ ext)
    (h : includes s b = true) : includes s a = true := by
  simp only [includes, List.any_eq_true] at h ⊢
  obtain ⟨t, ht, hp⟩ := h
  rw [hab] at hp
  exact ⟨t, ht, starts_with_shorter _ ext t hp⟩

theorem or_longer (s a b : String) (ext : List Char) (hab : b.toList = a.toList ++ ext) :
    (includes s a || includes s b) = includes s a := by
  cases h : includes s b with
  | false => simp
  | true => simp [includes_of_longer s a b ext hab h]

/-- C28: for an active user and every string message, `POST
/api/user/education/chatbot` answers 400 when the message is empty or made of
white space only, 400 when its length is above 500, and otherwise 200 with
`generateFinancialResponse(message)` as the response.  The reply of
`generateFinancialResponse` is the same for two messages with the same lower
case; and it is the canned reply, with the text written out below, of the
first keyword group, in the order budget, save or saving, expense or
spending, invest, debt or loan, with a keyword that occurs in the lower case
of the message, or the default reply when no keyword occurs. -/
theorem chatbot_answers_by_keyword (env : Env) (s : Session) (db : Db) (m : String)
    (hgate : requireActiveUser s db = .next) :
    (trimChars isJsSpace m.toList = [] →
      (serve env (.chatbot (.str m)) s db).1 = failure 400 "Please enter a message") ∧
    (500 < utf16Length m → (serve env (.chatbot (.str m)) s db).1.status = 400) ∧
    (trimChars isJsSpace m.toList ≠ [] → utf16Length m ≤ 500 →
      (serve env (.chatbot (.str m)) s db).1 =
        ⟨200, true, none, .chat (generateFinancialResponse m) env.nowIso⟩) ∧
    (∀ m2 : String, toLowerCase m = toLowerCase m2 →
      generateFinancialResponse m = generateFinancialResponse m2) ∧
    generateFinancialResponse m =
      (if includes (toLowerCase m) "budget" then
         "Creating a budget is the first step to financial control. Start by tracking all your " ++
         "income and expenses for one month, then categorize them. Aim for the 50/30/20 rule: " ++
         "50% needs, 30% wants, 20% savings."
       else if includes (toLowerCase m) "save" || includes (toLowerCase m) "saving" then
         "For effective saving: 1) Pay yourself first (automate savings), 2) Set specific goals, " ++
         "3) Build an emergency fund (3-6 months of expenses), 4) Consider high-yield savings " ++
         "accounts."
       else if includes (toLowerCase m) "expense" || includes (toLowerCase m) "spending" then
         "To manage expenses: Track everything for 30 days, identify unnecessary subscriptions, " ++
         "cook at home more often, and use the 24-hour rule before non-essential purchases."
       else if includes (toLowerCase m) "invest" then
         "Before investing: 1) Build emergency fund, 2) Pay off high-interest debt, 3) Start with " ++
         "retirement accounts (401k/IRA), 4) Consider low-cost index funds for diversification."
       else if includes (toLowerCase m) "debt" || includes (toLowerCase m) "loan" then
         "For debt management: 1) List all debts with interest rates, 2) Consider avalanche " ++
         "method (highest interest first) or snowball method (smallest balance first), 3) Avoid " ++
         "taking on new debt."
       else
         "I specialize in financial education! I can help you with budgeting, saving strategies, " ++
         "investment basics, debt management, and general financial planning. Could you ask me " ++
         "something specific about personal finance?") := by
  have hb := or_longer (toLowerCase m) "budget" "budgeting" "ing".toList (by decide)
  have hi := or_longer (toLowerCase m) "invest" "investment" "ment".toList (by decide)
  refine ⟨?_, ?_, ?_, ?_, ?_⟩
  · intro ht
    have ht2 : trimChars isJsSpace m.data = [] := ht
    by_cases hm : m = ""
    · simp [serve, userRoute, hgate, postChatbot, jsNot, truthy, hm]
    · simp [serve, userRoute, hgate, postChatbot, jsNot, truthy, hm, ht2]
  · intro hl
    have hm : m ≠ "" := by
      rintro rfl
      simp [utf16Length] at hl
    by_cases ht : trimChars isJsSpace m.data = []
    · simp [serve, userRoute, hgate, postChatbot, jsNot, truthy, hm, ht, failure]
    · simp [serve, userRoute, hgate, postChatbot, jsNot, truthy, hm, ht, hl, failure]
  · intro ht hl
    have ht2 : trimChars isJsSpace m.data ≠ [] := ht
    have hm : m ≠ "" := by
      rintro rfl
      exact ht (by decide)
    have hl2 : ¬ 500 < utf16Length m := not_lt.mpr hl
    simp [serve, userRoute, hgate, postChatbot, jsNot, truthy, hm, ht2, hl2]
  · intro m2 h
    simp only [generateFinancialResponse, h]
  · unfold generateFinancialResponse
    simp only [hb, hi]

/-- Witness of C28: for the active user 2, a message of three blanks is
answered 400 and the message `Tips on SAVING?` is answered 200 with the reply
of the group save or saving and the time of the server. -/
theorem chatbot_answers_by_keyword_witness :
    (serve isoEnv (.chatbot (.str "   ")) (sessionOf 2) loginDb).1 =
      failure 400 "Please enter a message" ∧
    (serve isoEnv (.chatbot (.str "Tips on SAVING?")) (sessionOf 2) loginDb).1 =
      ⟨200, true, none,
        .chat ("For effective saving: 1) Pay yourself first (automate savings), 2) Set specific " ++
          "goals, 3) Build an emergency fund (3-6 months of expenses), 4) Consider high-yield " ++
          "savings accounts.") "2024-05-15T12:00:00.000Z"⟩ :=
  ⟨(chatbot_answers_by_keyword isoEnv (sessionOf 2) loginDb "   " (by decide!)).1 (by decide!),
   ((chatbot_answers_by_keyword isoEnv (sessionOf 2) loginDb "Tips on SAVING?"
      (by decide!)).2.2.1 (by decide!) (by decide!)).trans (by decide!)⟩

/-! ## Schema initialisation -/

/-- C29: of the schema text made of a comment line, the statement
`CREATE TABLE t (id INTEGER);` and the statement `CREATE TABLE u (id
INTEGER);`, `init.js` passes the second statement to `db.run` and not the
first: the piece of the text before the first semicolon starts with `--` once
trimmed, and the filter drops it whole. -/
theorem commented_statement_is_skipped :
    executed commentedSchema = ["CREATE TABLE u (id INTEGER)"] := by
  decide!

/-! ## Registration with the role admin -/

theorem foldr_max_ge (l : List Nat) : ∀ n ∈ l, n ≤ l.foldr max 0 := by
  induction l with
  | nil => simp
  | cons a t ih =>
    intro n hn
    simp only [List.mem_cons] at hn
    simp only [List.foldr_cons]
    rcases hn with rfl | hn
    · exact le_max_left _ _
    · exact le_trans (ih n hn) (le_max_right _ _)

theorem lt_nextId {l : List Nat} {n : Nat} (h : n ∈ l) : n < nextId l :=
  Nat.lt_succ_of_le (foldr_max_ge l n h)

/-- C30: for every store, a request to `POST /api/auth/register` sent without
a session, with a name, an email that no user holds, a password of at least 6
characters and the role `admin`, is answered 201 and adds an active user row
with the role `admin`; when the password verifies against its own hash, the
login with that email and password, again without a session, is answered 200
and leaves a session that passes `requireAdmin`.  No admin takes part. -/
theorem register_grants_admin (env : Env) (db : Db) (n e p : String)
    (hn : n ≠ "") (he : e ≠ "") (hlen : 6 ≤ utf16Length p)
    (hfresh : ∀ u ∈ db.users, u.email ≠ .text e)
    (hverify : env.bcryptCompare p (env.bcryptHash p) = true) :
    (serve env (.register (adminBody n e p)) noSession db).1.status = 201 ∧
    (serve env (.register (adminBody n e p)) noSession db).2.users = db.users ++
      [newUserRow (nextId (db.users.map (fun u => u.id))) (adminBody n e p) (env.bcryptHash p)] ∧
    (newUserRow (nextId (db.users.map (fun u => u.id))) (adminBody n e p) (env.bcryptHash p)).role
      = .text "admin" ∧
    (newUserRow (nextId (db.users.map (fun u => u.id))) (adminBody n e p) (env.bcryptHash p)).status
      = .text "active" ∧
    (serve env (.login (.str e) (.str p)) noSession
      (serve env (.register (adminBody n e p)) noSession db).2).1.status = 200 ∧
    requireAdmin
      (sessionAfter env (.login (.str e) (.str p)) noSession
        (serve env (.register (adminBody n e p)) noSession db).2)
      (serve env (.register (adminBody n e p)) noSession db).2 = .next := by
  have hp : p ≠ "" := by
    rintro rfl
    simp [utf16Length] at hlen
  have hlb : lengthBelow (.str p) 6 = false := by
    simp only [lengthBelow, jsLength, numLt, Option.getD_some, decide_eq_false_iff_not, not_lt]
    exact_mod_cast hlen
  have hnone : db.users.find? (fun u => sqlEq u.email (.text e)) = none := by
    rw [List.find?_eq_none]
    intro u hu
    have := hfresh u hu
    cases hm : u.email <;> simp_all [sqlEq]
  generalize hrow :
    newUserRow (nextId (db.users.map (fun u => u.id))) (adminBody n e p) (env.bcryptHash p) = row
  have hrid : row.id = nextId (db.users.map (fun u => u.id)) := by rw [← hrow]; rfl
  have hrmail : row.email = .text e := by rw [← hrow]; rfl
  have hrrole : row.role = .text "admin" := by
    rw [← hrow]; simp [newUserRow, adminBody, withDefault, bind]
  have hrstatus : row.status = .text "active" := by rw [← hrow]; rfl
  have hrhash : row.password_hash = .text (env.bcryptHash p) := by rw [← hrow]; rfl
  have hreg : serve env (.register (adminBody n e p)) noSession db =
      (created "User registered successfully" (nextId (db.users.map (fun u => u.id))),
        { db with users := db.users ++ [row] }) := by
    rw [← hrow]
    simp [serve, postRegister, adminBody, jsNot, truthy, hn, he, hp, hlb, withDefault, bind, hnone,
      hashOf]
  rw [hreg]
  have hfind : (db.users ++ [row]).find? (fun u => sqlEq u.email (.text e)) = some row := by
    rw [List.find?_append, hnone]
    simp [sqlEq, hrmail]
  have hbyId : db.users.find? (fun u => u.id == row.id) = none := by
    rw [List.find?_eq_none]
    intro u hu
    have hlt : u.id < nextId (db.users.map (fun u => u.id)) :=
      lt_nextId (List.mem_map_of_mem (fun u : User => u.id) hu)
    simp [hrid]
    omega
  have hpos : row.id ≠ 0 := by rw [hrid]; simp [nextId]
  refine ⟨rfl, rfl, hrrole, hrstatus, ?_, ?_⟩
  · simp [serve, postLogin, jsNot, truthy, he, hp, bind, hfind, hrstatus, hrhash, compareOf,
      hverify]
  · simp [sessionAfter, postLogin, jsNot, truthy, he, hp, bind, hfind, hrstatus, hrhash, compareOf,
      hverify, requireAdmin, Session.noUserId, hpos, userById, hbyId, hrrole]

/-- Witness of C30: `eve@x` registers as admin in `loginDb`, logs in and
passes `requireAdmin`. -/
theorem register_grants_admin_witness :
    (serve isoEnv (.register (adminBody "eve" "eve@x" "letmein")) noSession loginDb).1.status = 201 ∧
    requireAdmin
      (sessionAfter isoEnv (.login (.str "eve@x") (.str "letmein")) noSession
        (serve isoEnv (.register (adminBody "eve" "eve@x" "letmein")) noSession loginDb).2)
      (serve isoEnv (.register (adminBody "eve" "eve@x" "letmein")) noSession loginDb).2 = .next :=
  have h := register_grants_admin isoEnv loginDb "eve" "eve@x" "letmein" (by decide) (by decide)
    (by decide!) (by decide!) (by decide!)
  ⟨h.1, h.2.2.2.2.2⟩

end CharityApp
